import Mathlib

/-!
# CVSS version 2 scoring and the `oscap cvss` command line

A shallow embedding of two files of OpenSCAP:

* `src/CVSS/public/cvss.h` declares the fourteen metric enumerations and the three
  scoring entry points `cvss_base_score`, `cvss_temp_score`, `cvss_env_score`.
  Their bodies (`cvss.c`) are not among the sources, so the weight tables and the
  formulas are taken from sections 4.1 and 4.2 of the specification, over exact
  rational arithmetic.
* `utils/oscap-cvss.c` holds `print_cvss_usage` and `getopt_cvss`, which are
  embedded statement by statement.  The two libc services `getopt_cvss` relies on,
  `getopt_long` and `atof`, are parameters of the embedding: every theorem about
  `getopt_cvss` holds for each behaviour of those two functions.
-/

namespace Cvss

/-! ## Metric enumerations of `cvss.h`

A C enumeration is an integer type whose enumerators are numbered from zero in
declaration order; each one is embedded as `Fin n` with its enumerators as named
constants. -/

/-- Access Vector (`cvss.h`, lines 69-73). -/
abbrev cvss_access_vector_t := Fin 3
@[match_pattern] def AV_LOCAL : cvss_access_vector_t := 0
@[match_pattern] def AV_ADJACENT_NETWORK : cvss_access_vector_t := 1
@[match_pattern] def AV_NETWORK : cvss_access_vector_t := 2

/-- Access Complexity (`cvss.h`, lines 79-83). -/
abbrev cvss_access_complexity_t := Fin 3
@[match_pattern] def AC_HIGH : cvss_access_complexity_t := 0
@[match_pattern] def AC_MEDIUM : cvss_access_complexity_t := 1
@[match_pattern] def AC_LOW : cvss_access_complexity_t := 2

/-- Authentication (`cvss.h`, lines 89-93). -/
abbrev cvss_authentication_t := Fin 3
@[match_pattern] def AU_NONE : cvss_authentication_t := 0
@[match_pattern] def AU_SINGLE_INSTANCE : cvss_authentication_t := 1
@[match_pattern] def AU_MULTIPLE_INSTANCE : cvss_authentication_t := 2

/-- Confidentiality Impact (`cvss.h`, lines 99-103). -/
abbrev cvss_conf_impact_t := Fin 3
@[match_pattern] def CI_NONE : cvss_conf_impact_t := 0
@[match_pattern] def CI_PARTIAL : cvss_conf_impact_t := 1
@[match_pattern] def CI_COMPLETE : cvss_conf_impact_t := 2

/-- Integrity Impact (`cvss.h`, lines 109-113). -/
abbrev cvss_integ_impact_t := Fin 3
@[match_pattern] def II_NONE : cvss_integ_impact_t := 0
@[match_pattern] def II_PARTIAL : cvss_integ_impact_t := 1
@[match_pattern] def II_COMPLETE : cvss_integ_impact_t := 2

/-- Availability Impact (`cvss.h`, lines 119-123). -/
abbrev cvss_avail_impact_t := Fin 3
@[match_pattern] def AI_NONE : cvss_avail_impact_t := 0
@[match_pattern] def AI_PARTIAL : cvss_avail_impact_t := 1
@[match_pattern] def AI_COMPLETE : cvss_avail_impact_t := 2

/-- Exploitability (`cvss.h`, lines 129-135). -/
abbrev cvss_exploitability_t := Fin 5
@[match_pattern] def EX_UNPROVEN : cvss_exploitability_t := 0
@[match_pattern] def EX_PROOF_OF_CONCEPT : cvss_exploitability_t := 1
@[match_pattern] def EX_FUNCTIONAL : cvss_exploitability_t := 2
@[match_pattern] def EX_HIGH : cvss_exploitability_t := 3
@[match_pattern] def EX_NOT_DEFINED : cvss_exploitability_t := 4

/-- Remediation Level (`cvss.h`, lines 141-147). -/
abbrev cvss_remediation_level_t := Fin 5
@[match_pattern] def RL_OFFICIAL_FIX : cvss_remediation_level_t := 0
@[match_pattern] def RL_TEMPORARY_FIX : cvss_remediation_level_t := 1
@[match_pattern] def RL_WORKAROUND : cvss_remediation_level_t := 2
@[match_pattern] def RL_UNAVAILABLE : cvss_remediation_level_t := 3
@[match_pattern] def RL_NOT_DEFINED : cvss_remediation_level_t := 4

/-- Report Confidence (`cvss.h`, lines 154-159). -/
abbrev cvss_report_confidence_t := Fin 4
@[match_pattern] def RC_UNCONFIRMED : cvss_report_confidence_t := 0
@[match_pattern] def RC_UNCORROBORATED : cvss_report_confidence_t := 1
@[match_pattern] def RC_CONFIRMED : cvss_report_confidence_t := 2
@[match_pattern] def RC_NOT_DEFINED : cvss_report_confidence_t := 3

/-- Collateral Damage Potential (`cvss.h`, lines 165-172). -/
abbrev cvss_collateral_damage_potential_t := Fin 6
@[match_pattern] def CD_NONE : cvss_collateral_damage_potential_t := 0
@[match_pattern] def CD_LOW : cvss_collateral_damage_potential_t := 1
@[match_pattern] def CD_LOW_MEDIUM : cvss_collateral_damage_potential_t := 2
@[match_pattern] def CD_MEDIUM_HIGH : cvss_collateral_damage_potential_t := 3
@[match_pattern] def CD_HIGH : cvss_collateral_damage_potential_t := 4
@[match_pattern] def CD_NOT_DEFINED : cvss_collateral_damage_potential_t := 5

/-- Target Distribution (`cvss.h`, lines 179-185). -/
abbrev cvss_target_distribution_t := Fin 5
@[match_pattern] def TD_NONE : cvss_target_distribution_t := 0
@[match_pattern] def TD_LOW : cvss_target_distribution_t := 1
@[match_pattern] def TD_MEDIUM : cvss_target_distribution_t := 2
@[match_pattern] def TD_HIGH : cvss_target_distribution_t := 3
@[match_pattern] def TD_NOT_DEFINED : cvss_target_distribution_t := 4

/-- Confidentiality Requirement (`cvss.h`, lines 192-197). -/
abbrev cvss_conf_req_t := Fin 4
@[match_pattern] def CR_LOW : cvss_conf_req_t := 0
@[match_pattern] def CR_MEDIUM : cvss_conf_req_t := 1
@[match_pattern] def CR_HIGH : cvss_conf_req_t := 2
@[match_pattern] def CR_NOT_DEFINED : cvss_conf_req_t := 3

/-- Integrity Requirement (`cvss.h`, lines 204-209). -/
abbrev cvss_integ_req_t := Fin 4
@[match_pattern] def IR_LOW : cvss_integ_req_t := 0
@[match_pattern] def IR_MEDIUM : cvss_integ_req_t := 1
@[match_pattern] def IR_HIGH : cvss_integ_req_t := 2
@[match_pattern] def IR_NOT_DEFINED : cvss_integ_req_t := 3

/-- Availability Requirement (`cvss.h`, lines 216-221). -/
abbrev cvss_avail_req_t := Fin 4
@[match_pattern] def AR_LOW : cvss_avail_req_t := 0
@[match_pattern] def AR_MEDIUM : cvss_avail_req_t := 1
@[match_pattern] def AR_HIGH : cvss_avail_req_t := 2
@[match_pattern] def AR_NOT_DEFINED : cvss_avail_req_t := 3

/-! ## Weight tables (specification, section 4.1) -/

/-- Modelled from the spec: the Access Vector weights of section 4.1 (the table of
`cvss.c` is not among the sources). -/
def av_weight : cvss_access_vector_t → ℚ
  | AV_LOCAL => 0.395
  | AV_ADJACENT_NETWORK => 0.646
  | AV_NETWORK => 1.0

/-- Modelled from the spec: the Access Complexity weights of section 4.1 (the table
of `cvss.c` is not among the sources). -/
def ac_weight : cvss_access_complexity_t → ℚ
  | AC_HIGH => 0.35
  | AC_MEDIUM => 0.61
  | AC_LOW => 0.71

/-- Modelled from the spec: the Authentication weights of section 4.1 (the table of
`cvss.c` is not among the sources). -/
def au_weight : cvss_authentication_t → ℚ
  | AU_NONE => 0.704
  | AU_SINGLE_INSTANCE => 0.56
  | AU_MULTIPLE_INSTANCE => 0.45

/-- Modelled from the spec: the Confidentiality Impact weights of section 4.1 (the
table of `cvss.c` is not among the sources). -/
def ci_weight : cvss_conf_impact_t → ℚ
  | CI_NONE => 0.0
  | CI_PARTIAL => 0.275
  | CI_COMPLETE => 0.660

/-- Modelled from the spec: the Integrity Impact weights of section 4.1 (the table of
`cvss.c` is not among the sources). -/
def ii_weight : cvss_integ_impact_t → ℚ
  | II_NONE => 0.0
  | II_PARTIAL => 0.275
  | II_COMPLETE => 0.660

/-- Modelled from the spec: the Availability Impact weights of section 4.1 (the table
of `cvss.c` is not among the sources). -/
def ai_weight : cvss_avail_impact_t → ℚ
  | AI_NONE => 0.0
  | AI_PARTIAL => 0.275
  | AI_COMPLETE => 0.660

/-- Modelled from the spec: the temporal Exploitability weights of section 4.1 (the
table of `cvss.c` is not among the sources). -/
def ex_weight : cvss_exploitability_t → ℚ
  | EX_UNPROVEN => 0.85
  | EX_PROOF_OF_CONCEPT => 0.9
  | EX_FUNCTIONAL => 0.95
  | EX_HIGH => 1.0
  | EX_NOT_DEFINED => 1.0

/-- Modelled from the spec: the Remediation Level weights of section 4.1 (the table
of `cvss.c` is not among the sources). -/
def rl_weight : cvss_remediation_level_t → ℚ
  | RL_OFFICIAL_FIX => 0.87
  | RL_TEMPORARY_FIX => 0.90
  | RL_WORKAROUND => 0.95
  | RL_UNAVAILABLE => 1.00
  | RL_NOT_DEFINED => 1.00

/-- Modelled from the spec: the Report Confidence weights of section 4.1 (the table
of `cvss.c` is not among the sources). -/
def rc_weight : cvss_report_confidence_t → ℚ
  | RC_UNCONFIRMED => 0.90
  | RC_UNCORROBORATED => 0.95
  | RC_CONFIRMED => 1.00
  | RC_NOT_DEFINED => 1.00

/-- Modelled from the spec: the Collateral Damage Potential weights of section 4.1
(the table of `cvss.c` is not among the sources). -/
def cd_weight : cvss_collateral_damage_potential_t → ℚ
  | CD_NONE => 0
  | CD_LOW => 0.1
  | CD_LOW_MEDIUM => 0.3
  | CD_MEDIUM_HIGH => 0.4
  | CD_HIGH => 0.5
  | CD_NOT_DEFINED => 0

/-- Modelled from the spec: the Target Distribution weights of section 4.1 (the table
of `cvss.c` is not among the sources). -/
def td_weight : cvss_target_distribution_t → ℚ
  | TD_NONE => 0
  | TD_LOW => 0.25
  | TD_MEDIUM => 0.75
  | TD_HIGH => 1.0
  | TD_NOT_DEFINED => 1.0

/-- Modelled from the spec: the Confidentiality Requirement weights of section 4.1
(the table of `cvss.c` is not among the sources). -/
def cr_weight : cvss_conf_req_t → ℚ
  | CR_LOW => 0.5
  | CR_MEDIUM => 1.0
  | CR_HIGH => 1.51
  | CR_NOT_DEFINED => 1.0

/-- Modelled from the spec: the Integrity Requirement weights of section 4.1 (the
table of `cvss.c` is not among the sources). -/
def ir_weight : cvss_integ_req_t → ℚ
  | IR_LOW => 0.5
  | IR_MEDIUM => 1.0
  | IR_HIGH => 1.51
  | IR_NOT_DEFINED => 1.0

/-- Modelled from the spec: the Availability Requirement weights of section 4.1 (the
table of `cvss.c` is not among the sources). -/
def ar_weight : cvss_avail_req_t → ℚ
  | AR_LOW => 0.5
  | AR_MEDIUM => 1.0
  | AR_HIGH => 1.51
  | AR_NOT_DEFINED => 1.0

/-! ## Formula evaluator (specification, section 4.2) -/

/-- Modelled from the spec: `round1` of the glossary, round-half-away-from-zero to
one decimal digit (the rounding helper of `cvss.c` is not among the sources). -/
def round1 (x : ℚ) : ℚ :=
  if 0 ≤ x then (⌊x * 10 + 1 / 2⌋ : ℚ) / 10 else -((⌊-x * 10 + 1 / 2⌋ : ℚ) / 10)

/-- Modelled from the spec: the two-branch factor `f(impact)` of section 4.2,
`0 if impact == 0 else 1.176` (its code in `cvss.c` is not among the sources). -/
def f_impact (impact : ℚ) : ℚ :=
  if impact = 0 then 0 else 1.176

/-- Modelled from the spec: `exploitability = 20 * AV * AC * AU` of section 4.2,
unrounded (its code in `cvss.c` is not among the sources). -/
def exploitability (ave : cvss_access_vector_t) (ace : cvss_access_complexity_t)
    (aue : cvss_authentication_t) : ℚ :=
  20 * av_weight ave * ac_weight ace * au_weight aue

/-- Modelled from the spec: `impact = 10.41 * (1 - (1-CI)*(1-II)*(1-AI))` of
section 4.2, unrounded (its code in `cvss.c` is not among the sources). -/
def impact (cie : cvss_conf_impact_t) (iie : cvss_integ_impact_t)
    (aie : cvss_avail_impact_t) : ℚ :=
  10.41 * (1 - (1 - ci_weight cie) * (1 - ii_weight iie) * (1 - ai_weight aie))

/-- The three values `cvss_base_score` writes through its `double *` arguments. -/
structure cvss_base_result where
  base_score : ℚ
  impact_score : ℚ
  exploitability_score : ℚ
  deriving DecidableEq

/-- Modelled from the spec: the base score formula of section 4.2, for the function
declared at `cvss.h` lines 229-233 whose body is not among the sources.  The base
score is composed from the unrounded subscores; the returned subscores are rounded. -/
def cvss_base_score (ave : cvss_access_vector_t) (ace : cvss_access_complexity_t)
    (aue : cvss_authentication_t) (cie : cvss_conf_impact_t) (iie : cvss_integ_impact_t)
    (aie : cvss_avail_impact_t) : cvss_base_result :=
  { base_score :=
      round1 ((0.6 * impact cie iie aie + 0.4 * exploitability ave ace aue - 1.5)
        * f_impact (impact cie iie aie))
    impact_score := round1 (impact cie iie aie)
    exploitability_score := round1 (exploitability ave ace aue) }

/-- Modelled from the spec: the temporal formula of section 4.2,
`round1(base * ExploitabilityTemporal * RemediationLevel * ReportConfidence)` (its
code in `cvss.c` is not among the sources). -/
def temporal_formula (exe : cvss_exploitability_t) (rle : cvss_remediation_level_t)
    (rce : cvss_report_confidence_t) (base_score : ℚ) : ℚ :=
  round1 (base_score * ex_weight exe * rl_weight rle * rc_weight rce)

/-- Modelled from the spec: the temporal score of section 4.2, for the function
declared at `cvss.h` lines 239-241 whose body is not among the sources.  Sections
4.2 and 7 make a base score outside [0.0, 10.0] a precondition failure, reported
and never clamped: the result is `none` there. -/
def cvss_temp_score (exe : cvss_exploitability_t) (rle : cvss_remediation_level_t)
    (rce : cvss_report_confidence_t) (base_score : ℚ) : Option ℚ :=
  if 0 ≤ base_score ∧ base_score ≤ 10 then some (temporal_formula exe rle rce base_score)
  else none

/-- Modelled from the spec: `adj_impact` of section 4.2, the impact recomputed with
the requirement multipliers and clamped at 10. -/
def adj_impact (cre : cvss_conf_req_t) (ire : cvss_integ_req_t) (are : cvss_avail_req_t)
    (cie : cvss_conf_impact_t) (iie : cvss_integ_impact_t) (aie : cvss_avail_impact_t) : ℚ :=
  min 10 (10.41 * (1 - (1 - ci_weight cie * cr_weight cre) * (1 - ii_weight iie * ir_weight ire)
    * (1 - ai_weight aie * ar_weight are)))

/-- Modelled from the spec: `adj_base` of section 4.2, the base formula evaluated
on the adjusted impact. -/
def adj_base (cre : cvss_conf_req_t) (ire : cvss_integ_req_t) (are : cvss_avail_req_t)
    (ave : cvss_access_vector_t) (ace : cvss_access_complexity_t) (aue : cvss_authentication_t)
    (cie : cvss_conf_impact_t) (iie : cvss_integ_impact_t) (aie : cvss_avail_impact_t) : ℚ :=
  round1 ((0.6 * adj_impact cre ire are cie iie aie + 0.4 * exploitability ave ace aue - 1.5)
    * f_impact (adj_impact cre ire are cie iie aie))

/-- Modelled from the spec: the environmental score of section 4.2, for the function
declared at `cvss.h` lines 252-259 whose body is not among the sources; the
arguments are in the order of the declaration. -/
def cvss_env_score (cde : cvss_collateral_damage_potential_t) (tde : cvss_target_distribution_t)
    (cre : cvss_conf_req_t) (ire : cvss_integ_req_t) (are : cvss_avail_req_t)
    (ave : cvss_access_vector_t) (ace : cvss_access_complexity_t) (aue : cvss_authentication_t)
    (cie : cvss_conf_impact_t) (iie : cvss_integ_impact_t) (aie : cvss_avail_impact_t)
    (exe : cvss_exploitability_t) (rle : cvss_remediation_level_t)
    (rce : cvss_report_confidence_t) : ℚ :=
  let adj_temporal := temporal_formula exe rle rce (adj_base cre ire are ave ace aue cie iie aie)
  round1 ((adj_temporal + (10 - adj_temporal) * cd_weight cde) * td_weight tde)

/-! ## The `oscap cvss` command line (`utils/oscap-cvss.c`) -/

/-- Modelled from the spec: the operation selector of section 6.  Its declaration
(`oscap-tool.h`) is not among the sources; these are the four enumerators that
`getopt_cvss` names, and `OSCAP_OP_OTHER` stands for any further enumerator of that
header. -/
inductive oscap_operation where
  | OSCAP_OP_UNKNOWN
  | OSCAP_OP_BASE
  | OSCAP_OP_TEMP
  | OSCAP_OP_ENV
  | OSCAP_OP_OTHER (code : Nat)
  deriving DecidableEq, Repr

/-- Modelled from the spec: the standard selector stored in `action->std`.  Its
declaration (`oscap-tool.h`) is not among the sources; `OSCAP_STD_CVSS` is the one
enumerator `getopt_cvss` names, `OSCAP_STD_OTHER` stands for the others. -/
inductive oscap_document_type where
  | OSCAP_STD_CVSS
  | OSCAP_STD_OTHER (code : Nat)
  deriving DecidableEq, Repr

open oscap_operation oscap_document_type

/-- Modelled from the spec: the metric selection of section 3 (`struct cvss_metrics`
of `oscap-tool.h`, not among the sources), with the fifteen fields `getopt_cvss`
assigns.  The `double` field `base` is a rational. -/
structure cvss_metrics where
  ave : cvss_access_vector_t
  ace : cvss_access_complexity_t
  aue : cvss_authentication_t
  cie : cvss_conf_impact_t
  iie : cvss_integ_impact_t
  aie : cvss_avail_impact_t
  exe : cvss_exploitability_t
  rle : cvss_remediation_level_t
  rce : cvss_report_confidence_t
  cde : cvss_collateral_damage_potential_t
  tde : cvss_target_distribution_t
  cre : cvss_conf_req_t
  ire : cvss_integ_req_t
  are : cvss_avail_req_t
  base : ℚ
  deriving DecidableEq

/-- Modelled from the spec: the part of `struct oscap_action` (`oscap-tool.h`, not
among the sources) that `getopt_cvss` touches.  The field `cvss_metrics` is the
block the pointer `action->cvss_metrics` refers to. -/
structure oscap_action where
  std : oscap_document_type
  op : oscap_operation
  cvss_metrics : cvss_metrics
  deriving DecidableEq

/-- One entry of the `long_options` table: `struct option` of `getopt.h` without its
`flag` member, which is 0 in every row. -/
structure option where
  name : String
  has_arg : Int
  val : Int
  deriving DecidableEq, Repr

/-- The `long_options` table of `getopt_cvss` (lines 100-118), without the
terminating all-zero row. -/
def long_options : List option :=
  [ ⟨"help", 0, ('h'.toNat : Int)⟩,
    ⟨"AV", 1, 0⟩,
    ⟨"AC", 1, 1⟩,
    ⟨"AU", 1, 2⟩,
    ⟨"CI", 1, 3⟩,
    ⟨"II", 1, 4⟩,
    ⟨"AI", 1, 5⟩,
    ⟨"EX", 1, 6⟩,
    ⟨"RL", 1, 7⟩,
    ⟨"RC", 1, 8⟩,
    ⟨"CD", 1, 9⟩,
    ⟨"TD", 1, 10⟩,
    ⟨"CR", 1, 11⟩,
    ⟨"IR", 1, 12⟩,
    ⟨"AR", 1, 13⟩,
    ⟨"base", 1, 14⟩ ]

/-- The short-option string passed to `getopt_long` (line 124). -/
def optstring : String := "+h0:1:2:3:4:5:6:7:8:9:10:11:12:13:14:"

/-- The `Metrics:` lines of the text printed by `print_cvss_usage` (lines 47-60):
each option name with the tokens listed between the brackets. -/
def print_cvss_usage : List (String × List String) :=
  [ ("AV", ["local", "adjacent-network", "network"]),
    ("AC", ["low", "medium", "high"]),
    ("AU", ["none", "single", "multiple"]),
    ("CI", ["none", "partial", "complete"]),
    ("II", ["none", "partial", "complete"]),
    ("AI", ["none", "partial", "complete"]),
    ("EX", ["unproven", "proof-of-concept", "functional", "high", "not-defined"]),
    ("RL", ["official-fix", "temporary-fix", "workaround", "unavailable", "not-defined"]),
    ("RC", ["unconfirmed", "uncorrporated", "confirmed", "not-defined"]),
    ("CD", ["none", "low", "low-medium", "medium-high", "high", "not-defined"]),
    ("TD", ["none", "low", "medium", "high", "not-defined"]),
    ("CR", ["low", "medium", "high", "not-defined"]),
    ("IR", ["low", "medium", "high", "not-defined"]),
    ("AR", ["low", "medium", "high", "not-defined"]) ]

/-- One return of `getopt_long` other than the final -1: the returned value `c` and
the argument the call left in `optarg`. -/
structure getopt_result where
  c : Int
  optarg : String
  deriving DecidableEq, Repr

/-- The behaviour of libc's `getopt_long` as `getopt_cvss` uses it: from `argv`, the
value of `optind` at the first call, the short-option string and the long-option
table, the results of the successive calls up to the one that returns -1. -/
abbrev getopt_long_t := List String → Nat → String → List option → List getopt_result

/-- The local variables of the option loop of `getopt_cvss`: the record behind
`action->cvss_metrics` and the seven occurrence counters of line 122.  A counter
grows by one per long option that `getopt_long` returns, each of which takes at
least one word of `argv`, so it stays below `argc` and never wraps. -/
structure loop_state where
  metrics : cvss_metrics
  ave : Nat
  ace : Nat
  aue : Nat
  cie : Nat
  iie : Nat
  aie : Nat
  base : Nat
  deriving DecidableEq

/-- The body of the `switch (c)` of `getopt_cvss` (lines 125-240) for one result of
`getopt_long`.  The first component is `some r` when the case executes `return r`
and `none` when it reaches `break`; the second is the state it leaves. -/
def cvss_switch (atof : String → ℚ) (r : getopt_result) (s : loop_state) :
    Option Int × loop_state :=
  let optarg := r.optarg
  let m := s.metrics
  if r.c = ('h'.toNat : Int) then (some 0, s)
  else if r.c = 0 then
    let s := { s with ave := s.ave + 1 }
    if optarg = "local" then (none, { s with metrics := { m with ave := AV_LOCAL } })
    else if optarg = "adjacent-network" then
      (none, { s with metrics := { m with ave := AV_ADJACENT_NETWORK } })
    else if optarg = "network" then (none, { s with metrics := { m with ave := AV_NETWORK } })
    else (some (-1), s)
  else if r.c = 1 then
    let s := { s with ace := s.ace + 1 }
    if optarg = "low" then (none, { s with metrics := { m with ace := AC_LOW } })
    else if optarg = "medium" then (none, { s with metrics := { m with ace := AC_MEDIUM } })
    else if optarg = "high" then (none, { s with metrics := { m with ace := AC_HIGH } })
    else (some (-1), s)
  else if r.c = 2 then
    let s := { s with aue := s.aue + 1 }
    if optarg = "none" then (none, { s with metrics := { m with aue := AU_NONE } })
    else if optarg = "single" then
      (none, { s with metrics := { m with aue := AU_SINGLE_INSTANCE } })
    else if optarg = "multiple" then
      (none, { s with metrics := { m with aue := AU_MULTIPLE_INSTANCE } })
    else (some (-1), s)
  else if r.c = 3 then
    let s := { s with cie := s.cie + 1 }
    if optarg = "none" then (none, { s with metrics := { m with cie := CI_NONE } })
    else if optarg = "partial" then (none, { s with metrics := { m with cie := CI_PARTIAL } })
    else if optarg = "complete" then (none, { s with metrics := { m with cie := CI_COMPLETE } })
    else (some (-1), s)
  else if r.c = 4 then
    let s := { s with iie := s.iie + 1 }
    if optarg = "none" then (none, { s with metrics := { m with iie := II_NONE } })
    else if optarg = "partial" then (none, { s with metrics := { m with iie := II_PARTIAL } })
    else if optarg = "complete" then (none, { s with metrics := { m with iie := II_COMPLETE } })
    else (some (-1), s)
  else if r.c = 5 then
    let s := { s with aie := s.aie + 1 }
    if optarg = "none" then (none, { s with metrics := { m with aie := II_NONE } })
    else if optarg = "partial" then (none, { s with metrics := { m with aie := II_PARTIAL } })
    else if optarg = "complete" then (none, { s with metrics := { m with aie := II_COMPLETE } })
    else (some (-1), s)
  else if r.c = 6 then
    if optarg = "unproven" then (none, { s with metrics := { m with exe := EX_UNPROVEN } })
    else if optarg = "proof-of-concept" then
      (none, { s with metrics := { m with exe := EX_PROOF_OF_CONCEPT } })
    else if optarg = "functional" then
      (none, { s with metrics := { m with exe := EX_FUNCTIONAL } })
    else if optarg = "high" then (none, { s with metrics := { m with exe := EX_HIGH } })
    else if optarg = "not-defined" then
      (none, { s with metrics := { m with exe := EX_NOT_DEFINED } })
    else (some (-1), s)
  else if r.c = 7 then
    if optarg = "official-fix" then
      (none, { s with metrics := { m with rle := RL_OFFICIAL_FIX } })
    else if optarg = "temporary-fix" then
      (none, { s with metrics := { m with rle := RL_TEMPORARY_FIX } })
    else if optarg = "workaround" then
      (none, { s with metrics := { m with rle := RL_WORKAROUND } })
    else if optarg = "unavailable" then
      (none, { s with metrics := { m with rle := RL_UNAVAILABLE } })
    else if optarg = "not-defined" then
      (none, { s with metrics := { m with rle := RL_NOT_DEFINED } })
    else (some (-1), s)
  else if r.c = 8 then
    if optarg = "unconfirmed" then
      (none, { s with metrics := { m with rce := RC_UNCONFIRMED } })
    else if optarg = "uncorrporated" then
      (none, { s with metrics := { m with rce := RC_UNCORROBORATED } })
    else if optarg = "confirmed" then
      (none, { s with metrics := { m with rce := RC_CONFIRMED } })
    else if optarg = "not-defined" then
      (none, { s with metrics := { m with rce := RC_NOT_DEFINED } })
    else (some (-1), s)
  else if r.c = 9 then
    if optarg = "none" then (none, { s with metrics := { m with cde := CD_NONE } })
    else if optarg = "low" then (none, { s with metrics := { m with cde := CD_LOW } })
    else if optarg = "low-medium" then
      (none, { s with metrics := { m with cde := CD_LOW_MEDIUM } })
    else if optarg = "medium-high" then
      (none, { s with metrics := { m with cde := CD_MEDIUM_HIGH } })
    else if optarg = "high" then (none, { s with metrics := { m with cde := CD_HIGH } })
    else if optarg = "not-defined" then
      (none, { s with metrics := { m with cde := CD_NOT_DEFINED } })
    else (some (-1), s)
  else if r.c = 10 then
    if optarg = "none" then (none, { s with metrics := { m with tde := TD_NONE } })
    else if optarg = "low" then (none, { s with metrics := { m with tde := TD_LOW } })
    else if optarg = "medium" then (none, { s with metrics := { m with tde := TD_MEDIUM } })
    else if optarg = "high" then (none, { s with metrics := { m with tde := TD_HIGH } })
    else if optarg = "not-defined" then
      (none, { s with metrics := { m with tde := TD_NOT_DEFINED } })
    else (some (-1), s)
  else if r.c = 11 then
    if optarg = "low" then (none, { s with metrics := { m with cre := CR_LOW } })
    else if optarg = "medium" then (none, { s with metrics := { m with cre := CR_MEDIUM } })
    else if optarg = "high" then (none, { s with metrics := { m with cre := CR_HIGH } })
    else if optarg = "not-defined" then
      (none, { s with metrics := { m with cre := CR_NOT_DEFINED } })
    else (some (-1), s)
  else if r.c = 12 then
    if optarg = "low" then (none, { s with metrics := { m with ire := IR_LOW } })
    else if optarg = "medium" then (none, { s with metrics := { m with ire := IR_MEDIUM } })
    else if optarg = "high" then (none, { s with metrics := { m with ire := IR_HIGH } })
    else if optarg = "not-defined" then
      (none, { s with metrics := { m with ire := IR_NOT_DEFINED } })
    else (some (-1), s)
  else if r.c = 13 then
    if optarg = "low" then (none, { s with metrics := { m with are := AR_LOW } })
    else if optarg = "medium" then (none, { s with metrics := { m with are := AR_MEDIUM } })
    else if optarg = "high" then (none, { s with metrics := { m with are := AR_HIGH } })
    else if optarg = "not-defined" then
      (none, { s with metrics := { m with are := AR_NOT_DEFINED } })
    else (some (-1), s)
  else if r.c = 14 then
    (none, { s with base := s.base + 1, metrics := { m with base := atof optarg } })
  else (none, s)

/-- The `while` loop of `getopt_cvss` (lines 124-241) over the successive results of
`getopt_long`: it stops at the first case that returns, and falls out (`none`) when
`getopt_long` has returned -1. -/
def cvss_option_loop (atof : String → ℚ) : List getopt_result → loop_state →
    Option Int × loop_state
  | [], s => (none, s)
  | r :: rs, s =>
    match cvss_switch atof r s with
    | (some ret, s') => (some ret, s')
    | (none, s') => cvss_option_loop atof rs s'

/-- The parameter check that ends `getopt_cvss` (lines 243-260), on the operation
and the occurrence counters. -/
def check_parameters (op : oscap_operation) (s : loop_state) : Int :=
  if op = OSCAP_OP_UNKNOWN then -1
  else if (op = OSCAP_OP_BASE ∨ op = OSCAP_OP_ENV) ∧
      (s.ave = 0 ∨ s.ace = 0 ∨ s.aue = 0 ∨ s.cie = 0 ∨ s.iie = 0 ∨ s.aie = 0) then -1
  else if op = OSCAP_OP_TEMP ∧ s.base = 0 then -1
  else 0

/-- Lines 73-82 of `getopt_cvss`: the standard is set, a fresh record is allocated
(`fresh` is the content `malloc` hands out) and its eight optional fields are set to
their `NOT_DEFINED` enumerator. -/
def cvss_init (fresh : cvss_metrics) (action : oscap_action) : oscap_action :=
  { action with
    std := OSCAP_STD_CVSS
    cvss_metrics :=
      { fresh with
        exe := EX_NOT_DEFINED
        rle := RL_NOT_DEFINED
        rce := RC_NOT_DEFINED
        cde := CD_NOT_DEFINED
        tde := TD_NOT_DEFINED
        cre := CR_NOT_DEFINED
        ire := IR_NOT_DEFINED
        are := AR_NOT_DEFINED } }

/-- Lines 90-97 of `getopt_cvss`: the word at `argv[optind]` selects the operation;
any other word leaves `action->op` as it is and steps `optind` back.  The result is
the operation and the new `optind`. -/
def cvss_command (word : String) (op : oscap_operation) (optind : Nat) :
    oscap_operation × Nat :=
  if word = "base" then (OSCAP_OP_BASE, optind)
  else if word = "temporal" then (OSCAP_OP_TEMP, optind)
  else if word = "environmental" then (OSCAP_OP_ENV, optind)
  else (op, optind - 1)

/-- What a call of `getopt_cvss` leaves behind: the returned `int` and the action
structure behind the pointer (`none` for a null pointer). -/
structure getopt_cvss_result where
  ret : Int
  action : Option oscap_action
  deriving DecidableEq

/-- The function `getopt_cvss` (lines 66-261).  `argc` is the length of `argv`;
`optind` is the value of the global of that name at entry; `action` is `none` for a
null pointer. -/
def getopt_cvss (getopt_long : getopt_long_t) (atof : String → ℚ) (fresh : cvss_metrics)
    (argv : List String) (optind : Nat) (action : Option oscap_action) : getopt_cvss_result :=
  match action with
  | none => ⟨-1, none⟩
  | some action =>
    let action := cvss_init fresh action
    let optind := optind + 1
    if h : optind ≥ argv.length then ⟨-1, some action⟩
    else
      let cmd := cvss_command (argv.get ⟨optind, by omega⟩) action.op optind
      let action := { action with op := cmd.1 }
      let optind := cmd.2 + 1
      let out := cvss_option_loop atof (getopt_long argv optind optstring long_options)
        ⟨action.cvss_metrics, 0, 0, 0, 0, 0, 0, 0⟩
      let action := { action with cvss_metrics := out.2.metrics }
      match out.1 with
      | some ret => ⟨ret, some action⟩
      | none => ⟨check_parameters action.op out.2, some action⟩

/-! ## Vocabulary of the statements -/

/-- The results `getopt_long` hands to the option loop of `getopt_cvss` on `argv`,
given the word that follows the value of `optind` at entry. -/
def parsed_options (getopt_long : getopt_long_t) (argv : List String) (optind : Nat)
    (word : String) : List getopt_result :=
  getopt_long argv ((cvss_command word OSCAP_OP_UNKNOWN (optind + 1)).2 + 1) optstring
    long_options

/-- The closed token set of the option whose `long_options` value is `c`, read off
the usage text; `none` when `c` is not the value of a metric option. -/
def closed_set (c : Int) : Option (List String) :=
  match long_options.find? (fun o => o.val = c) with
  | some o => print_cvss_usage.lookup o.name
  | none => none

/-- The result is a help option (`--help` or `-h`). -/
def is_help (r : getopt_result) : Prop := r.c = ('h'.toNat : Int)

/-- The result is a metric option whose argument is outside its closed token set. -/
def invalid_token (r : getopt_result) : Prop :=
  match closed_set r.c with
  | some tokens => r.optarg ∉ tokens
  | none => False

/-- The option with `long_options` value `c` occurs among the results. -/
def occurs (c : Int) (rs : List getopt_result) : Prop := ∃ r ∈ rs, r.c = c

instance (r : getopt_result) : Decidable (is_help r) := by
  unfold is_help; infer_instance

instance (r : getopt_result) : Decidable (invalid_token r) := by
  unfold invalid_token; cases closed_set r.c <;> infer_instance

instance (c : Int) (rs : List getopt_result) : Decidable (occurs c rs) := by
  unfold occurs; infer_instance

/-- A help option is reached by the option loop: it occurs among the results with
no invalid token before it. -/
def help_first : List getopt_result → Prop
  | [] => False
  | r :: rs => is_help r ∨ (¬ invalid_token r ∧ help_first rs)

instance help_first_decidable : ∀ rs, Decidable (help_first rs)
  | [] => isFalse (fun h => h)
  | r :: rs =>
    have := help_first_decidable rs
    (inferInstance : Decidable (is_help r ∨ (¬ invalid_token r ∧ help_first rs)))

/-- An instance of `getopt_long` for examples: on the command line `argv0` the
successive calls return `results`, on any other command line -1 at once. -/
def getopt_long_on (argv0 : List String) (results : List getopt_result) : getopt_long_t :=
  fun argv _ _ _ => if argv = argv0 then results else []

/-- The last occurrence of the option with `long_options` value `c` among the
results: the first result with that value when the list is read from its end. -/
def last_occurrence (c : Int) (rs : List getopt_result) : Option getopt_result :=
  rs.reverse.find? (fun r => decide (r.c = c))

/-! ## Rounding to one decimal -/

theorem round1_mono {x y : ℚ} (h : x ≤ y) : round1 x ≤ round1 y := by
  unfold round1
  split_ifs with hx hy hy
  · have h1 : ⌊x * 10 + 1 / 2⌋ ≤ ⌊y * 10 + 1 / 2⌋ := Int.floor_mono (by linarith)
    have h2 : (⌊x * 10 + 1 / 2⌋ : ℚ) ≤ ⌊y * 10 + 1 / 2⌋ := by exact_mod_cast h1
    linarith
  · linarith
  · have h1 : (0 : ℚ) ≤ ⌊-x * 10 + 1 / 2⌋ := by
      exact_mod_cast Int.floor_nonneg.mpr (by linarith)
    have h2 : (0 : ℚ) ≤ ⌊y * 10 + 1 / 2⌋ := by
      exact_mod_cast Int.floor_nonneg.mpr (by linarith)
    linarith
  · have h1 : ⌊-y * 10 + 1 / 2⌋ ≤ ⌊-x * 10 + 1 / 2⌋ := Int.floor_mono (by linarith)
    have h2 : (⌊-y * 10 + 1 / 2⌋ : ℚ) ≤ ⌊-x * 10 + 1 / 2⌋ := by exact_mod_cast h1
    linarith

theorem floor_int_add_half (n : ℤ) : ⌊(n : ℚ) + 1 / 2⌋ = n := by
  rw [Int.floor_eq_iff]
  constructor <;> norm_num

theorem round1_tenth (n : ℤ) : round1 ((n : ℚ) / 10) = (n : ℚ) / 10 := by
  unfold round1
  split_ifs with h
  · have e : (n : ℚ) / 10 * 10 + 1 / 2 = (n : ℚ) + 1 / 2 := by ring
    rw [e, floor_int_add_half]
  · have e : -((n : ℚ) / 10) * 10 + 1 / 2 = ((-n : ℤ) : ℚ) + 1 / 2 := by push_cast; ring
    rw [e, floor_int_add_half]
    push_cast; ring

theorem round1_eq_tenth (x : ℚ) : ∃ n : ℤ, round1 x = (n : ℚ) / 10 := by
  unfold round1
  split_ifs with h
  · exact ⟨_, rfl⟩
  · exact ⟨-⌊-x * 10 + 1 / 2⌋, by push_cast; ring⟩

theorem round1_idem (x : ℚ) : round1 (round1 x) = round1 x := by
  obtain ⟨n, hn⟩ := round1_eq_tenth x
  rw [hn, round1_tenth]

theorem le_round1 (n : ℤ) {x : ℚ} (h : (n : ℚ) / 10 ≤ x) : (n : ℚ) / 10 ≤ round1 x := by
  have := round1_mono h
  rwa [round1_tenth] at this

theorem round1_le (n : ℤ) {x : ℚ} (h : x ≤ (n : ℚ) / 10) : round1 x ≤ (n : ℚ) / 10 := by
  have := round1_mono h
  rwa [round1_tenth] at this

theorem round1_le_of_lt_half (n : ℤ) (hn : 0 ≤ n) {x : ℚ} (h : x < (n : ℚ) / 10 + 1 / 20) :
    round1 x ≤ (n : ℚ) / 10 := by
  unfold round1
  split_ifs with hx
  · have h1 : ⌊x * 10 + 1 / 2⌋ < n + 1 := by
      rw [Int.floor_lt]; push_cast; linarith
    have h2 : (⌊x * 10 + 1 / 2⌋ : ℚ) ≤ n := by exact_mod_cast Int.lt_add_one_iff.mp h1
    linarith
  · have h1 : (0 : ℚ) ≤ ⌊-x * 10 + 1 / 2⌋ := by
      exact_mod_cast Int.floor_nonneg.mpr (by linarith)
    have h2 : (0 : ℚ) ≤ n := by exact_mod_cast hn
    linarith


/-! ### Bounds on the weights and on the unrounded terms -/

theorem exploitability_bounds (ave : cvss_access_vector_t) (ace : cvss_access_complexity_t)
    (aue : cvss_authentication_t) :
    1.24425 ≤ exploitability ave ace aue ∧ exploitability ave ace aue ≤ 9.9968 := by
  fin_cases ave <;> fin_cases ace <;> fin_cases aue <;>
    simp [exploitability, av_weight, ac_weight, au_weight] <;> norm_num

theorem impact_cases (cie : cvss_conf_impact_t) (iie : cvss_integ_impact_t)
    (aie : cvss_avail_impact_t) :
    (impact cie iie aie = 0 ∨ 2.86275 ≤ impact cie iie aie) ∧ impact cie iie aie ≤ 10.001 := by
  fin_cases cie <;> fin_cases iie <;> fin_cases aie <;>
    simp [impact, ci_weight, ii_weight, ai_weight] <;> norm_num

theorem temporal_weight_bounds (exe : cvss_exploitability_t) (rle : cvss_remediation_level_t)
    (rce : cvss_report_confidence_t) :
    (0 ≤ ex_weight exe ∧ ex_weight exe ≤ 1) ∧ (0 ≤ rl_weight rle ∧ rl_weight rle ≤ 1) ∧
      (0 ≤ rc_weight rce ∧ rc_weight rce ≤ 1) := by
  refine ⟨?_, ?_, ?_⟩
  · fin_cases exe <;> simp [ex_weight] <;> norm_num
  · fin_cases rle <;> simp [rl_weight] <;> norm_num
  · fin_cases rce <;> simp [rc_weight] <;> norm_num

theorem cd_weight_bounds (cde : cvss_collateral_damage_potential_t) :
    0 ≤ cd_weight cde ∧ cd_weight cde ≤ 1 := by
  fin_cases cde <;> simp [cd_weight] <;> norm_num

theorem td_weight_bounds (tde : cvss_target_distribution_t) :
    0 ≤ td_weight tde ∧ td_weight tde ≤ 1 := by
  fin_cases tde <;> simp [td_weight] <;> norm_num

theorem ci_cr_cases (cie : cvss_conf_impact_t) (cre : cvss_conf_req_t) :
    (ci_weight cie * cr_weight cre = 0 ∨ 0.1375 ≤ ci_weight cie * cr_weight cre) ∧
      ci_weight cie * cr_weight cre ≤ 1 ∧
      (cre ≠ CR_LOW → ci_weight cie * cr_weight cre = 0 ∨
        0.275 ≤ ci_weight cie * cr_weight cre) := by
  fin_cases cie <;> fin_cases cre <;> simp [ci_weight, cr_weight, CR_LOW] <;> norm_num

theorem ii_ir_cases (iie : cvss_integ_impact_t) (ire : cvss_integ_req_t) :
    (ii_weight iie * ir_weight ire = 0 ∨ 0.1375 ≤ ii_weight iie * ir_weight ire) ∧
      ii_weight iie * ir_weight ire ≤ 1 ∧
      (ire ≠ IR_LOW → ii_weight iie * ir_weight ire = 0 ∨
        0.275 ≤ ii_weight iie * ir_weight ire) := by
  fin_cases iie <;> fin_cases ire <;> simp [ii_weight, ir_weight, IR_LOW] <;> norm_num

theorem ai_ar_cases (aie : cvss_avail_impact_t) (are : cvss_avail_req_t) :
    (ai_weight aie * ar_weight are = 0 ∨ 0.1375 ≤ ai_weight aie * ar_weight are) ∧
      ai_weight aie * ar_weight are ≤ 1 ∧
      (are ≠ AR_LOW → ai_weight aie * ar_weight are = 0 ∨
        0.275 ≤ ai_weight aie * ar_weight are) := by
  fin_cases aie <;> fin_cases are <;> simp [ai_weight, ar_weight, AR_LOW] <;> norm_num

/-- For three factors in [0, 1] the product is at most each factor. -/
theorem prod3_le {a b c : ℚ} (ha : 0 ≤ a) (ha1 : a ≤ 1) (hb : 0 ≤ b) (hb1 : b ≤ 1)
    (hc : 0 ≤ c) (hc1 : c ≤ 1) :
    0 ≤ a * b * c ∧ a * b * c ≤ a ∧ a * b * c ≤ b ∧ a * b * c ≤ c := by
  have hab : 0 ≤ a * b := mul_nonneg ha hb
  have hbc : 0 ≤ b * c := mul_nonneg hb hc
  have hac : 0 ≤ a * c := mul_nonneg ha hc
  have hab1 : a * b ≤ 1 := by nlinarith
  have hbc1 : b * c ≤ 1 := by nlinarith
  have hac1 : a * c ≤ 1 := by nlinarith
  refine ⟨mul_nonneg hab hc, ?_, ?_, ?_⟩
  · have : a * (b * c) ≤ a * 1 := mul_le_mul_of_nonneg_left hbc1 ha
    nlinarith
  · have : b * (a * c) ≤ b * 1 := mul_le_mul_of_nonneg_left hac1 hb
    nlinarith
  · have : c * (a * b) ≤ c * 1 := mul_le_mul_of_nonneg_left hab1 hc
    nlinarith

/-- With each product `x`, `y`, `z` either zero or at least `d`, the quantity
`1 - (1-x)(1-y)(1-z)` is either zero or at least `d`. -/
theorem one_sub_prod_cases {x y z d : ℚ} (hd : 0 ≤ d)
    (hx : x = 0 ∨ d ≤ x) (hx1 : x ≤ 1) (hy : y = 0 ∨ d ≤ y) (hy1 : y ≤ 1)
    (hz : z = 0 ∨ d ≤ z) (hz1 : z ≤ 1) :
    1 - (1 - x) * (1 - y) * (1 - z) = 0 ∨ d ≤ 1 - (1 - x) * (1 - y) * (1 - z) := by
  have hx0 : 0 ≤ x := by rcases hx with h | h <;> linarith
  have hy0 : 0 ≤ y := by rcases hy with h | h <;> linarith
  have hz0 : 0 ≤ z := by rcases hz with h | h <;> linarith
  obtain ⟨_, h1, h2, h3⟩ := prod3_le (a := 1 - x) (b := 1 - y) (c := 1 - z)
    (by linarith) (by linarith) (by linarith) (by linarith) (by linarith) (by linarith)
  rcases hx with hx | hx
  · rcases hy with hy | hy
    · rcases hz with hz | hz
      · left; rw [hx, hy, hz]; norm_num
      · right; linarith
    · right; linarith
  · right; linarith

theorem adj_impact_cases (cre : cvss_conf_req_t) (ire : cvss_integ_req_t) (are : cvss_avail_req_t)
    (cie : cvss_conf_impact_t) (iie : cvss_integ_impact_t) (aie : cvss_avail_impact_t) :
    (adj_impact cre ire are cie iie aie = 0 ∨ 1.431375 ≤ adj_impact cre ire are cie iie aie) ∧
      adj_impact cre ire are cie iie aie ≤ 10 ∧
      (cre ≠ CR_LOW → ire ≠ IR_LOW → are ≠ AR_LOW →
        adj_impact cre ire are cie iie aie = 0 ∨
          2.86275 ≤ adj_impact cre ire are cie iie aie) := by
  obtain ⟨hx, hx1, hx'⟩ := ci_cr_cases cie cre
  obtain ⟨hy, hy1, hy'⟩ := ii_ir_cases iie ire
  obtain ⟨hz, hz1, hz'⟩ := ai_ar_cases aie are
  unfold adj_impact
  refine ⟨?_, min_le_left _ _, ?_⟩
  · rcases one_sub_prod_cases (d := 0.1375) (by norm_num) hx hx1 hy hy1 hz hz1 with h | h
    · left; rw [h]; norm_num
    · right; rw [le_min_iff]; constructor
      · norm_num
      · nlinarith
  · intro h1 h2 h3
    rcases one_sub_prod_cases (d := 0.275) (by norm_num) (hx' h1) hx1 (hy' h2) hy1 (hz' h3) hz1
      with h | h
    · left; rw [h]; norm_num
    · right; rw [le_min_iff]; constructor
      · norm_num
      · nlinarith

/-- The composed value `(0.6*impact + 0.4*exploitability - 1.5) * f(impact)` before
rounding lies in [-0.2, 10] when the impact term is zero or at least 1.431375. -/
theorem composed_bounds {i e : ℚ} (hi : i = 0 ∨ 1.431375 ≤ i) (hi1 : i ≤ 10.001)
    (he : 1.24425 ≤ e) (he1 : e ≤ 9.9968) :
    ((-2 : ℤ) : ℚ) / 10 ≤ (0.6 * i + 0.4 * e - 1.5) * f_impact i ∧
      (0.6 * i + 0.4 * e - 1.5) * f_impact i ≤ ((100 : ℤ) : ℚ) / 10 := by
  unfold f_impact
  rcases hi with hi | hi
  · rw [if_pos hi]; norm_num
  · have h0 : i ≠ 0 := by
      intro h; rw [h] at hi; norm_num at hi
    rw [if_neg h0]
    norm_num at hi hi1 he he1 ⊢
    constructor <;> linarith

/-- The composed value is not negative when the impact term is zero or at least
2.86275. -/
theorem composed_nonneg {i e : ℚ} (hi : i = 0 ∨ 2.86275 ≤ i) (he : 1.24425 ≤ e) :
    ((0 : ℤ) : ℚ) / 10 ≤ (0.6 * i + 0.4 * e - 1.5) * f_impact i := by
  unfold f_impact
  rcases hi with hi | hi
  · rw [if_pos hi]; norm_num
  · have h0 : i ≠ 0 := by
      intro h; rw [h] at hi; norm_num at hi
    rw [if_neg h0]
    norm_num at hi he ⊢
    linarith

/-- Scaling a value of `[lo, 10]`, `lo ≤ 0`, by a factor of [0, 1] keeps it there. -/
theorem scale_bounds {b w lo : ℚ} (hlo : lo ≤ 0) (hb : lo ≤ b) (hb1 : b ≤ 10) (hw : 0 ≤ w)
    (hw1 : w ≤ 1) : lo ≤ b * w ∧ b * w ≤ 10 := by
  constructor
  · nlinarith [mul_nonneg (sub_nonneg.mpr hb) hw, mul_nonneg (neg_nonneg.mpr hlo)
      (sub_nonneg.mpr hw1)]
  · nlinarith [mul_nonneg (sub_nonneg.mpr hb1) hw, sub_nonneg.mpr hw1]

theorem temporal_formula_bounds (n : ℤ) (hn : n ≤ 0) (exe : cvss_exploitability_t)
    (rle : cvss_remediation_level_t) (rce : cvss_report_confidence_t) {b : ℚ}
    (hb : (n : ℚ) / 10 ≤ b) (hb1 : b ≤ 10) :
    (n : ℚ) / 10 ≤ temporal_formula exe rle rce b ∧ temporal_formula exe rle rce b ≤ 10 := by
  obtain ⟨⟨he, he1⟩, ⟨hr, hr1⟩, ⟨hc, hc1⟩⟩ := temporal_weight_bounds exe rle rce
  have hn0 : (n : ℚ) / 10 ≤ 0 := by
    have : (n : ℚ) ≤ 0 := by exact_mod_cast hn
    linarith
  obtain ⟨h1, h2⟩ := scale_bounds hn0 hb hb1 he he1
  obtain ⟨h3, h4⟩ := scale_bounds hn0 h1 h2 hr hr1
  obtain ⟨h5, h6⟩ := scale_bounds hn0 h3 h4 hc hc1
  unfold temporal_formula
  refine ⟨le_round1 n h5, ?_⟩
  have := round1_le 100 (x := b * ex_weight exe * rl_weight rle * rc_weight rce)
    (by push_cast; linarith)
  push_cast at this; linarith

theorem adj_base_bounds (cre : cvss_conf_req_t) (ire : cvss_integ_req_t) (are : cvss_avail_req_t)
    (ave : cvss_access_vector_t) (ace : cvss_access_complexity_t) (aue : cvss_authentication_t)
    (cie : cvss_conf_impact_t) (iie : cvss_integ_impact_t) (aie : cvss_avail_impact_t) :
    ((-2 : ℤ) : ℚ) / 10 ≤ adj_base cre ire are ave ace aue cie iie aie ∧
      adj_base cre ire are ave ace aue cie iie aie ≤ 10 ∧
      (cre ≠ CR_LOW → ire ≠ IR_LOW → are ≠ AR_LOW →
        ((0 : ℤ) : ℚ) / 10 ≤ adj_base cre ire are ave ace aue cie iie aie) := by
  obtain ⟨hi, hi1, hi'⟩ := adj_impact_cases cre ire are cie iie aie
  obtain ⟨he, he1⟩ := exploitability_bounds ave ace aue
  obtain ⟨h1, h2⟩ := composed_bounds hi (by norm_num; linarith) he he1
  unfold adj_base
  refine ⟨le_round1 _ h1, ?_, ?_⟩
  · have := round1_le 100 h2
    push_cast at this; linarith
  · intro a b c
    exact le_round1 _ (composed_nonneg (hi' a b c) he)

theorem env_score_bounds (n : ℤ) (hn : n ≤ 0) (cde : cvss_collateral_damage_potential_t)
    (tde : cvss_target_distribution_t) {t : ℚ} (ht : (n : ℚ) / 10 ≤ t) (ht1 : t ≤ 10) :
    (n : ℚ) / 10 ≤ round1 ((t + (10 - t) * cd_weight cde) * td_weight tde) ∧
      round1 ((t + (10 - t) * cd_weight cde) * td_weight tde) ≤ 10 := by
  obtain ⟨hc, hc1⟩ := cd_weight_bounds cde
  obtain ⟨hd, hd1⟩ := td_weight_bounds tde
  have hn0 : (n : ℚ) / 10 ≤ 0 := by
    have : (n : ℚ) ≤ 0 := by exact_mod_cast hn
    linarith
  have hu : (n : ℚ) / 10 ≤ t + (10 - t) * cd_weight cde := by
    nlinarith [mul_nonneg (sub_nonneg.mpr ht1) hc]
  have hu1 : t + (10 - t) * cd_weight cde ≤ 10 := by
    nlinarith [mul_nonneg (sub_nonneg.mpr ht1) (sub_nonneg.mpr hc1)]
  obtain ⟨h1, h2⟩ := scale_bounds hn0 hu hu1 hd hd1
  refine ⟨le_round1 n h1, ?_⟩
  have := round1_le 100 (x := (t + (10 - t) * cd_weight cde) * td_weight tde)
    (by push_cast; linarith)
  push_cast at this; linarith

theorem base_result_bounds (ave : cvss_access_vector_t) (ace : cvss_access_complexity_t)
    (aue : cvss_authentication_t) (cie : cvss_conf_impact_t) (iie : cvss_integ_impact_t)
    (aie : cvss_avail_impact_t) :
    (0 ≤ (cvss_base_score ave ace aue cie iie aie).base_score ∧
      (cvss_base_score ave ace aue cie iie aie).base_score ≤ 10) ∧
    (0 ≤ (cvss_base_score ave ace aue cie iie aie).impact_score ∧
      (cvss_base_score ave ace aue cie iie aie).impact_score ≤ 10) ∧
    (0 ≤ (cvss_base_score ave ace aue cie iie aie).exploitability_score ∧
      (cvss_base_score ave ace aue cie iie aie).exploitability_score ≤ 10) := by
  obtain ⟨hi, hi1⟩ := impact_cases cie iie aie
  obtain ⟨he, he1⟩ := exploitability_bounds ave ace aue
  have hc := composed_nonneg hi he
  have hc1 := (composed_bounds (hi.imp_right (fun h => by norm_num at h ⊢; linarith))
    hi1 he he1).2
  have hi0 : ((0 : ℤ) : ℚ) / 10 ≤ impact cie iie aie := by
    rcases hi with h | h
    · rw [h]; norm_num
    · norm_num at h ⊢; linarith
  have a1 := le_round1 _ hc
  have a2 := round1_le _ hc1
  have a3 := le_round1 _ hi0
  have a4 := round1_le_of_lt_half 100 (by norm_num) (x := impact cie iie aie)
    (by norm_num at hi1 ⊢; linarith)
  have a5 := le_round1 0 (x := exploitability ave ace aue) (by norm_num at he ⊢; linarith)
  have a6 := round1_le 100 (x := exploitability ave ace aue) (by norm_num at he1 ⊢; linarith)
  simp only [cvss_base_score]
  norm_num at a1 a2 a3 a4 a5 a6 ⊢
  exact ⟨⟨a1, a2⟩, ⟨a3, a4⟩, ⟨a5, a6⟩⟩

/-! ### Sign of the adjusted base score -/

theorem round1_nonneg_of {x : ℚ} (h : -(1 / 20) < x) : 0 ≤ round1 x := by
  unfold round1
  split_ifs with hx
  · have h1 : (0 : ℚ) ≤ ⌊x * 10 + 1 / 2⌋ := by
      exact_mod_cast Int.floor_nonneg.mpr (by linarith)
    linarith
  · have h1 : ⌊-x * 10 + 1 / 2⌋ = 0 := by
      rw [Int.floor_eq_iff]
      constructor
      · push_cast; linarith
      · push_cast; linarith
    rw [h1]; norm_num

theorem round1_neg_eq (n : ℤ) {x : ℚ} (hx : x < 0) (h1 : (n : ℚ) - 1 / 2 ≤ -x * 10)
    (h2 : -x * 10 < (n : ℚ) + 1 / 2) : round1 x = -((n : ℚ) / 10) := by
  unfold round1
  rw [if_neg (not_le.mpr hx)]
  have h : ⌊-x * 10 + 1 / 2⌋ = n := by
    rw [Int.floor_eq_iff]
    constructor <;> linarith
  rw [h]

theorem exploitability_least (ave : cvss_access_vector_t) (ace : cvss_access_complexity_t)
    (aue : cvss_authentication_t) :
    (ave = AV_LOCAL ∧ ace = AC_HIGH ∧ aue = AU_MULTIPLE_INSTANCE ∧
        exploitability ave ace aue = 1.24425) ∨
      1.5484 ≤ exploitability ave ace aue := by
  fin_cases ave <;> fin_cases ace <;> fin_cases aue <;>
    simp [exploitability, av_weight, ac_weight, au_weight, AV_LOCAL, AC_HIGH,
      AU_MULTIPLE_INSTANCE] <;> norm_num

theorem ci_cr_values (cie : cvss_conf_impact_t) (cre : cvss_conf_req_t) :
    ((ci_weight cie * cr_weight cre = 0 ∧ cie = CI_NONE) ∨
      (ci_weight cie * cr_weight cre = 0.1375 ∧ cie = CI_PARTIAL ∧ cre = CR_LOW) ∨
      (0.275 ≤ ci_weight cie * cr_weight cre ∧ cie ≠ CI_NONE ∧
        ¬ (cie = CI_PARTIAL ∧ cre = CR_LOW))) ∧
    ci_weight cie * cr_weight cre ≤ 1 := by
  fin_cases cie <;> fin_cases cre <;>
    simp [ci_weight, cr_weight, CI_NONE, CI_PARTIAL, CR_LOW] <;> norm_num

theorem ii_ir_values (iie : cvss_integ_impact_t) (ire : cvss_integ_req_t) :
    ((ii_weight iie * ir_weight ire = 0 ∧ iie = II_NONE) ∨
      (ii_weight iie * ir_weight ire = 0.1375 ∧ iie = II_PARTIAL ∧ ire = IR_LOW) ∨
      (0.275 ≤ ii_weight iie * ir_weight ire ∧ iie ≠ II_NONE ∧
        ¬ (iie = II_PARTIAL ∧ ire = IR_LOW))) ∧
    ii_weight iie * ir_weight ire ≤ 1 := by
  fin_cases iie <;> fin_cases ire <;>
    simp [ii_weight, ir_weight, II_NONE, II_PARTIAL, IR_LOW] <;> norm_num

theorem ai_ar_values (aie : cvss_avail_impact_t) (are : cvss_avail_req_t) :
    ((ai_weight aie * ar_weight are = 0 ∧ aie = AI_NONE) ∨
      (ai_weight aie * ar_weight are = 0.1375 ∧ aie = AI_PARTIAL ∧ are = AR_LOW) ∨
      (0.275 ≤ ai_weight aie * ar_weight are ∧ aie ≠ AI_NONE ∧
        ¬ (aie = AI_PARTIAL ∧ are = AR_LOW))) ∧
    ai_weight aie * ar_weight are ≤ 1 := by
  fin_cases aie <;> fin_cases are <;>
    simp [ai_weight, ar_weight, AI_NONE, AI_PARTIAL, AR_LOW] <;> norm_num

/-- With each of `x`, `y`, `z` equal to 0, equal to 0.1375 or at least 0.275, the
quantity `1 - (1-x)(1-y)(1-z)` is 0 when all three are 0, is 0.1375 when one is
0.1375 and the others 0, and is at least 0.25 otherwise. -/
theorem one_sub_prod_values {x y z : ℚ}
    (hx : x = 0 ∨ x = 0.1375 ∨ 0.275 ≤ x) (hx1 : x ≤ 1)
    (hy : y = 0 ∨ y = 0.1375 ∨ 0.275 ≤ y) (hy1 : y ≤ 1)
    (hz : z = 0 ∨ z = 0.1375 ∨ 0.275 ≤ z) (hz1 : z ≤ 1) :
    (x = 0 ∧ y = 0 ∧ z = 0) ∨
    (x = 0.1375 ∧ y = 0 ∧ z = 0) ∨ (x = 0 ∧ y = 0.1375 ∧ z = 0) ∨
    (x = 0 ∧ y = 0 ∧ z = 0.1375) ∨
    0.25 ≤ 1 - (1 - x) * (1 - y) * (1 - z) := by
  have hx0 : 0 ≤ x := by
    rcases hx with h | h | h
    · rw [h]
    · rw [h]; norm_num
    · norm_num at h; linarith
  have hy0 : 0 ≤ y := by
    rcases hy with h | h | h
    · rw [h]
    · rw [h]; norm_num
    · norm_num at h; linarith
  have hz0 : 0 ≤ z := by
    rcases hz with h | h | h
    · rw [h]
    · rw [h]; norm_num
    · norm_num at h; linarith
  obtain ⟨_, h1, h2, h3⟩ := prod3_le (a := 1 - x) (b := 1 - y) (c := 1 - z)
    (by linarith) (by linarith) (by linarith) (by linarith) (by linarith) (by linarith)
  rcases hx with hx | hx | hx
  · rcases hy with hy | hy | hy
    · rcases hz with hz | hz | hz
      · exact Or.inl ⟨hx, hy, hz⟩
      · exact Or.inr (Or.inr (Or.inr (Or.inl ⟨hx, hy, hz⟩)))
      · right; right; right; right; norm_num at hz ⊢; linarith
    · rcases hz with hz | hz | hz
      · exact Or.inr (Or.inr (Or.inl ⟨hx, hy, hz⟩))
      · right; right; right; right; rw [hx, hy, hz]; norm_num
      · right; right; right; right; norm_num at hz ⊢; linarith
    · right; right; right; right; norm_num at hy ⊢; linarith
  · rcases hy with hy | hy | hy
    · rcases hz with hz | hz | hz
      · exact Or.inr (Or.inl ⟨hx, hy, hz⟩)
      · right; right; right; right; rw [hx, hy, hz]; norm_num
      · right; right; right; right; norm_num at hz ⊢; linarith
    · right; right; right; right
      rw [hx, hy]
      norm_num
      linarith
    · right; right; right; right; norm_num at hy ⊢; linarith
  · right; right; right; right; norm_num at hx ⊢; linarith

/-- The adjusted base score is -0.2 when AV=Local, AC=High, AU=Multiple and exactly
one impact is Partial under a Low requirement while the other two impacts are None;
it is not negative for any other combination. -/
theorem adj_base_sign (cre : cvss_conf_req_t) (ire : cvss_integ_req_t) (are : cvss_avail_req_t)
    (ave : cvss_access_vector_t) (ace : cvss_access_complexity_t) (aue : cvss_authentication_t)
    (cie : cvss_conf_impact_t) (iie : cvss_integ_impact_t) (aie : cvss_avail_impact_t) :
    (((ave = AV_LOCAL ∧ ace = AC_HIGH ∧ aue = AU_MULTIPLE_INSTANCE) ∧
        ((cie = CI_PARTIAL ∧ cre = CR_LOW ∧ iie = II_NONE ∧ aie = AI_NONE) ∨
          (iie = II_PARTIAL ∧ ire = IR_LOW ∧ cie = CI_NONE ∧ aie = AI_NONE) ∨
          (aie = AI_PARTIAL ∧ are = AR_LOW ∧ cie = CI_NONE ∧ iie = II_NONE))) →
      adj_base cre ire are ave ace aue cie iie aie = -(((2 : ℤ) : ℚ) / 10)) ∧
    (¬ ((ave = AV_LOCAL ∧ ace = AC_HIGH ∧ aue = AU_MULTIPLE_INSTANCE) ∧
        ((cie = CI_PARTIAL ∧ cre = CR_LOW ∧ iie = II_NONE ∧ aie = AI_NONE) ∨
          (iie = II_PARTIAL ∧ ire = IR_LOW ∧ cie = CI_NONE ∧ aie = AI_NONE) ∨
          (aie = AI_PARTIAL ∧ are = AR_LOW ∧ cie = CI_NONE ∧ iie = II_NONE))) →
      0 ≤ adj_base cre ire are ave ace aue cie iie aie) := by
  obtain ⟨hx, hx1⟩ := ci_cr_values cie cre
  obtain ⟨hy, hy1⟩ := ii_ir_values iie ire
  obtain ⟨hz, hz1⟩ := ai_ar_values aie are
  obtain ⟨he, he1⟩ := exploitability_bounds ave ace aue
  have hvals := one_sub_prod_values
    (hx.imp (fun h => h.1) (Or.imp (fun h => h.1) (fun h => h.1))) hx1
    (hy.imp (fun h => h.1) (Or.imp (fun h => h.1) (fun h => h.1))) hy1
    (hz.imp (fun h => h.1) (Or.imp (fun h => h.1) (fun h => h.1))) hz1
  -- the composed value when exactly one product is 0.1375 and the others are 0
  have one : ∀ {x y z : ℚ}, 1 - (1 - x) * (1 - y) * (1 - z) = 0.1375 →
      min 10 (10.41 * (1 - (1 - x) * (1 - y) * (1 - z))) = 1.431375 := by
    intro x y z h
    rw [h, min_eq_right] <;> norm_num
  have neg : ∀ A : ℚ, A = 1.431375 → exploitability ave ace aue = 1.24425 →
      round1 ((0.6 * A + 0.4 * exploitability ave ace aue - 1.5) * f_impact A)
        = -(((2 : ℤ) : ℚ) / 10) := by
    intro A hA hE
    rw [hA, hE]
    have hf : f_impact 1.431375 = 1.176 := by
      unfold f_impact; rw [if_neg]; norm_num
    rw [hf]
    apply round1_neg_eq 2 <;> norm_num
  have small : ∀ A : ℚ, A = 1.431375 → 1.5484 ≤ exploitability ave ace aue →
      0 ≤ round1 ((0.6 * A + 0.4 * exploitability ave ace aue - 1.5) * f_impact A) := by
    intro A hA hE
    rw [hA]
    have hf : f_impact 1.431375 = 1.176 := by
      unfold f_impact; rw [if_neg]; norm_num
    rw [hf]
    apply round1_nonneg_of
    norm_num at hE ⊢
    linarith
  have zero : ∀ A : ℚ, A = 0 →
      0 ≤ round1 ((0.6 * A + 0.4 * exploitability ave ace aue - 1.5) * f_impact A) := by
    intro A hA
    rw [hA]
    apply round1_nonneg_of
    simp [f_impact]
  have large : ∀ A : ℚ, 2.6 ≤ A →
      0 ≤ round1 ((0.6 * A + 0.4 * exploitability ave ace aue - 1.5) * f_impact A) := by
    intro A hA
    have hA0 : A ≠ 0 := by
      intro h; rw [h] at hA; norm_num at hA
    apply round1_nonneg_of
    unfold f_impact
    rw [if_neg hA0]
    norm_num at hA he ⊢
    linarith
  have cx : ci_weight cie * cr_weight cre = 0.1375 → cie = CI_PARTIAL ∧ cre = CR_LOW := by
    intro h
    rcases hx with ⟨h', _⟩ | ⟨_, h'⟩ | ⟨h', _⟩
    · rw [h] at h'; norm_num at h'
    · exact h'
    · rw [h] at h'; norm_num at h'
  have cy : ii_weight iie * ir_weight ire = 0.1375 → iie = II_PARTIAL ∧ ire = IR_LOW := by
    intro h
    rcases hy with ⟨h', _⟩ | ⟨_, h'⟩ | ⟨h', _⟩
    · rw [h] at h'; norm_num at h'
    · exact h'
    · rw [h] at h'; norm_num at h'
  have cz : ai_weight aie * ar_weight are = 0.1375 → aie = AI_PARTIAL ∧ are = AR_LOW := by
    intro h
    rcases hz with ⟨h', _⟩ | ⟨_, h'⟩ | ⟨h', _⟩
    · rw [h] at h'; norm_num at h'
    · exact h'
    · rw [h] at h'; norm_num at h'
  have cx0 : ci_weight cie * cr_weight cre = 0 → cie = CI_NONE := by
    intro h
    rcases hx with ⟨_, h'⟩ | ⟨h', _⟩ | ⟨h', _⟩
    · exact h'
    · rw [h] at h'; norm_num at h'
    · rw [h] at h'; norm_num at h'
  have cy0 : ii_weight iie * ir_weight ire = 0 → iie = II_NONE := by
    intro h
    rcases hy with ⟨_, h'⟩ | ⟨h', _⟩ | ⟨h', _⟩
    · exact h'
    · rw [h] at h'; norm_num at h'
    · rw [h] at h'; norm_num at h'
  have cz0 : ai_weight aie * ar_weight are = 0 → aie = AI_NONE := by
    intro h
    rcases hz with ⟨_, h'⟩ | ⟨h', _⟩ | ⟨h', _⟩
    · exact h'
    · rw [h] at h'; norm_num at h'
    · rw [h] at h'; norm_num at h'
  have hP : ∀ a b c : ℚ, ci_weight cie * cr_weight cre = a → ii_weight iie * ir_weight ire = b →
      ai_weight aie * ar_weight are = c → 1 - (1 - a) * (1 - b) * (1 - c) = 0.1375 →
      1 - (1 - ci_weight cie * cr_weight cre) * (1 - ii_weight iie * ir_weight ire) *
        (1 - ai_weight aie * ar_weight are) = 0.1375 := by
    intro a b c ha hb hc h
    rw [ha, hb, hc]; exact h
  unfold adj_base adj_impact
  constructor
  · rintro ⟨⟨hav, hac, hau⟩, hI⟩
    have hE : exploitability ave ace aue = 1.24425 := by
      rcases exploitability_least ave ace aue with h | h
      · exact h.2.2.2
      · rw [hav, hac, hau] at h
        norm_num [exploitability, av_weight, ac_weight, au_weight, AV_LOCAL, AC_HIGH,
          AU_MULTIPLE_INSTANCE] at h
    rcases hI with ⟨h1, h2, h3, h4⟩ | ⟨h1, h2, h3, h4⟩ | ⟨h1, h2, h3, h4⟩
    · refine neg _ (one (hP 0.1375 0 0 ?_ ?_ ?_ (by norm_num))) hE
      · rw [h1, h2]; norm_num [ci_weight, cr_weight, CI_PARTIAL, CR_LOW]
      · rw [h3]; norm_num [ii_weight, II_NONE]
      · rw [h4]; norm_num [ai_weight, AI_NONE]
    · refine neg _ (one (hP 0 0.1375 0 ?_ ?_ ?_ (by norm_num))) hE
      · rw [h3]; norm_num [ci_weight, CI_NONE]
      · rw [h1, h2]; norm_num [ii_weight, ir_weight, II_PARTIAL, IR_LOW]
      · rw [h4]; norm_num [ai_weight, AI_NONE]
    · refine neg _ (one (hP 0 0 0.1375 ?_ ?_ ?_ (by norm_num))) hE
      · rw [h3]; norm_num [ci_weight, CI_NONE]
      · rw [h4]; norm_num [ii_weight, II_NONE]
      · rw [h1, h2]; norm_num [ai_weight, ar_weight, AI_PARTIAL, AR_LOW]
  · intro hN
    have hsmall : 1 - (1 - ci_weight cie * cr_weight cre) * (1 - ii_weight iie * ir_weight ire) *
        (1 - ai_weight aie * ar_weight are) = 0.1375 →
        ((cie = CI_PARTIAL ∧ cre = CR_LOW ∧ iie = II_NONE ∧ aie = AI_NONE) ∨
          (iie = II_PARTIAL ∧ ire = IR_LOW ∧ cie = CI_NONE ∧ aie = AI_NONE) ∨
          (aie = AI_PARTIAL ∧ are = AR_LOW ∧ cie = CI_NONE ∧ iie = II_NONE)) →
        0 ≤ round1 ((0.6 * min 10 (10.41 * (1 - (1 - ci_weight cie * cr_weight cre) *
            (1 - ii_weight iie * ir_weight ire) * (1 - ai_weight aie * ar_weight are)))
          + 0.4 * exploitability ave ace aue - 1.5) *
          f_impact (min 10 (10.41 * (1 - (1 - ci_weight cie * cr_weight cre) *
            (1 - ii_weight iie * ir_weight ire) * (1 - ai_weight aie * ar_weight are))))) := by
      intro hp hI
      rcases exploitability_least ave ace aue with h | h
      · exact absurd ⟨⟨h.1, h.2.1, h.2.2.1⟩, hI⟩ hN
      · exact small _ (one hp) h
    rcases hvals with ⟨a, b, c⟩ | ⟨a, b, c⟩ | ⟨a, b, c⟩ | ⟨a, b, c⟩ | h
    · apply zero
      rw [a, b, c]; norm_num
    · exact hsmall (hP _ _ _ a b c (by norm_num))
        (Or.inl ⟨(cx a).1, (cx a).2, cy0 b, cz0 c⟩)
    · exact hsmall (hP _ _ _ a b c (by norm_num))
        (Or.inr (Or.inl ⟨(cy b).1, (cy b).2, cx0 a, cz0 c⟩))
    · exact hsmall (hP _ _ _ a b c (by norm_num))
        (Or.inr (Or.inr ⟨(cz c).1, (cz c).2, cx0 a, cy0 b⟩))
    · apply large
      rw [le_min_iff]
      constructor
      · norm_num
      · norm_num at h ⊢; linarith

theorem temporal_weight_lower (exe : cvss_exploitability_t) (rle : cvss_remediation_level_t)
    (rce : cvss_report_confidence_t) :
    0.85 ≤ ex_weight exe ∧ 0.87 ≤ rl_weight rle ∧ 0.9 ≤ rc_weight rce := by
  refine ⟨?_, ?_, ?_⟩
  · fin_cases exe <;> simp [ex_weight] <;> norm_num
  · fin_cases rle <;> simp [rl_weight] <;> norm_num
  · fin_cases rce <;> simp [rc_weight] <;> norm_num

/-- The temporal formula on the adjusted base score -0.2: the result is -0.2 when
the product of the three temporal weights is at least 0.75, and -0.1 below. -/
theorem temporal_formula_neg (exe : cvss_exploitability_t) (rle : cvss_remediation_level_t)
    (rce : cvss_report_confidence_t) :
    temporal_formula exe rle rce (-(((2 : ℤ) : ℚ) / 10)) =
      if 0.75 ≤ ex_weight exe * rl_weight rle * rc_weight rce then -(((2 : ℤ) : ℚ) / 10)
      else -(((1 : ℤ) : ℚ) / 10) := by
  obtain ⟨⟨_, he1⟩, ⟨_, hr1⟩, ⟨_, hc1⟩⟩ := temporal_weight_bounds exe rle rce
  obtain ⟨he, hr, hc⟩ := temporal_weight_lower exe rle rce
  norm_num at he hr hc
  have h12 : 7 / 10 ≤ ex_weight exe * rl_weight rle := by
    nlinarith [mul_nonneg (sub_nonneg.mpr he) (sub_nonneg.mpr hr)]
  have h12' : ex_weight exe * rl_weight rle ≤ 1 := by
    nlinarith [mul_nonneg (sub_nonneg.mpr he1) (sub_nonneg.mpr hr1)]
  have hw : 6 / 10 ≤ ex_weight exe * rl_weight rle * rc_weight rce := by
    nlinarith [mul_nonneg (sub_nonneg.mpr h12) (sub_nonneg.mpr hc)]
  have hw1 : ex_weight exe * rl_weight rle * rc_weight rce ≤ 1 := by
    nlinarith [mul_nonneg (sub_nonneg.mpr h12') (sub_nonneg.mpr hc1)]
  have e : -(((2 : ℤ) : ℚ) / 10) * ex_weight exe * rl_weight rle * rc_weight rce =
      -(2 / 10 * (ex_weight exe * rl_weight rle * rc_weight rce)) := by
    push_cast; ring
  unfold temporal_formula
  rw [e]
  generalize ex_weight exe * rl_weight rle * rc_weight rce = w at hw hw1 ⊢
  split_ifs with h75
  · apply round1_neg_eq 2
    · linarith
    · norm_num at h75 ⊢; linarith
    · norm_num; linarith
  · apply round1_neg_eq 1
    · linarith
    · norm_num; linarith
    · norm_num at h75 ⊢; linarith

/-- The last step of the environmental formula on an adjusted temporal score of
-0.2: the result is negative exactly when the collateral damage weight is 0 and the
target distribution is not None. -/
theorem env_step_neg2 (cde : cvss_collateral_damage_potential_t)
    (tde : cvss_target_distribution_t) :
    round1 ((-(((2 : ℤ) : ℚ) / 10) + (10 - -(((2 : ℤ) : ℚ) / 10)) * cd_weight cde)
        * td_weight tde) < 0 ↔
      (cde = CD_NONE ∨ cde = CD_NOT_DEFINED) ∧ tde ≠ TD_NONE := by
  fin_cases cde <;> fin_cases tde <;> decide!

/-- The last step of the environmental formula on an adjusted temporal score of
-0.1: the result is negative exactly when the collateral damage weight is 0 and the
target distribution is neither None nor Low. -/
theorem env_step_neg1 (cde : cvss_collateral_damage_potential_t)
    (tde : cvss_target_distribution_t) :
    round1 ((-(((1 : ℤ) : ℚ) / 10) + (10 - -(((1 : ℤ) : ℚ) / 10)) * cd_weight cde)
        * td_weight tde) < 0 ↔
      (cde = CD_NONE ∨ cde = CD_NOT_DEFINED) ∧ tde ≠ TD_NONE ∧ tde ≠ TD_LOW := by
  fin_cases cde <;> fin_cases tde <;> decide!

/-! ### C1: range of the three scores -/

/-- C1 (counterexample): the environmental score of AV=Local, AC=High, AU=Multiple,
CI=Partial, II=AI=None with CR=Low and every other metric NotDefined is -0.2, which
is outside [0.0, 10.0]. -/
theorem env_score_below_zero :
    cvss_env_score CD_NOT_DEFINED TD_NOT_DEFINED CR_LOW IR_NOT_DEFINED AR_NOT_DEFINED
        AV_LOCAL AC_HIGH AU_MULTIPLE_INSTANCE CI_PARTIAL II_NONE AI_NONE
        EX_NOT_DEFINED RL_NOT_DEFINED RC_NOT_DEFINED = -0.2 ∧
      ¬ (0 ≤ cvss_env_score CD_NOT_DEFINED TD_NOT_DEFINED CR_LOW IR_NOT_DEFINED AR_NOT_DEFINED
        AV_LOCAL AC_HIGH AU_MULTIPLE_INSTANCE CI_PARTIAL II_NONE AI_NONE
        EX_NOT_DEFINED RL_NOT_DEFINED RC_NOT_DEFINED) := by
  decide!

/-- C1 (amended): for every combination of the six base metrics the base score and
the rounded impact and exploitability subscores lie in [0.0, 10.0]; for every base
score in [0.0, 10.0] and every EX/RL/RC the temporal score is returned and lies in
[0.0, 10.0]; for every combination of the fourteen metrics the environmental score
lies in [-0.2, 10.0], and it is below 0.0 exactly when AV=Local, AC=High,
AU=Multiple, one impact is Partial under a Low requirement while the other two
impacts are None, CD is None or NotDefined, TD is not None, and, if TD is Low, the
product of the three temporal weights is at least 0.75; in every other case it lies
in [0.0, 10.0].  The bounds of the base score are attained: Network/Low/None with
three Complete impacts gives 10.0, and three None impacts give 0.0. -/
theorem score_ranges :
    (∀ ave ace aue cie iie aie,
      (0 ≤ (cvss_base_score ave ace aue cie iie aie).base_score ∧
        (cvss_base_score ave ace aue cie iie aie).base_score ≤ 10) ∧
      (0 ≤ (cvss_base_score ave ace aue cie iie aie).impact_score ∧
        (cvss_base_score ave ace aue cie iie aie).impact_score ≤ 10) ∧
      (0 ≤ (cvss_base_score ave ace aue cie iie aie).exploitability_score ∧
        (cvss_base_score ave ace aue cie iie aie).exploitability_score ≤ 10)) ∧
    (∀ exe rle rce (b : ℚ), 0 ≤ b → b ≤ 10 →
      ∃ t, cvss_temp_score exe rle rce b = some t ∧ 0 ≤ t ∧ t ≤ 10) ∧
    (∀ cde tde cre ire are ave ace aue cie iie aie exe rle rce,
      -0.2 ≤ cvss_env_score cde tde cre ire are ave ace aue cie iie aie exe rle rce ∧
      cvss_env_score cde tde cre ire are ave ace aue cie iie aie exe rle rce ≤ 10 ∧
      (cvss_env_score cde tde cre ire are ave ace aue cie iie aie exe rle rce < 0 ↔
        (ave = AV_LOCAL ∧ ace = AC_HIGH ∧ aue = AU_MULTIPLE_INSTANCE) ∧
        ((cie = CI_PARTIAL ∧ cre = CR_LOW ∧ iie = II_NONE ∧ aie = AI_NONE) ∨
          (iie = II_PARTIAL ∧ ire = IR_LOW ∧ cie = CI_NONE ∧ aie = AI_NONE) ∨
          (aie = AI_PARTIAL ∧ are = AR_LOW ∧ cie = CI_NONE ∧ iie = II_NONE)) ∧
        (cde = CD_NONE ∨ cde = CD_NOT_DEFINED) ∧ tde ≠ TD_NONE ∧
        (tde = TD_LOW → 0.75 ≤ ex_weight exe * rl_weight rle * rc_weight rce))) ∧
    (cvss_base_score AV_NETWORK AC_LOW AU_NONE CI_COMPLETE II_COMPLETE AI_COMPLETE).base_score
      = 10 ∧
    (∀ ave ace aue, (cvss_base_score ave ace aue CI_NONE II_NONE AI_NONE).base_score = 0) := by
  refine ⟨?_, ?_, ?_, by decide!, ?_⟩
  · exact base_result_bounds
  · intro exe rle rce b hb hb1
    refine ⟨temporal_formula exe rle rce b, by simp [cvss_temp_score, hb, hb1], ?_⟩
    have := temporal_formula_bounds 0 le_rfl exe rle rce (b := b) (by simpa using hb) hb1
    simpa using this
  · intro cde tde cre ire are ave ace aue cie iie aie exe rle rce
    obtain ⟨h1, h2, _⟩ := adj_base_bounds cre ire are ave ace aue cie iie aie
    obtain ⟨t1, t2⟩ := temporal_formula_bounds (-2) (by norm_num) exe rle rce h1 h2
    obtain ⟨e1, e2⟩ := env_score_bounds (-2) (by norm_num) cde tde t1 t2
    obtain ⟨sneg, spos⟩ := adj_base_sign cre ire are ave ace aue cie iie aie
    refine ⟨?_, e2, ?_⟩
    · simp only [cvss_env_score]; norm_num at e1 ⊢; linarith
    · by_cases hN : (ave = AV_LOCAL ∧ ace = AC_HIGH ∧ aue = AU_MULTIPLE_INSTANCE) ∧
          ((cie = CI_PARTIAL ∧ cre = CR_LOW ∧ iie = II_NONE ∧ aie = AI_NONE) ∨
            (iie = II_PARTIAL ∧ ire = IR_LOW ∧ cie = CI_NONE ∧ aie = AI_NONE) ∨
            (aie = AI_PARTIAL ∧ are = AR_LOW ∧ cie = CI_NONE ∧ iie = II_NONE))
      · simp only [cvss_env_score]
        rw [sneg hN, temporal_formula_neg]
        split_ifs with h75
        · rw [env_step_neg2]
          constructor
          · rintro ⟨hc, ht⟩
            exact ⟨hN.1, hN.2, hc, ht, fun _ => h75⟩
          · rintro ⟨_, _, hc, ht, _⟩
            exact ⟨hc, ht⟩
        · rw [env_step_neg1]
          constructor
          · rintro ⟨hc, ht, hl⟩
            exact ⟨hN.1, hN.2, hc, ht, fun h => absurd h hl⟩
          · rintro ⟨_, _, hc, ht, hl⟩
            exact ⟨hc, ht, fun h => h75 (hl h)⟩
      · have hb0 : ((0 : ℤ) : ℚ) / 10 ≤ adj_base cre ire are ave ace aue cie iie aie := by
          simpa using spos hN
        obtain ⟨t3, t4⟩ := temporal_formula_bounds 0 le_rfl exe rle rce hb0 h2
        have h0 := (env_score_bounds 0 le_rfl cde tde t3 t4).1
        have h0' : 0 ≤ cvss_env_score cde tde cre ire are ave ace aue cie iie aie exe rle rce := by
          simp only [cvss_env_score]; norm_num at h0 ⊢; linarith
        constructor
        · intro hlt; exact absurd hlt (not_lt.mpr h0')
        · rintro ⟨ha, hi, _⟩; exact absurd ⟨ha, hi⟩ hN
  · intro ave ace aue
    have : impact CI_NONE II_NONE AI_NONE = 0 := by
      norm_num [impact, ci_weight, ii_weight, ai_weight]
    simp only [cvss_base_score, this, f_impact, round1]
    norm_num

/-- C1 (witness): the range statement used at base score 7.8 with EX=Functional,
RL=Workaround, RC=Confirmed, and the characterisation of the negative environmental
scores used at AV=Local, AC=High, AU=Multiple, II=Partial under IR=Low, CD=None,
TD=High. -/
theorem score_ranges_witness :
    ((0 : ℚ) ≤ 7.8 ∧ (7.8 : ℚ) ≤ 10 ∧
      ∃ t, cvss_temp_score EX_FUNCTIONAL RL_WORKAROUND RC_CONFIRMED 7.8 = some t ∧
        0 ≤ t ∧ t ≤ 10) ∧
    cvss_env_score CD_NONE TD_HIGH CR_MEDIUM IR_LOW AR_HIGH AV_LOCAL AC_HIGH
      AU_MULTIPLE_INSTANCE CI_NONE II_PARTIAL AI_NONE EX_UNPROVEN RL_OFFICIAL_FIX
      RC_UNCONFIRMED < 0 :=
  ⟨⟨by norm_num, by norm_num,
      score_ranges.2.1 EX_FUNCTIONAL RL_WORKAROUND RC_CONFIRMED 7.8 (by norm_num) (by norm_num)⟩,
    (score_ranges.2.2.1 CD_NONE TD_HIGH CR_MEDIUM IR_LOW AR_HIGH AV_LOCAL AC_HIGH
      AU_MULTIPLE_INSTANCE CI_NONE II_PARTIAL AI_NONE EX_UNPROVEN RL_OFFICIAL_FIX
      RC_UNCONFIRMED).2.2.mpr
      ⟨⟨rfl, rfl, rfl⟩, Or.inr (Or.inl ⟨rfl, rfl, rfl, rfl⟩), Or.inl rfl, by decide,
        fun h => absurd h (by decide)⟩⟩


/-! ### C7 and C8: NotDefined neutrality -/

theorem adj_impact_neutral (cie : cvss_conf_impact_t) (iie : cvss_integ_impact_t)
    (aie : cvss_avail_impact_t)
    (h : ¬ (cie = CI_COMPLETE ∧ iie = II_COMPLETE ∧ aie = AI_COMPLETE)) :
    adj_impact CR_NOT_DEFINED IR_NOT_DEFINED AR_NOT_DEFINED cie iie aie = impact cie iie aie := by
  fin_cases cie <;> fin_cases iie <;> fin_cases aie <;>
    first
    | (exfalso; apply h; decide)
    | (simp [adj_impact, impact, ci_weight, ii_weight, ai_weight, cr_weight, ir_weight,
        ar_weight, CR_NOT_DEFINED, IR_NOT_DEFINED, AR_NOT_DEFINED]; norm_num)

theorem adj_base_neutral (ave : cvss_access_vector_t) (ace : cvss_access_complexity_t)
    (aue : cvss_authentication_t) (cie : cvss_conf_impact_t) (iie : cvss_integ_impact_t)
    (aie : cvss_avail_impact_t)
    (h : ¬ (ave = AV_LOCAL ∧ ace = AC_LOW ∧ aue = AU_NONE ∧ cie = CI_COMPLETE ∧
      iie = II_COMPLETE ∧ aie = AI_COMPLETE)) :
    adj_base CR_NOT_DEFINED IR_NOT_DEFINED AR_NOT_DEFINED ave ace aue cie iie aie =
      (cvss_base_score ave ace aue cie iie aie).base_score := by
  by_cases hc : cie = CI_COMPLETE ∧ iie = II_COMPLETE ∧ aie = AI_COMPLETE
  · obtain ⟨rfl, rfl, rfl⟩ := hc
    fin_cases ave <;> fin_cases ace <;> fin_cases aue <;>
      first
      | (exfalso; apply h; decide)
      | decide!
  · simp only [adj_base, cvss_base_score, adj_impact_neutral cie iie aie hc]

/-- C7 (counterexample): for AV=Local, AC=Low, AU=None, CI=II=AI=Complete and all
temporal and environmental metrics NotDefined, the temporal score of the base score
is 7.2 while the environmental score is 7.1. -/
theorem env_neutrality_fails :
    cvss_temp_score EX_NOT_DEFINED RL_NOT_DEFINED RC_NOT_DEFINED
        (cvss_base_score AV_LOCAL AC_LOW AU_NONE CI_COMPLETE II_COMPLETE AI_COMPLETE).base_score
      = some 7.2 ∧
    cvss_env_score CD_NOT_DEFINED TD_NOT_DEFINED CR_NOT_DEFINED IR_NOT_DEFINED AR_NOT_DEFINED
        AV_LOCAL AC_LOW AU_NONE CI_COMPLETE II_COMPLETE AI_COMPLETE
        EX_NOT_DEFINED RL_NOT_DEFINED RC_NOT_DEFINED = 7.1 ∧
    cvss_temp_score EX_NOT_DEFINED RL_NOT_DEFINED RC_NOT_DEFINED
        (cvss_base_score AV_LOCAL AC_LOW AU_NONE CI_COMPLETE II_COMPLETE AI_COMPLETE).base_score
      ≠ some (cvss_env_score CD_NOT_DEFINED TD_NOT_DEFINED CR_NOT_DEFINED IR_NOT_DEFINED
        AR_NOT_DEFINED AV_LOCAL AC_LOW AU_NONE CI_COMPLETE II_COMPLETE AI_COMPLETE
        EX_NOT_DEFINED RL_NOT_DEFINED RC_NOT_DEFINED) := by
  decide!

/-- C7 (amended): for every combination of the six base metrics other than
AV=Local, AC=Low, AU=None, CI=II=AI=Complete, and every combination of the three
temporal metrics, the environmental score computed with CD, TD, CR, IR, AR all
NotDefined equals the temporal score that `cvss_temp_score` returns for the base
score of the same base metrics. -/
theorem env_neutrality (ave : cvss_access_vector_t) (ace : cvss_access_complexity_t)
    (aue : cvss_authentication_t) (cie : cvss_conf_impact_t) (iie : cvss_integ_impact_t)
    (aie : cvss_avail_impact_t) (exe : cvss_exploitability_t) (rle : cvss_remediation_level_t)
    (rce : cvss_report_confidence_t)
    (h : ¬ (ave = AV_LOCAL ∧ ace = AC_LOW ∧ aue = AU_NONE ∧ cie = CI_COMPLETE ∧
      iie = II_COMPLETE ∧ aie = AI_COMPLETE)) :
    cvss_temp_score exe rle rce (cvss_base_score ave ace aue cie iie aie).base_score =
      some (cvss_env_score CD_NOT_DEFINED TD_NOT_DEFINED CR_NOT_DEFINED IR_NOT_DEFINED
        AR_NOT_DEFINED ave ace aue cie iie aie exe rle rce) := by
  obtain ⟨h0, h1⟩ := (base_result_bounds ave ace aue cie iie aie).1
  have e : round1 ((temporal_formula exe rle rce (cvss_base_score ave ace aue cie iie aie).base_score
      + (10 - temporal_formula exe rle rce (cvss_base_score ave ace aue cie iie aie).base_score)
        * cd_weight CD_NOT_DEFINED) * td_weight TD_NOT_DEFINED)
      = temporal_formula exe rle rce (cvss_base_score ave ace aue cie iie aie).base_score := by
    have : cd_weight CD_NOT_DEFINED = 0 := by norm_num [cd_weight, CD_NOT_DEFINED]
    rw [this]
    have : td_weight TD_NOT_DEFINED = 1 := by norm_num [td_weight, TD_NOT_DEFINED]
    rw [this, mul_zero, add_zero, mul_one]
    exact round1_idem _
  simp only [cvss_temp_score, cvss_env_score, adj_base_neutral ave ace aue cie iie aie h]
  rw [if_pos ⟨h0, h1⟩, e]

/-- C7 (witness): the neutrality statement at AV=Network, AC=Low, AU=None,
CI=II=AI=Complete, where the unclamped impact exceeds 10. -/
theorem env_neutrality_witness :
    ¬ (AV_NETWORK = AV_LOCAL ∧ AC_LOW = AC_LOW ∧ AU_NONE = AU_NONE ∧ CI_COMPLETE = CI_COMPLETE ∧
      II_COMPLETE = II_COMPLETE ∧ AI_COMPLETE = AI_COMPLETE) ∧
    cvss_temp_score EX_FUNCTIONAL RL_WORKAROUND RC_CONFIRMED
        (cvss_base_score AV_NETWORK AC_LOW AU_NONE CI_COMPLETE II_COMPLETE AI_COMPLETE).base_score
      = some (cvss_env_score CD_NOT_DEFINED TD_NOT_DEFINED CR_NOT_DEFINED IR_NOT_DEFINED
        AR_NOT_DEFINED AV_NETWORK AC_LOW AU_NONE CI_COMPLETE II_COMPLETE AI_COMPLETE
        EX_FUNCTIONAL RL_WORKAROUND RC_CONFIRMED) :=
  ⟨by decide, env_neutrality AV_NETWORK AC_LOW AU_NONE CI_COMPLETE II_COMPLETE AI_COMPLETE
    EX_FUNCTIONAL RL_WORKAROUND RC_CONFIRMED (by decide)⟩

/-- C8 (counterexample): the base score 7.85 lies in [0.0, 10.0], and with EX, RL,
RC all NotDefined the temporal score is 7.9, not 7.85. -/
theorem temp_neutrality_fails :
    (0 : ℚ) ≤ 7.85 ∧ (7.85 : ℚ) ≤ 10 ∧
    cvss_temp_score EX_NOT_DEFINED RL_NOT_DEFINED RC_NOT_DEFINED 7.85 = some 7.9 ∧
    cvss_temp_score EX_NOT_DEFINED RL_NOT_DEFINED RC_NOT_DEFINED 7.85 ≠ some 7.85 := by
  decide!

/-- C8 (amended): for every base score b in [0.0, 10.0], `cvss_temp_score` with EX,
RL, RC all NotDefined returns `round1 b`; it returns b itself when b is a whole
number of tenths, as every base score produced by `cvss_base_score` is; and when b
is stored by the `--base` option the temporal score of the stored value is
`round1` of what `atof` returned. -/
theorem temp_neutrality :
    (∀ b : ℚ, 0 ≤ b → b ≤ 10 →
      cvss_temp_score EX_NOT_DEFINED RL_NOT_DEFINED RC_NOT_DEFINED b = some (round1 b)) ∧
    (∀ (b : ℚ) (n : ℤ), b = (n : ℚ) / 10 → 0 ≤ b → b ≤ 10 →
      cvss_temp_score EX_NOT_DEFINED RL_NOT_DEFINED RC_NOT_DEFINED b = some b) ∧
    (∀ ave ace aue cie iie aie,
      cvss_temp_score EX_NOT_DEFINED RL_NOT_DEFINED RC_NOT_DEFINED
          (cvss_base_score ave ace aue cie iie aie).base_score =
        some (cvss_base_score ave ace aue cie iie aie).base_score) ∧
    (∀ (atof : String → ℚ) (optarg : String) (s : loop_state),
      0 ≤ atof optarg → atof optarg ≤ 10 →
      cvss_temp_score EX_NOT_DEFINED RL_NOT_DEFINED RC_NOT_DEFINED
          (cvss_switch atof ⟨14, optarg⟩ s).2.metrics.base = some (round1 (atof optarg))) := by
  have key : ∀ b : ℚ, 0 ≤ b → b ≤ 10 →
      cvss_temp_score EX_NOT_DEFINED RL_NOT_DEFINED RC_NOT_DEFINED b = some (round1 b) := by
    intro b h0 h1
    have e1 : ex_weight EX_NOT_DEFINED = 1 := by norm_num [ex_weight, EX_NOT_DEFINED]
    have e2 : rl_weight RL_NOT_DEFINED = 1 := by norm_num [rl_weight, RL_NOT_DEFINED]
    have e3 : rc_weight RC_NOT_DEFINED = 1 := by norm_num [rc_weight, RC_NOT_DEFINED]
    simp only [cvss_temp_score, temporal_formula, e1, e2, e3, mul_one]
    rw [if_pos ⟨h0, h1⟩]
  refine ⟨key, ?_, ?_, ?_⟩
  · intro b n hn h0 h1
    rw [key b h0 h1, hn, round1_tenth]
  · intro ave ace aue cie iie aie
    obtain ⟨h0, h1⟩ := (base_result_bounds ave ace aue cie iie aie).1
    rw [key _ h0 h1]
    simp only [cvss_base_score, round1_idem]
  · intro atof optarg s h0 h1
    have : (cvss_switch atof ⟨14, optarg⟩ s).2.metrics.base = atof optarg := rfl
    rw [this, key _ h0 h1]

/-- C8 (witness): the statement at base score 7.8, a whole number of tenths. -/
theorem temp_neutrality_witness :
    (0 : ℚ) ≤ 7.8 ∧ (7.8 : ℚ) ≤ 10 ∧ (7.8 : ℚ) = ((78 : ℤ) : ℚ) / 10 ∧
      cvss_temp_score EX_NOT_DEFINED RL_NOT_DEFINED RC_NOT_DEFINED 7.8 = some 7.8 :=
  ⟨by norm_num, by norm_num, by norm_num,
    temp_neutrality.2.1 7.8 78 (by norm_num) (by norm_num) (by norm_num)⟩

/-! ## The option switch -/

theorem h_code : ('h'.toNat : Int) = 104 := by decide

theorem closed_set_eq (c : Int) :
    closed_set c =
      if c = 0 then some ["local", "adjacent-network", "network"]
      else if c = 1 then some ["low", "medium", "high"]
      else if c = 2 then some ["none", "single", "multiple"]
      else if c = 3 then some ["none", "partial", "complete"]
      else if c = 4 then some ["none", "partial", "complete"]
      else if c = 5 then some ["none", "partial", "complete"]
      else if c = 6 then some ["unproven", "proof-of-concept", "functional", "high", "not-defined"]
      else if c = 7 then
        some ["official-fix", "temporary-fix", "workaround", "unavailable", "not-defined"]
      else if c = 8 then some ["unconfirmed", "uncorrporated", "confirmed", "not-defined"]
      else if c = 9 then
        some ["none", "low", "low-medium", "medium-high", "high", "not-defined"]
      else if c = 10 then some ["none", "low", "medium", "high", "not-defined"]
      else if c = 11 then some ["low", "medium", "high", "not-defined"]
      else if c = 12 then some ["low", "medium", "high", "not-defined"]
      else if c = 13 then some ["low", "medium", "high", "not-defined"]
      else none := by
  unfold closed_set long_options
  simp only [List.find?_cons, h_code, decide_eq_true_eq]
  by_cases h104 : c = 104
  · subst h104; rfl
  by_cases h0 : c = 0
  · subst h0; rfl
  by_cases h1 : c = 1
  · subst h1; rfl
  by_cases h2 : c = 2
  · subst h2; rfl
  by_cases h3 : c = 3
  · subst h3; rfl
  by_cases h4 : c = 4
  · subst h4; rfl
  by_cases h5 : c = 5
  · subst h5; rfl
  by_cases h6 : c = 6
  · subst h6; rfl
  by_cases h7 : c = 7
  · subst h7; rfl
  by_cases h8 : c = 8
  · subst h8; rfl
  by_cases h9 : c = 9
  · subst h9; rfl
  by_cases h10 : c = 10
  · subst h10; rfl
  by_cases h11 : c = 11
  · subst h11; rfl
  by_cases h12 : c = 12
  · subst h12; rfl
  by_cases h13 : c = 13
  · subst h13; rfl
  by_cases h14 : c = 14
  · subst h14; rfl
  have e : ∀ k : Int, c ≠ k → decide (k = c) = false := fun k hk => by
    simp [Ne.symm hk]
  simp [h0, h1, h2, h3, h4, h5, h6, h7, h8, h9, h10, h11, h12, h13, h14, h104,
    e _ h0, e _ h1, e _ h2, e _ h3, e _ h4, e _ h5, e _ h6, e _ h7, e _ h8, e _ h9, e _ h10,
    e _ h11, e _ h12, e _ h13, e _ h14, e _ h104, List.find?_nil]

theorem invalid_token_iff (c : Int) (a : String) :
    invalid_token ⟨c, a⟩ ↔ ∃ tokens, closed_set c = some tokens ∧ a ∉ tokens := by
  unfold invalid_token
  cases closed_set c <;> simp

set_option maxHeartbeats 4000000 in
/-- What the switch does with the control flow: a help option returns 0, a metric
option with a token outside its closed set returns -1, everything else breaks. -/
theorem switch_result (atof : String → ℚ) (r : getopt_result) (s : loop_state) :
    (cvss_switch atof r s).1 =
      if is_help r then some 0 else if invalid_token r then some (-1) else none := by
  obtain ⟨c, optarg⟩ := r
  simp only [is_help, invalid_token_iff, closed_set_eq, h_code]
  by_cases h104 : c = 104
  · subst h104
    unfold cvss_switch
    simp only [h_code]
    simp
  by_cases h0 : c = 0
  · subst h0
    unfold cvss_switch
    simp only [h_code]
    simp
    split_ifs <;> simp_all
  by_cases h1 : c = 1
  · subst h1
    unfold cvss_switch
    simp only [h_code]
    simp
    split_ifs <;> simp_all
  by_cases h2 : c = 2
  · subst h2
    unfold cvss_switch
    simp only [h_code]
    simp
    split_ifs <;> simp_all
  by_cases h3 : c = 3
  · subst h3
    unfold cvss_switch
    simp only [h_code]
    simp
    split_ifs <;> simp_all
  by_cases h4 : c = 4
  · subst h4
    unfold cvss_switch
    simp only [h_code]
    simp
    split_ifs <;> simp_all
  by_cases h5 : c = 5
  · subst h5
    unfold cvss_switch
    simp only [h_code]
    simp
    split_ifs <;> simp_all
  by_cases h6 : c = 6
  · subst h6
    unfold cvss_switch
    simp only [h_code]
    simp
    split_ifs <;> simp_all
  by_cases h7 : c = 7
  · subst h7
    unfold cvss_switch
    simp only [h_code]
    simp
    split_ifs <;> simp_all
  by_cases h8 : c = 8
  · subst h8
    unfold cvss_switch
    simp only [h_code]
    simp
    split_ifs <;> simp_all
  by_cases h9 : c = 9
  · subst h9
    unfold cvss_switch
    simp only [h_code]
    simp
    split_ifs <;> simp_all
  by_cases h10 : c = 10
  · subst h10
    unfold cvss_switch
    simp only [h_code]
    simp
    split_ifs <;> simp_all
  by_cases h11 : c = 11
  · subst h11
    unfold cvss_switch
    simp only [h_code]
    simp
    split_ifs <;> simp_all
  by_cases h12 : c = 12
  · subst h12
    unfold cvss_switch
    simp only [h_code]
    simp
    split_ifs <;> simp_all
  by_cases h13 : c = 13
  · subst h13
    unfold cvss_switch
    simp only [h_code]
    simp
    split_ifs <;> simp_all
  by_cases h14 : c = 14
  · subst h14
    unfold cvss_switch
    simp only [h_code]
    simp
  unfold cvss_switch
  simp [h_code, h104, h0, h1, h2, h3, h4, h5, h6, h7, h8, h9, h10, h11, h12, h13, h14]

set_option maxHeartbeats 4000000 in
/-- What the switch does with the state: a case that returns leaves the record as
it was, each counter grows exactly on its own option, and each optional field is
written by its own option only. -/
theorem switch_frame (atof : String → ℚ) (r : getopt_result) (s : loop_state) :
    ((cvss_switch atof r s).1 ≠ none → (cvss_switch atof r s).2.metrics = s.metrics) ∧
    ((cvss_switch atof r s).2.ave = if r.c = 0 then s.ave + 1 else s.ave) ∧
    ((cvss_switch atof r s).2.ace = if r.c = 1 then s.ace + 1 else s.ace) ∧
    ((cvss_switch atof r s).2.aue = if r.c = 2 then s.aue + 1 else s.aue) ∧
    ((cvss_switch atof r s).2.cie = if r.c = 3 then s.cie + 1 else s.cie) ∧
    ((cvss_switch atof r s).2.iie = if r.c = 4 then s.iie + 1 else s.iie) ∧
    ((cvss_switch atof r s).2.aie = if r.c = 5 then s.aie + 1 else s.aie) ∧
    ((cvss_switch atof r s).2.base = if r.c = 14 then s.base + 1 else s.base) ∧
    (r.c ≠ 6 → (cvss_switch atof r s).2.metrics.exe = s.metrics.exe) ∧
    (r.c ≠ 7 → (cvss_switch atof r s).2.metrics.rle = s.metrics.rle) ∧
    (r.c ≠ 8 → (cvss_switch atof r s).2.metrics.rce = s.metrics.rce) ∧
    (r.c ≠ 9 → (cvss_switch atof r s).2.metrics.cde = s.metrics.cde) ∧
    (r.c ≠ 10 → (cvss_switch atof r s).2.metrics.tde = s.metrics.tde) ∧
    (r.c ≠ 11 → (cvss_switch atof r s).2.metrics.cre = s.metrics.cre) ∧
    (r.c ≠ 12 → (cvss_switch atof r s).2.metrics.ire = s.metrics.ire) ∧
    (r.c ≠ 13 → (cvss_switch atof r s).2.metrics.are = s.metrics.are) := by
  obtain ⟨c, optarg⟩ := r
  by_cases h104 : c = 104
  · subst h104
    unfold cvss_switch
    simp only [h_code]
    simp
  by_cases h0 : c = 0
  · subst h0
    unfold cvss_switch
    simp only [h_code]
    simp
    split_ifs <;> simp_all
  by_cases h1 : c = 1
  · subst h1
    unfold cvss_switch
    simp only [h_code]
    simp
    split_ifs <;> simp_all
  by_cases h2 : c = 2
  · subst h2
    unfold cvss_switch
    simp only [h_code]
    simp
    split_ifs <;> simp_all
  by_cases h3 : c = 3
  · subst h3
    unfold cvss_switch
    simp only [h_code]
    simp
    split_ifs <;> simp_all
  by_cases h4 : c = 4
  · subst h4
    unfold cvss_switch
    simp only [h_code]
    simp
    split_ifs <;> simp_all
  by_cases h5 : c = 5
  · subst h5
    unfold cvss_switch
    simp only [h_code]
    simp
    split_ifs <;> simp_all
  by_cases h6 : c = 6
  · subst h6
    unfold cvss_switch
    simp only [h_code]
    simp
    split_ifs <;> simp_all
  by_cases h7 : c = 7
  · subst h7
    unfold cvss_switch
    simp only [h_code]
    simp
    split_ifs <;> simp_all
  by_cases h8 : c = 8
  · subst h8
    unfold cvss_switch
    simp only [h_code]
    simp
    split_ifs <;> simp_all
  by_cases h9 : c = 9
  · subst h9
    unfold cvss_switch
    simp only [h_code]
    simp
    split_ifs <;> simp_all
  by_cases h10 : c = 10
  · subst h10
    unfold cvss_switch
    simp only [h_code]
    simp
    split_ifs <;> simp_all
  by_cases h11 : c = 11
  · subst h11
    unfold cvss_switch
    simp only [h_code]
    simp
    split_ifs <;> simp_all
  by_cases h12 : c = 12
  · subst h12
    unfold cvss_switch
    simp only [h_code]
    simp
    split_ifs <;> simp_all
  by_cases h13 : c = 13
  · subst h13
    unfold cvss_switch
    simp only [h_code]
    simp
    split_ifs <;> simp_all
  by_cases h14 : c = 14
  · subst h14
    unfold cvss_switch
    simp only [h_code]
    simp
  unfold cvss_switch
  simp [h_code, h104, h0, h1, h2, h3, h4, h5, h6, h7, h8, h9, h10, h11, h12, h13, h14]

/-! ## The option loop -/

theorem loop_cons (atof : String → ℚ) (r : getopt_result) (rs : List getopt_result)
    (s : loop_state) :
    cvss_option_loop atof (r :: rs) s =
      if (cvss_switch atof r s).1 = none then cvss_option_loop atof rs (cvss_switch atof r s).2
      else cvss_switch atof r s := by
  rw [cvss_option_loop]
  rcases h : cvss_switch atof r s with ⟨_ | ret, s'⟩ <;> simp

theorem occurs_cons (c : Int) (r : getopt_result) (rs : List getopt_result) :
    occurs c (r :: rs) ↔ r.c = c ∨ occurs c rs := by
  simp [occurs]

/-- The recursive definition of `help_first` says: some help option has no invalid
token before it. -/
theorem help_first_iff (rs : List getopt_result) :
    help_first rs ↔
      ∃ pre r post, rs = pre ++ r :: post ∧ is_help r ∧ ∀ x ∈ pre, ¬ invalid_token x := by
  induction rs with
  | nil => simp [help_first]
  | cons a rs ih =>
    rw [help_first, ih]
    constructor
    · rintro (h | ⟨h, pre, r, post, e, hr, hp⟩)
      · exact ⟨[], a, rs, rfl, h, by simp⟩
      · refine ⟨a :: pre, r, post, by rw [e]; rfl, hr, ?_⟩
        intro x hx
        rcases List.mem_cons.mp hx with rfl | hx
        · exact h
        · exact hp x hx
    · rintro ⟨pre, r, post, e, hr, hp⟩
      cases pre with
      | nil =>
        simp only [List.nil_append, List.cons.injEq] at e
        left; rw [e.1]; exact hr
      | cons b pre =>
        simp only [List.cons_append, List.cons.injEq] at e
        right
        refine ⟨by rw [e.1]; exact hp b (List.mem_cons_self _ _), pre, r, post, e.2, hr, ?_⟩
        intro x hx
        exact hp x (List.mem_cons_of_mem _ hx)

/-- The value with which the loop ends: 0 when a help option is reached, -1 when
an invalid token is reached first, and no return otherwise. -/
theorem loop_result (atof : String → ℚ) (rs : List getopt_result) (s : loop_state) :
    (cvss_option_loop atof rs s).1 =
      if help_first rs then some 0
      else if ∃ r ∈ rs, invalid_token r then some (-1) else none := by
  induction rs generalizing s with
  | nil => simp [cvss_option_loop, help_first]
  | cons r rs ih =>
    rw [loop_cons]
    have hr := switch_result atof r s
    by_cases h1 : is_help r
    · rw [if_pos h1] at hr
      simp [hr, help_first, h1]
    · rw [if_neg h1] at hr
      by_cases h2 : invalid_token r
      · rw [if_pos h2] at hr
        simp [hr, help_first, h1, h2]
      · rw [if_neg h2] at hr
        simp [hr, help_first, h1, h2, ih]

theorem loop_append (atof : String → ℚ) (pre post : List getopt_result) (s : loop_state) :
    cvss_option_loop atof (pre ++ post) s =
      if (cvss_option_loop atof pre s).1 = none then
        cvss_option_loop atof post (cvss_option_loop atof pre s).2
      else cvss_option_loop atof pre s := by
  induction pre generalizing s with
  | nil => simp [cvss_option_loop]
  | cons r pre ih =>
    rw [List.cons_append, loop_cons, loop_cons]
    by_cases h : (cvss_switch atof r s).1 = none
    · rw [if_pos h, if_pos h, ih]
    · rw [if_neg h, if_neg h, if_neg h]

/-- A counter that the switch increments exactly on option `k` is zero after a loop
that did not return exactly when it was zero before and option `k` did not occur. -/
theorem loop_counter (atof : String → ℚ) (proj : loop_state → Nat) (k : Int)
    (hstep : ∀ r s, proj (cvss_switch atof r s).2 = if r.c = k then proj s + 1 else proj s)
    (rs : List getopt_result) (s : loop_state) (h : (cvss_option_loop atof rs s).1 = none) :
    proj (cvss_option_loop atof rs s).2 = 0 ↔ proj s = 0 ∧ ¬ occurs k rs := by
  induction rs generalizing s with
  | nil => simp [cvss_option_loop, occurs]
  | cons r rs ih =>
    rw [loop_cons] at h ⊢
    by_cases h1 : (cvss_switch atof r s).1 = none
    · rw [if_pos h1] at h ⊢
      rw [ih _ h, hstep, occurs_cons]
      by_cases hk : r.c = k <;> simp [hk]
    · rw [if_neg h1] at h
      exact absurd h h1

/-- A field that the switch writes on option `k` only keeps its value through a loop
in which option `k` does not occur. -/
theorem loop_field {α : Type} (atof : String → ℚ) (f : cvss_metrics → α) (k : Int)
    (hstep : ∀ r s, r.c ≠ k → f (cvss_switch atof r s).2.metrics = f s.metrics)
    (rs : List getopt_result) (s : loop_state) (h : ¬ occurs k rs) :
    f (cvss_option_loop atof rs s).2.metrics = f s.metrics := by
  induction rs generalizing s with
  | nil => simp [cvss_option_loop]
  | cons r rs ih =>
    rw [occurs_cons, not_or] at h
    rw [loop_cons]
    by_cases h1 : (cvss_switch atof r s).1 = none
    · rw [if_pos h1, ih _ h.2, hstep r s h.1]
    · rw [if_neg h1, hstep r s h.1]

/-- A loop that returns leaves the record as it was before the option that made it
return. -/
theorem loop_return_metrics (atof : String → ℚ) (pre post : List getopt_result)
    (r : getopt_result) (s s' : loop_state)
    (hpre : cvss_option_loop atof pre s = (none, s'))
    (hr : (cvss_switch atof r s').1 ≠ none) :
    (cvss_option_loop atof (pre ++ r :: post) s).1 = (cvss_switch atof r s').1 ∧
      (cvss_option_loop atof (pre ++ r :: post) s).2.metrics = s'.metrics := by
  have e : cvss_option_loop atof (pre ++ r :: post) s = cvss_switch atof r s' := by
    rw [loop_append, hpre, if_pos rfl, loop_cons, if_neg hr]
  rw [e]
  exact ⟨rfl, (switch_frame atof r s').1 hr⟩

/-! ## The whole of `getopt_cvss` -/

theorem cvss_command_optind (word : String) (op op' : oscap_operation) (optind : Nat) :
    (cvss_command word op optind).2 = (cvss_command word op' optind).2 := by
  unfold cvss_command
  split_ifs <;> rfl

/-- The state in which the option loop of `getopt_cvss` starts. -/
theorem getopt_cvss_eq (getopt_long : getopt_long_t) (atof : String → ℚ) (fresh : cvss_metrics)
    (argv : List String) (optind : Nat) (action : oscap_action)
    (h : optind + 1 < argv.length) :
    getopt_cvss getopt_long atof fresh argv optind (some action) =
      ⟨match (cvss_option_loop atof
            (parsed_options getopt_long argv optind (argv.get ⟨optind + 1, h⟩))
            ⟨(cvss_init fresh action).cvss_metrics, 0, 0, 0, 0, 0, 0, 0⟩).1 with
        | some ret => ret
        | none => check_parameters
            (cvss_command (argv.get ⟨optind + 1, h⟩) action.op (optind + 1)).1
            (cvss_option_loop atof
              (parsed_options getopt_long argv optind (argv.get ⟨optind + 1, h⟩))
              ⟨(cvss_init fresh action).cvss_metrics, 0, 0, 0, 0, 0, 0, 0⟩).2,
        some
          { std := OSCAP_STD_CVSS
            op := (cvss_command (argv.get ⟨optind + 1, h⟩) action.op (optind + 1)).1
            cvss_metrics := (cvss_option_loop atof
              (parsed_options getopt_long argv optind (argv.get ⟨optind + 1, h⟩))
              ⟨(cvss_init fresh action).cvss_metrics, 0, 0, 0, 0, 0, 0, 0⟩).2.metrics }⟩ := by
  have hlt : ¬ (optind + 1 ≥ argv.length) := by omega
  simp only [getopt_cvss, dif_neg hlt, parsed_options]
  rw [cvss_command_optind (argv.get ⟨optind + 1, h⟩) OSCAP_OP_UNKNOWN
    (cvss_init fresh action).op (optind + 1)]
  cases hres : (cvss_option_loop atof _ _).1 <;> simp [hres, cvss_init]

theorem loop_counters (atof : String → ℚ) (m : cvss_metrics) (rs : List getopt_result)
    (h : (cvss_option_loop atof rs ⟨m, 0, 0, 0, 0, 0, 0, 0⟩).1 = none) :
    ((cvss_option_loop atof rs ⟨m, 0, 0, 0, 0, 0, 0, 0⟩).2.ave = 0 ↔ ¬ occurs 0 rs) ∧
    ((cvss_option_loop atof rs ⟨m, 0, 0, 0, 0, 0, 0, 0⟩).2.ace = 0 ↔ ¬ occurs 1 rs) ∧
    ((cvss_option_loop atof rs ⟨m, 0, 0, 0, 0, 0, 0, 0⟩).2.aue = 0 ↔ ¬ occurs 2 rs) ∧
    ((cvss_option_loop atof rs ⟨m, 0, 0, 0, 0, 0, 0, 0⟩).2.cie = 0 ↔ ¬ occurs 3 rs) ∧
    ((cvss_option_loop atof rs ⟨m, 0, 0, 0, 0, 0, 0, 0⟩).2.iie = 0 ↔ ¬ occurs 4 rs) ∧
    ((cvss_option_loop atof rs ⟨m, 0, 0, 0, 0, 0, 0, 0⟩).2.aie = 0 ↔ ¬ occurs 5 rs) ∧
    ((cvss_option_loop atof rs ⟨m, 0, 0, 0, 0, 0, 0, 0⟩).2.base = 0 ↔ ¬ occurs 14 rs) := by
  refine ⟨?_, ?_, ?_, ?_, ?_, ?_, ?_⟩
  · simpa using loop_counter atof (fun s => s.ave) 0
      (fun r s => (switch_frame atof r s).2.1) rs _ h
  · simpa using loop_counter atof (fun s => s.ace) 1
      (fun r s => (switch_frame atof r s).2.2.1) rs _ h
  · simpa using loop_counter atof (fun s => s.aue) 2
      (fun r s => (switch_frame atof r s).2.2.2.1) rs _ h
  · simpa using loop_counter atof (fun s => s.cie) 3
      (fun r s => (switch_frame atof r s).2.2.2.2.1) rs _ h
  · simpa using loop_counter atof (fun s => s.iie) 4
      (fun r s => (switch_frame atof r s).2.2.2.2.2.1) rs _ h
  · simpa using loop_counter atof (fun s => s.aie) 5
      (fun r s => (switch_frame atof r s).2.2.2.2.2.2.1) rs _ h
  · simpa using loop_counter atof (fun s => s.base) 14
      (fun r s => (switch_frame atof r s).2.2.2.2.2.2.2.1) rs _ h

/-- The value `getopt_cvss` returns when `argv` holds a word after `argv[optind]`,
in terms of the options `getopt_long` delivers and the operation selected. -/
theorem getopt_cvss_ret (getopt_long : getopt_long_t) (atof : String → ℚ) (fresh : cvss_metrics)
    (argv : List String) (optind : Nat) (action : oscap_action)
    (h : optind + 1 < argv.length) (rs : List getopt_result) (op : oscap_operation)
    (hrs : rs = parsed_options getopt_long argv optind (argv.get ⟨optind + 1, h⟩))
    (hop : op = (cvss_command (argv.get ⟨optind + 1, h⟩) action.op (optind + 1)).1) :
    (getopt_cvss getopt_long atof fresh argv optind (some action)).ret =
      if help_first rs then 0
      else if ∃ r ∈ rs, invalid_token r then -1
      else if op = OSCAP_OP_UNKNOWN then -1
      else if (op = OSCAP_OP_BASE ∨ op = OSCAP_OP_ENV) ∧
          (¬ occurs 0 rs ∨ ¬ occurs 1 rs ∨ ¬ occurs 2 rs ∨ ¬ occurs 3 rs ∨ ¬ occurs 4 rs ∨
            ¬ occurs 5 rs) then -1
      else if op = OSCAP_OP_TEMP ∧ ¬ occurs 14 rs then -1
      else 0 := by
  rw [getopt_cvss_eq getopt_long atof fresh argv optind action h, ← hrs, ← hop]
  have hl := loop_result atof rs ⟨(cvss_init fresh action).cvss_metrics, 0, 0, 0, 0, 0, 0, 0⟩
  by_cases h1 : help_first rs
  · rw [if_pos h1] at hl
    simp only [hl, if_pos h1]
  · rw [if_neg h1] at hl
    by_cases h2 : ∃ r ∈ rs, invalid_token r
    · rw [if_pos h2] at hl
      simp only [hl, if_neg h1, if_pos h2]
    · rw [if_neg h2] at hl
      obtain ⟨c0, c1, c2, c3, c4, c5, c14⟩ :=
        loop_counters atof (cvss_init fresh action).cvss_metrics rs hl
      simp only [hl, if_neg h1, if_neg h2, check_parameters, c0, c1, c2, c3, c4, c5, c14]

/-! ## C2 and C3: token validation and rejection -/

theorem usage_closed_set (o : option) (tokens : List String) (ho : o ∈ long_options)
    (ht : (o.name, tokens) ∈ print_cvss_usage) :
    closed_set o.val = some tokens ∧ o.val ≠ 104 := by
  simp only [long_options, List.mem_cons, List.mem_singleton, List.not_mem_nil, or_false] at ho
  rcases ho with rfl | rfl | rfl | rfl | rfl | rfl | rfl | rfl | rfl | rfl | rfl | rfl | rfl |
    rfl | rfl | rfl <;>
  · simp [print_cvss_usage] at ht
    try (subst ht; exact ⟨rfl, by decide⟩)

theorem invalid_not_help (r : getopt_result) (h : invalid_token r) : ¬ is_help r := by
  obtain ⟨c, a⟩ := r
  rw [invalid_token_iff] at h
  obtain ⟨tokens, h, _⟩ := h
  intro hh
  simp only [is_help, h_code] at hh
  subst hh
  rw [closed_set_eq] at h
  simp at h

/-- C2: for each of the fourteen metric options of `long_options` and every argument
string, the switch returns -1 exactly when the string is not one of the tokens the
usage text lists for the option, and then leaves the record as it was; it goes on
(no return) exactly when the string is one of them.  `--AV=adjacent` is rejected,
and `--RC` accepts exactly unconfirmed, uncorrporated, confirmed, not-defined. -/
theorem closed_set_validation :
    (∀ (atof : String → ℚ) (o : option) (tokens : List String) (a : String) (s : loop_state),
      o ∈ long_options → (o.name, tokens) ∈ print_cvss_usage →
        ((cvss_switch atof ⟨o.val, a⟩ s).1 = some (-1) ↔ a ∉ tokens) ∧
        ((cvss_switch atof ⟨o.val, a⟩ s).1 = none ↔ a ∈ tokens) ∧
        (a ∉ tokens → (cvss_switch atof ⟨o.val, a⟩ s).2.metrics = s.metrics)) ∧
    (∀ (atof : String → ℚ) (s : loop_state),
      (cvss_switch atof ⟨0, "adjacent"⟩ s).1 = some (-1)) ∧
    (∀ (atof : String → ℚ) (a : String) (s : loop_state),
      (cvss_switch atof ⟨8, a⟩ s).1 = none ↔
        a ∈ ["unconfirmed", "uncorrporated", "confirmed", "not-defined"]) := by
  have key : ∀ (atof : String → ℚ) (c : Int) (tokens : List String) (a : String)
      (s : loop_state), closed_set c = some tokens → c ≠ 104 →
      ((cvss_switch atof ⟨c, a⟩ s).1 = some (-1) ↔ a ∉ tokens) ∧
      ((cvss_switch atof ⟨c, a⟩ s).1 = none ↔ a ∈ tokens) := by
    intro atof c tokens a s hc h104
    have hi : invalid_token ⟨c, a⟩ ↔ a ∉ tokens := by
      rw [invalid_token_iff, hc]; simp
    have hh : ¬ is_help ⟨c, a⟩ := by simpa [is_help, h_code] using h104
    rw [switch_result, if_neg hh]
    by_cases ha : a ∈ tokens
    · rw [if_neg (by rw [hi]; exact not_not.mpr ha)]; simp [ha]
    · rw [if_pos (hi.mpr ha)]; simp [ha]
  refine ⟨?_, ?_, ?_⟩
  · intro atof o tokens a s ho ht
    obtain ⟨hc, h104⟩ := usage_closed_set o tokens ho ht
    obtain ⟨k1, k2⟩ := key atof o.val tokens a s hc h104
    refine ⟨k1, k2, fun ha => (switch_frame atof ⟨o.val, a⟩ s).1 ?_⟩
    rw [k1.mpr ha]; simp
  · intro atof s
    exact (key atof 0 _ "adjacent" s rfl (by decide)).1.mpr (by decide)
  · intro atof a s
    exact (key atof 8 _ a s rfl (by decide)).2

/-- C2 (witness): the validation statement at the `--AV` row of `long_options` with
the argument `adjacent`. -/
theorem closed_set_validation_witness :
    (⟨"AV", 1, 0⟩ : option) ∈ long_options ∧
    ("AV", ["local", "adjacent-network", "network"]) ∈ print_cvss_usage ∧
    "adjacent" ∉ ["local", "adjacent-network", "network"] ∧
    (cvss_switch (fun _ => 0) ⟨0, "adjacent"⟩
      ⟨⟨0, 0, 0, 0, 0, 0, 0, 0, 0, 0, 0, 0, 0, 0, 0⟩, 0, 0, 0, 0, 0, 0, 0⟩).1 = some (-1) :=
  ⟨by decide, by decide, by decide,
    ((closed_set_validation.1 (fun _ => 0) ⟨"AV", 1, 0⟩ ["local", "adjacent-network", "network"]
      "adjacent" ⟨⟨0, 0, 0, 0, 0, 0, 0, 0, 0, 0, 0, 0, 0, 0, 0⟩, 0, 0, 0, 0, 0, 0, 0⟩
      (by decide) (by decide)).1).mpr (by decide)⟩

/-- C3: when the switch rejects the argument of an option (returns -1), the record
is exactly the one it was given; and in `getopt_cvss`, when the options before `r`
leave the loop running in state `s` and `r` is rejected, `getopt_cvss` returns -1
and the record behind `action->cvss_metrics` is the record of `s`, field by field. -/
theorem rejection_atomic :
    (∀ (atof : String → ℚ) (r : getopt_result) (s : loop_state),
      (cvss_switch atof r s).1 = some (-1) → (cvss_switch atof r s).2.metrics = s.metrics) ∧
    (∀ (getopt_long : getopt_long_t) (atof : String → ℚ) (fresh : cvss_metrics)
      (argv : List String) (optind : Nat) (action : oscap_action) (h : optind + 1 < argv.length)
      (pre post : List getopt_result) (r : getopt_result) (s : loop_state),
      parsed_options getopt_long argv optind (argv.get ⟨optind + 1, h⟩) = pre ++ r :: post →
      cvss_option_loop atof pre ⟨(cvss_init fresh action).cvss_metrics, 0, 0, 0, 0, 0, 0, 0⟩
        = (none, s) →
      (cvss_switch atof r s).1 = some (-1) →
      (getopt_cvss getopt_long atof fresh argv optind (some action)).ret = -1 ∧
      ∃ a, (getopt_cvss getopt_long atof fresh argv optind (some action)).action = some a ∧
        a.cvss_metrics = s.metrics) := by
  refine ⟨?_, ?_⟩
  · intro atof r s h
    exact (switch_frame atof r s).1 (by rw [h]; simp)
  · intro getopt_long atof fresh argv optind action h pre post r s hrs hpre hr
    obtain ⟨e1, e2⟩ := loop_return_metrics atof pre post r _ s hpre (by rw [hr]; simp)
    rw [getopt_cvss_eq getopt_long atof fresh argv optind action h, hrs]
    rw [hr] at e1
    refine ⟨?_, _, rfl, e2⟩
    simp only [e1]

/-- C3 (witness): `oscap cvss base --AV=local --AC=bogus`: the second option is
rejected and the record is the one left by `--AV=local`. -/
theorem rejection_atomic_witness :
    (getopt_cvss
        (getopt_long_on ["oscap", "cvss", "base", "--AV=local", "--AC=bogus"]
          [⟨0, "local"⟩, ⟨1, "bogus"⟩])
        (fun _ => 0) ⟨2, 2, 2, 2, 2, 2, 0, 0, 0, 0, 0, 0, 0, 0, 5⟩
        ["oscap", "cvss", "base", "--AV=local", "--AC=bogus"] 1
        (some ⟨OSCAP_STD_OTHER 0, OSCAP_OP_UNKNOWN,
          ⟨0, 0, 0, 0, 0, 0, 0, 0, 0, 0, 0, 0, 0, 0, 0⟩⟩)).ret = -1 ∧
    ∃ a, (getopt_cvss
        (getopt_long_on ["oscap", "cvss", "base", "--AV=local", "--AC=bogus"]
          [⟨0, "local"⟩, ⟨1, "bogus"⟩])
        (fun _ => 0) ⟨2, 2, 2, 2, 2, 2, 0, 0, 0, 0, 0, 0, 0, 0, 5⟩
        ["oscap", "cvss", "base", "--AV=local", "--AC=bogus"] 1
        (some ⟨OSCAP_STD_OTHER 0, OSCAP_OP_UNKNOWN,
          ⟨0, 0, 0, 0, 0, 0, 0, 0, 0, 0, 0, 0, 0, 0, 0⟩⟩)).action = some a ∧
      a.cvss_metrics =
        (⟨⟨AV_LOCAL, 2, 2, 2, 2, 2, EX_NOT_DEFINED, RL_NOT_DEFINED, RC_NOT_DEFINED,
          CD_NOT_DEFINED, TD_NOT_DEFINED, CR_NOT_DEFINED, IR_NOT_DEFINED, AR_NOT_DEFINED, 5⟩,
          1, 0, 0, 0, 0, 0, 0⟩ : loop_state).metrics :=
  rejection_atomic.2
    (getopt_long_on ["oscap", "cvss", "base", "--AV=local", "--AC=bogus"]
      [⟨0, "local"⟩, ⟨1, "bogus"⟩])
    (fun _ => 0) ⟨2, 2, 2, 2, 2, 2, 0, 0, 0, 0, 0, 0, 0, 0, 5⟩
    ["oscap", "cvss", "base", "--AV=local", "--AC=bogus"] 1
    ⟨OSCAP_STD_OTHER 0, OSCAP_OP_UNKNOWN, ⟨0, 0, 0, 0, 0, 0, 0, 0, 0, 0, 0, 0, 0, 0, 0⟩⟩
    (by decide) [⟨0, "local"⟩] [] ⟨1, "bogus"⟩
    ⟨⟨AV_LOCAL, 2, 2, 2, 2, 2, EX_NOT_DEFINED, RL_NOT_DEFINED, RC_NOT_DEFINED,
      CD_NOT_DEFINED, TD_NOT_DEFINED, CR_NOT_DEFINED, IR_NOT_DEFINED, AR_NOT_DEFINED, 5⟩,
      1, 0, 0, 0, 0, 0, 0⟩
    (by decide) (by decide) (by decide)

/-! ## C5: name-to-value parsing -/

/-- C5: for every metric option and every token the usage text lists for it, the
switch goes on and the field of that option holds the enumerator of `cvss.h` with
the corresponding name; for `--AI`, where the code assigns the `II_*` enumerators,
the stored value is the `AI_*` enumerator of the same name.  The words base,
temporal, environmental select `OSCAP_OP_BASE`, `OSCAP_OP_TEMP`, `OSCAP_OP_ENV`. -/
theorem token_values (atof : String → ℚ) (s : loop_state) (op : oscap_operation)
    (optind : Nat) :
    ((cvss_switch atof ⟨0, "local"⟩ s).1 = none ∧
      (cvss_switch atof ⟨0, "local"⟩ s).2.metrics.ave = AV_LOCAL) ∧
    ((cvss_switch atof ⟨0, "adjacent-network"⟩ s).1 = none ∧
      (cvss_switch atof ⟨0, "adjacent-network"⟩ s).2.metrics.ave = AV_ADJACENT_NETWORK) ∧
    ((cvss_switch atof ⟨0, "network"⟩ s).1 = none ∧
      (cvss_switch atof ⟨0, "network"⟩ s).2.metrics.ave = AV_NETWORK) ∧
    ((cvss_switch atof ⟨1, "low"⟩ s).1 = none ∧
      (cvss_switch atof ⟨1, "low"⟩ s).2.metrics.ace = AC_LOW) ∧
    ((cvss_switch atof ⟨1, "medium"⟩ s).1 = none ∧
      (cvss_switch atof ⟨1, "medium"⟩ s).2.metrics.ace = AC_MEDIUM) ∧
    ((cvss_switch atof ⟨1, "high"⟩ s).1 = none ∧
      (cvss_switch atof ⟨1, "high"⟩ s).2.metrics.ace = AC_HIGH) ∧
    ((cvss_switch atof ⟨2, "none"⟩ s).1 = none ∧
      (cvss_switch atof ⟨2, "none"⟩ s).2.metrics.aue = AU_NONE) ∧
    ((cvss_switch atof ⟨2, "single"⟩ s).1 = none ∧
      (cvss_switch atof ⟨2, "single"⟩ s).2.metrics.aue = AU_SINGLE_INSTANCE) ∧
    ((cvss_switch atof ⟨2, "multiple"⟩ s).1 = none ∧
      (cvss_switch atof ⟨2, "multiple"⟩ s).2.metrics.aue = AU_MULTIPLE_INSTANCE) ∧
    ((cvss_switch atof ⟨3, "none"⟩ s).1 = none ∧
      (cvss_switch atof ⟨3, "none"⟩ s).2.metrics.cie = CI_NONE) ∧
    ((cvss_switch atof ⟨3, "partial"⟩ s).1 = none ∧
      (cvss_switch atof ⟨3, "partial"⟩ s).2.metrics.cie = CI_PARTIAL) ∧
    ((cvss_switch atof ⟨3, "complete"⟩ s).1 = none ∧
      (cvss_switch atof ⟨3, "complete"⟩ s).2.metrics.cie = CI_COMPLETE) ∧
    ((cvss_switch atof ⟨4, "none"⟩ s).1 = none ∧
      (cvss_switch atof ⟨4, "none"⟩ s).2.metrics.iie = II_NONE) ∧
    ((cvss_switch atof ⟨4, "partial"⟩ s).1 = none ∧
      (cvss_switch atof ⟨4, "partial"⟩ s).2.metrics.iie = II_PARTIAL) ∧
    ((cvss_switch atof ⟨4, "complete"⟩ s).1 = none ∧
      (cvss_switch atof ⟨4, "complete"⟩ s).2.metrics.iie = II_COMPLETE) ∧
    ((cvss_switch atof ⟨5, "none"⟩ s).1 = none ∧
      (cvss_switch atof ⟨5, "none"⟩ s).2.metrics.aie = AI_NONE) ∧
    ((cvss_switch atof ⟨5, "partial"⟩ s).1 = none ∧
      (cvss_switch atof ⟨5, "partial"⟩ s).2.metrics.aie = AI_PARTIAL) ∧
    ((cvss_switch atof ⟨5, "complete"⟩ s).1 = none ∧
      (cvss_switch atof ⟨5, "complete"⟩ s).2.metrics.aie = AI_COMPLETE) ∧
    ((cvss_switch atof ⟨6, "unproven"⟩ s).1 = none ∧
      (cvss_switch atof ⟨6, "unproven"⟩ s).2.metrics.exe = EX_UNPROVEN) ∧
    ((cvss_switch atof ⟨6, "proof-of-concept"⟩ s).1 = none ∧
      (cvss_switch atof ⟨6, "proof-of-concept"⟩ s).2.metrics.exe = EX_PROOF_OF_CONCEPT) ∧
    ((cvss_switch atof ⟨6, "functional"⟩ s).1 = none ∧
      (cvss_switch atof ⟨6, "functional"⟩ s).2.metrics.exe = EX_FUNCTIONAL) ∧
    ((cvss_switch atof ⟨6, "high"⟩ s).1 = none ∧
      (cvss_switch atof ⟨6, "high"⟩ s).2.metrics.exe = EX_HIGH) ∧
    ((cvss_switch atof ⟨6, "not-defined"⟩ s).1 = none ∧
      (cvss_switch atof ⟨6, "not-defined"⟩ s).2.metrics.exe = EX_NOT_DEFINED) ∧
    ((cvss_switch atof ⟨7, "official-fix"⟩ s).1 = none ∧
      (cvss_switch atof ⟨7, "official-fix"⟩ s).2.metrics.rle = RL_OFFICIAL_FIX) ∧
    ((cvss_switch atof ⟨7, "temporary-fix"⟩ s).1 = none ∧
      (cvss_switch atof ⟨7, "temporary-fix"⟩ s).2.metrics.rle = RL_TEMPORARY_FIX) ∧
    ((cvss_switch atof ⟨7, "workaround"⟩ s).1 = none ∧
      (cvss_switch atof ⟨7, "workaround"⟩ s).2.metrics.rle = RL_WORKAROUND) ∧
    ((cvss_switch atof ⟨7, "unavailable"⟩ s).1 = none ∧
      (cvss_switch atof ⟨7, "unavailable"⟩ s).2.metrics.rle = RL_UNAVAILABLE) ∧
    ((cvss_switch atof ⟨7, "not-defined"⟩ s).1 = none ∧
      (cvss_switch atof ⟨7, "not-defined"⟩ s).2.metrics.rle = RL_NOT_DEFINED) ∧
    ((cvss_switch atof ⟨8, "unconfirmed"⟩ s).1 = none ∧
      (cvss_switch atof ⟨8, "unconfirmed"⟩ s).2.metrics.rce = RC_UNCONFIRMED) ∧
    ((cvss_switch atof ⟨8, "uncorrporated"⟩ s).1 = none ∧
      (cvss_switch atof ⟨8, "uncorrporated"⟩ s).2.metrics.rce = RC_UNCORROBORATED) ∧
    ((cvss_switch atof ⟨8, "confirmed"⟩ s).1 = none ∧
      (cvss_switch atof ⟨8, "confirmed"⟩ s).2.metrics.rce = RC_CONFIRMED) ∧
    ((cvss_switch atof ⟨8, "not-defined"⟩ s).1 = none ∧
      (cvss_switch atof ⟨8, "not-defined"⟩ s).2.metrics.rce = RC_NOT_DEFINED) ∧
    ((cvss_switch atof ⟨9, "none"⟩ s).1 = none ∧
      (cvss_switch atof ⟨9, "none"⟩ s).2.metrics.cde = CD_NONE) ∧
    ((cvss_switch atof ⟨9, "low"⟩ s).1 = none ∧
      (cvss_switch atof ⟨9, "low"⟩ s).2.metrics.cde = CD_LOW) ∧
    ((cvss_switch atof ⟨9, "low-medium"⟩ s).1 = none ∧
      (cvss_switch atof ⟨9, "low-medium"⟩ s).2.metrics.cde = CD_LOW_MEDIUM) ∧
    ((cvss_switch atof ⟨9, "medium-high"⟩ s).1 = none ∧
      (cvss_switch atof ⟨9, "medium-high"⟩ s).2.metrics.cde = CD_MEDIUM_HIGH) ∧
    ((cvss_switch atof ⟨9, "high"⟩ s).1 = none ∧
      (cvss_switch atof ⟨9, "high"⟩ s).2.metrics.cde = CD_HIGH) ∧
    ((cvss_switch atof ⟨9, "not-defined"⟩ s).1 = none ∧
      (cvss_switch atof ⟨9, "not-defined"⟩ s).2.metrics.cde = CD_NOT_DEFINED) ∧
    ((cvss_switch atof ⟨10, "none"⟩ s).1 = none ∧
      (cvss_switch atof ⟨10, "none"⟩ s).2.metrics.tde = TD_NONE) ∧
    ((cvss_switch atof ⟨10, "low"⟩ s).1 = none ∧
      (cvss_switch atof ⟨10, "low"⟩ s).2.metrics.tde = TD_LOW) ∧
    ((cvss_switch atof ⟨10, "medium"⟩ s).1 = none ∧
      (cvss_switch atof ⟨10, "medium"⟩ s).2.metrics.tde = TD_MEDIUM) ∧
    ((cvss_switch atof ⟨10, "high"⟩ s).1 = none ∧
      (cvss_switch atof ⟨10, "high"⟩ s).2.metrics.tde = TD_HIGH) ∧
    ((cvss_switch atof ⟨10, "not-defined"⟩ s).1 = none ∧
      (cvss_switch atof ⟨10, "not-defined"⟩ s).2.metrics.tde = TD_NOT_DEFINED) ∧
    ((cvss_switch atof ⟨11, "low"⟩ s).1 = none ∧
      (cvss_switch atof ⟨11, "low"⟩ s).2.metrics.cre = CR_LOW) ∧
    ((cvss_switch atof ⟨11, "medium"⟩ s).1 = none ∧
      (cvss_switch atof ⟨11, "medium"⟩ s).2.metrics.cre = CR_MEDIUM) ∧
    ((cvss_switch atof ⟨11, "high"⟩ s).1 = none ∧
      (cvss_switch atof ⟨11, "high"⟩ s).2.metrics.cre = CR_HIGH) ∧
    ((cvss_switch atof ⟨11, "not-defined"⟩ s).1 = none ∧
      (cvss_switch atof ⟨11, "not-defined"⟩ s).2.metrics.cre = CR_NOT_DEFINED) ∧
    ((cvss_switch atof ⟨12, "low"⟩ s).1 = none ∧
      (cvss_switch atof ⟨12, "low"⟩ s).2.metrics.ire = IR_LOW) ∧
    ((cvss_switch atof ⟨12, "medium"⟩ s).1 = none ∧
      (cvss_switch atof ⟨12, "medium"⟩ s).2.metrics.ire = IR_MEDIUM) ∧
    ((cvss_switch atof ⟨12, "high"⟩ s).1 = none ∧
      (cvss_switch atof ⟨12, "high"⟩ s).2.metrics.ire = IR_HIGH) ∧
    ((cvss_switch atof ⟨12, "not-defined"⟩ s).1 = none ∧
      (cvss_switch atof ⟨12, "not-defined"⟩ s).2.metrics.ire = IR_NOT_DEFINED) ∧
    ((cvss_switch atof ⟨13, "low"⟩ s).1 = none ∧
      (cvss_switch atof ⟨13, "low"⟩ s).2.metrics.are = AR_LOW) ∧
    ((cvss_switch atof ⟨13, "medium"⟩ s).1 = none ∧
      (cvss_switch atof ⟨13, "medium"⟩ s).2.metrics.are = AR_MEDIUM) ∧
    ((cvss_switch atof ⟨13, "high"⟩ s).1 = none ∧
      (cvss_switch atof ⟨13, "high"⟩ s).2.metrics.are = AR_HIGH) ∧
    ((cvss_switch atof ⟨13, "not-defined"⟩ s).1 = none ∧
      (cvss_switch atof ⟨13, "not-defined"⟩ s).2.metrics.are = AR_NOT_DEFINED) ∧
    (cvss_command "base" op optind).1 = OSCAP_OP_BASE ∧
    (cvss_command "temporal" op optind).1 = OSCAP_OP_TEMP ∧
    (cvss_command "environmental" op optind).1 = OSCAP_OP_ENV := by
  refine ⟨⟨rfl, rfl⟩, ⟨rfl, rfl⟩, ⟨rfl, rfl⟩, ⟨rfl, rfl⟩, ⟨rfl, rfl⟩, ⟨rfl, rfl⟩, ⟨rfl, rfl⟩, ⟨rfl, rfl⟩, ⟨rfl, rfl⟩, ⟨rfl, rfl⟩, ⟨rfl, rfl⟩, ⟨rfl, rfl⟩, ⟨rfl, rfl⟩, ⟨rfl, rfl⟩, ⟨rfl, rfl⟩, ⟨rfl, rfl⟩, ⟨rfl, rfl⟩, ⟨rfl, rfl⟩, ⟨rfl, rfl⟩, ⟨rfl, rfl⟩, ⟨rfl, rfl⟩, ⟨rfl, rfl⟩, ⟨rfl, rfl⟩, ⟨rfl, rfl⟩, ⟨rfl, rfl⟩, ⟨rfl, rfl⟩, ⟨rfl, rfl⟩, ⟨rfl, rfl⟩, ⟨rfl, rfl⟩, ⟨rfl, rfl⟩, ⟨rfl, rfl⟩, ⟨rfl, rfl⟩, ⟨rfl, rfl⟩, ⟨rfl, rfl⟩, ⟨rfl, rfl⟩, ⟨rfl, rfl⟩, ⟨rfl, rfl⟩, ⟨rfl, rfl⟩, ⟨rfl, rfl⟩, ⟨rfl, rfl⟩, ⟨rfl, rfl⟩, ⟨rfl, rfl⟩, ⟨rfl, rfl⟩, ⟨rfl, rfl⟩, ⟨rfl, rfl⟩, ⟨rfl, rfl⟩, ⟨rfl, rfl⟩, ⟨rfl, rfl⟩, ⟨rfl, rfl⟩, ⟨rfl, rfl⟩, ⟨rfl, rfl⟩, ⟨rfl, rfl⟩, ⟨rfl, rfl⟩, ⟨rfl, rfl⟩, ⟨rfl, rfl⟩, rfl, rfl, rfl⟩

/-! ## C4 and C10: the return code -/

/-- C4 (counterexample): `oscap cvss base --help`, for which `getopt_long` returns
'h' once: the operation is base, none of `--AV` ... `--AI` occurs, and `getopt_cvss`
returns 0. -/
theorem help_skips_required_inputs :
    (getopt_cvss (getopt_long_on ["oscap", "cvss", "base", "--help"] [⟨('h'.toNat : Int), ""⟩])
        (fun _ => 0) ⟨0, 0, 0, 0, 0, 0, 0, 0, 0, 0, 0, 0, 0, 0, 0⟩
        ["oscap", "cvss", "base", "--help"] 1
        (some ⟨OSCAP_STD_OTHER 0, OSCAP_OP_UNKNOWN,
          ⟨0, 0, 0, 0, 0, 0, 0, 0, 0, 0, 0, 0, 0, 0, 0⟩⟩)).ret = 0 ∧
    ((getopt_cvss (getopt_long_on ["oscap", "cvss", "base", "--help"] [⟨('h'.toNat : Int), ""⟩])
        (fun _ => 0) ⟨0, 0, 0, 0, 0, 0, 0, 0, 0, 0, 0, 0, 0, 0, 0⟩
        ["oscap", "cvss", "base", "--help"] 1
        (some ⟨OSCAP_STD_OTHER 0, OSCAP_OP_UNKNOWN,
          ⟨0, 0, 0, 0, 0, 0, 0, 0, 0, 0, 0, 0, 0, 0, 0⟩⟩)).action.map (fun a => a.op))
      = some OSCAP_OP_BASE ∧
    ¬ occurs 0 (parsed_options
        (getopt_long_on ["oscap", "cvss", "base", "--help"] [⟨('h'.toNat : Int), ""⟩])
        ["oscap", "cvss", "base", "--help"] 1 "base") := by
  decide

/-- C4 (amended): when `argv` holds a word after `argv[optind]` and no help option
is reached (none occurs without an invalid token before it), `getopt_cvss` returns
-1 whenever the operation is base or environmental and one of `--AV`, `--AC`,
`--AU`, `--CI`, `--II`, `--AI` does not occur, and whenever the operation is
temporal and `--base` does not occur.  So a return of 0 with op = BASE or ENV means
that a help option was reached or all six base metrics were supplied, and a return
of 0 with op = TEMP that a help option was reached or a base score was supplied. -/
theorem required_inputs (getopt_long : getopt_long_t) (atof : String → ℚ) (fresh : cvss_metrics)
    (argv : List String) (optind : Nat) (action : oscap_action)
    (h : optind + 1 < argv.length) (rs : List getopt_result) (a : oscap_action)
    (hrs : rs = parsed_options getopt_long argv optind (argv.get ⟨optind + 1, h⟩))
    (ha : (getopt_cvss getopt_long atof fresh argv optind (some action)).action = some a) :
    (¬ help_first rs → (a.op = OSCAP_OP_BASE ∨ a.op = OSCAP_OP_ENV) →
      (¬ occurs 0 rs ∨ ¬ occurs 1 rs ∨ ¬ occurs 2 rs ∨ ¬ occurs 3 rs ∨ ¬ occurs 4 rs ∨
        ¬ occurs 5 rs) →
      (getopt_cvss getopt_long atof fresh argv optind (some action)).ret = -1) ∧
    (¬ help_first rs → a.op = OSCAP_OP_TEMP → ¬ occurs 14 rs →
      (getopt_cvss getopt_long atof fresh argv optind (some action)).ret = -1) ∧
    ((getopt_cvss getopt_long atof fresh argv optind (some action)).ret = 0 →
      (a.op = OSCAP_OP_BASE ∨ a.op = OSCAP_OP_ENV) →
      help_first rs ∨ (occurs 0 rs ∧ occurs 1 rs ∧ occurs 2 rs ∧ occurs 3 rs ∧ occurs 4 rs ∧
        occurs 5 rs)) ∧
    ((getopt_cvss getopt_long atof fresh argv optind (some action)).ret = 0 →
      a.op = OSCAP_OP_TEMP → help_first rs ∨ occurs 14 rs) := by
  have hret := getopt_cvss_ret getopt_long atof fresh argv optind action h rs a.op hrs (by
    rw [getopt_cvss_eq getopt_long atof fresh argv optind action h] at ha
    simp only [Option.some.injEq] at ha
    rw [← ha])
  refine ⟨?_, ?_, ?_, ?_⟩
  · intro h1 h2 h3
    rw [hret, if_neg h1]
    split_ifs <;> first | rfl | (exfalso; tauto)
  · intro h1 h2 h3
    rw [hret, if_neg h1]
    split_ifs <;> first | rfl | (exfalso; tauto)
  · intro h0 h2
    rw [hret] at h0
    by_contra hc
    rw [not_or] at hc
    rw [if_neg hc.1] at h0
    split_ifs at h0 with k1 k2 k3 k4
    all_goals first | (exact absurd h0 (by decide)) | tauto
  · intro h0 h2
    rw [hret] at h0
    by_contra hc
    rw [not_or] at hc
    rw [if_neg hc.1] at h0
    split_ifs at h0 with k1 k2 k3 k4
    all_goals first | (exact absurd h0 (by decide)) | tauto

/-- C4 (witness): `oscap cvss base --AV=local`: no help option, the operation is
base, `--AC` does not occur, and the return value is -1. -/
theorem required_inputs_witness :
    ¬ help_first [⟨0, "local"⟩] ∧ ¬ occurs 1 [⟨0, "local"⟩] ∧
    (getopt_cvss (getopt_long_on ["oscap", "cvss", "base", "--AV=local"] [⟨0, "local"⟩])
        (fun _ => 0) ⟨0, 0, 0, 0, 0, 0, 0, 0, 0, 0, 0, 0, 0, 0, 0⟩
        ["oscap", "cvss", "base", "--AV=local"] 1
        (some ⟨OSCAP_STD_OTHER 0, OSCAP_OP_UNKNOWN,
          ⟨0, 0, 0, 0, 0, 0, 0, 0, 0, 0, 0, 0, 0, 0, 0⟩⟩)).ret = -1 :=
  ⟨by decide, by decide,
    (required_inputs (getopt_long_on ["oscap", "cvss", "base", "--AV=local"] [⟨0, "local"⟩])
      (fun _ => 0) ⟨0, 0, 0, 0, 0, 0, 0, 0, 0, 0, 0, 0, 0, 0, 0⟩
      ["oscap", "cvss", "base", "--AV=local"] 1
      ⟨OSCAP_STD_OTHER 0, OSCAP_OP_UNKNOWN, ⟨0, 0, 0, 0, 0, 0, 0, 0, 0, 0, 0, 0, 0, 0, 0⟩⟩
      (by decide) [⟨0, "local"⟩]
      ⟨OSCAP_STD_CVSS, OSCAP_OP_BASE,
        ⟨AV_LOCAL, 0, 0, 0, 0, 0, EX_NOT_DEFINED, RL_NOT_DEFINED, RC_NOT_DEFINED,
          CD_NOT_DEFINED, TD_NOT_DEFINED, CR_NOT_DEFINED, IR_NOT_DEFINED, AR_NOT_DEFINED, 0⟩⟩
      (by decide) (by decide)).1 (by decide) (Or.inl (by decide))
      (Or.inr (Or.inl (by decide)))⟩

/-- The parameter check, as a condition on the operation and the options seen. -/
theorem check_zero_iff (u b t o0 o1 o2 o3 o4 o5 o14 : Prop) [Decidable u] [Decidable b]
    [Decidable t] [Decidable o0] [Decidable o1] [Decidable o2] [Decidable o3] [Decidable o4]
    [Decidable o5] [Decidable o14] :
    ((if u then (-1 : Int)
      else if b ∧ (¬ o0 ∨ ¬ o1 ∨ ¬ o2 ∨ ¬ o3 ∨ ¬ o4 ∨ ¬ o5) then -1
      else if t ∧ ¬ o14 then -1 else 0) = 0) ↔
      (¬ u ∧ (b → o0 ∧ o1 ∧ o2 ∧ o3 ∧ o4 ∧ o5) ∧ (t → o14)) := by
  split_ifs with h1 h2 h3
  · simp [h1]
  · simp only [neg_eq_zero, one_ne_zero, false_iff]
    tauto
  · simp only [neg_eq_zero, one_ne_zero, false_iff]
    tauto
  · simp only [true_iff]
    refine ⟨h1, fun hb => ?_, fun ht => ?_⟩
    · by_contra hc
      exact h2 ⟨hb, by tauto⟩
    · by_contra hc
      exact h3 ⟨ht, hc⟩

/-- C10: for a non-null action and an `argv` that holds a word after `argv[optind]`,
`getopt_cvss` returns 0 or -1, and it returns 0 exactly when (a) a help option
occurs with no invalid token before it, or (b) no help option occurs, no metric
option carries a token outside its closed set, the operation is not
`OSCAP_OP_UNKNOWN`, and the inputs the operation requires occur (all six of AV, AC,
AU, CI, II, AI for base and environmental, `--base` for temporal).  The operation is
the one the word names, or else the one the caller had set.  The first help or
invalid-token option decides: after options that are neither, a help option gives 0
and an invalid token gives -1, whatever follows. -/
theorem return_code (getopt_long : getopt_long_t) (atof : String → ℚ) (fresh : cvss_metrics)
    (argv : List String) (optind : Nat) (action : oscap_action)
    (h : optind + 1 < argv.length) (rs : List getopt_result) (op : oscap_operation)
    (hrs : rs = parsed_options getopt_long argv optind (argv.get ⟨optind + 1, h⟩))
    (hop : op = (cvss_command (argv.get ⟨optind + 1, h⟩) action.op (optind + 1)).1) :
    ((getopt_cvss getopt_long atof fresh argv optind (some action)).ret = 0 ↔
      help_first rs ∨
      ((∀ r ∈ rs, ¬ is_help r) ∧ (∀ r ∈ rs, ¬ invalid_token r) ∧ op ≠ OSCAP_OP_UNKNOWN ∧
        ((op = OSCAP_OP_BASE ∨ op = OSCAP_OP_ENV) →
          occurs 0 rs ∧ occurs 1 rs ∧ occurs 2 rs ∧ occurs 3 rs ∧ occurs 4 rs ∧ occurs 5 rs) ∧
        (op = OSCAP_OP_TEMP → occurs 14 rs))) ∧
    ((getopt_cvss getopt_long atof fresh argv optind (some action)).ret = 0 ∨
      (getopt_cvss getopt_long atof fresh argv optind (some action)).ret = -1) ∧
    (help_first rs ↔
      ∃ pre r post, rs = pre ++ r :: post ∧ is_help r ∧ ∀ x ∈ pre, ¬ invalid_token x) ∧
    ((getopt_cvss getopt_long atof fresh argv optind (some action)).action.map (fun a => a.op)
      = some op) ∧
    (op = if argv.get ⟨optind + 1, h⟩ = "base" then OSCAP_OP_BASE
      else if argv.get ⟨optind + 1, h⟩ = "temporal" then OSCAP_OP_TEMP
      else if argv.get ⟨optind + 1, h⟩ = "environmental" then OSCAP_OP_ENV
      else action.op) ∧
    (∀ pre r post, rs = pre ++ r :: post → (∀ x ∈ pre, ¬ is_help x ∧ ¬ invalid_token x) →
      (is_help r → (getopt_cvss getopt_long atof fresh argv optind (some action)).ret = 0) ∧
      (invalid_token r →
        (getopt_cvss getopt_long atof fresh argv optind (some action)).ret = -1)) := by
  have hret := getopt_cvss_ret getopt_long atof fresh argv optind action h rs op hrs hop
  have hno : ¬ help_first rs → ¬ (∃ r ∈ rs, invalid_token r) → ∀ r ∈ rs, ¬ is_help r := by
    intro h1 h2 r hr hh
    apply h1
    rw [help_first_iff]
    obtain ⟨pre, post, e⟩ := List.append_of_mem hr
    exact ⟨pre, r, post, e, hh, fun x hx hi => h2 ⟨x, by rw [e]; simp [hx], hi⟩⟩
  have hyes : (∀ r ∈ rs, ¬ is_help r) → ¬ help_first rs := by
    intro h1 h2
    rw [help_first_iff] at h2
    obtain ⟨pre, r, post, e, hh, _⟩ := h2
    exact h1 r (by rw [e]; simp) hh
  refine ⟨?_, ?_, help_first_iff rs, ?_, ?_, ?_⟩
  · rw [hret]
    by_cases h1 : help_first rs
    · simp [h1]
    · rw [if_neg h1]
      by_cases h2 : ∃ r ∈ rs, invalid_token r
      · rw [if_pos h2]
        constructor
        · intro h0; exact absurd h0 (by decide)
        · rintro (h3 | ⟨_, h3, _⟩)
          · exact absurd h3 h1
          · obtain ⟨r, hr, hi⟩ := h2
            exact absurd hi (h3 r hr)
      · rw [if_neg h2, check_zero_iff]
        have h3 : ∀ r ∈ rs, ¬ invalid_token r := fun r hr hi => h2 ⟨r, hr, hi⟩
        have h4 := hno h1 h2
        constructor
        · rintro ⟨a1, a2, a3⟩
          exact Or.inr ⟨h4, h3, a1, a2, a3⟩
        · rintro (h5 | ⟨_, _, a1, a2, a3⟩)
          · exact absurd h5 h1
          · exact ⟨a1, a2, a3⟩
  · rw [hret]
    split_ifs <;> simp
  · rw [getopt_cvss_eq getopt_long atof fresh argv optind action h, hop]
    rfl
  · rw [hop]
    unfold cvss_command
    split_ifs <;> rfl
  · intro pre r post e hpre
    have hpre' : ¬ help_first pre := by
      rw [help_first_iff]
      rintro ⟨p, x, q, e', hx, _⟩
      exact (hpre x (by rw [e']; simp)).1 hx
    constructor
    · intro hh
      rw [hret, if_pos]
      rw [help_first_iff]
      exact ⟨pre, r, post, e, hh, fun x hx => (hpre x hx).2⟩
    · intro hi
      have h1 : ¬ help_first rs := by
        rw [help_first_iff]
        rintro ⟨p, x, q, e', hx, hp⟩
        rw [e] at e'
        rcases List.append_eq_append_iff.mp e' with ⟨l, e1, e2⟩ | ⟨l, e1, e2⟩
        · cases l with
          | nil =>
            simp only [List.nil_append, List.cons.injEq] at e2
            rw [e2.1] at hi
            exact invalid_not_help x hi hx
          | cons y l =>
            simp only [List.cons_append, List.cons.injEq] at e2
            exact hp r (by rw [e1, e2.1]; simp) hi
        · cases l with
          | nil =>
            simp only [List.nil_append, List.cons.injEq] at e2
            rw [← e2.1] at hi
            exact invalid_not_help x hi hx
          | cons y l =>
            simp only [List.cons_append, List.cons.injEq] at e2
            exact (hpre x (by rw [e1, e2.1]; simp)).1 hx
      rw [hret, if_neg h1, if_pos ⟨r, by rw [e]; simp, hi⟩]

/-! ## C6: defaults of the optional metrics -/

/-- C6: whenever `getopt_cvss` is given a non-null action, the action it leaves
holds a record in which each of `exe`, `rle`, `rce`, `cde`, `tde`, `cre`, `ire`,
`are` whose option (`--EX`, `--RL`, `--RC`, `--CD`, `--TD`, `--CR`, `--IR`, `--AR`)
does not occur equals the `NOT_DEFINED` enumerator of its dimension; when `argv`
ends at `argv[optind]` no option is read and all eight hold it. -/
theorem optional_defaults (getopt_long : getopt_long_t) (atof : String → ℚ)
    (fresh : cvss_metrics) (argv : List String) (optind : Nat) (action : oscap_action) :
    ∃ a, (getopt_cvss getopt_long atof fresh argv optind (some action)).action = some a ∧
      (argv.length ≤ optind + 1 →
        a.cvss_metrics.exe = EX_NOT_DEFINED ∧ a.cvss_metrics.rle = RL_NOT_DEFINED ∧
        a.cvss_metrics.rce = RC_NOT_DEFINED ∧ a.cvss_metrics.cde = CD_NOT_DEFINED ∧
        a.cvss_metrics.tde = TD_NOT_DEFINED ∧ a.cvss_metrics.cre = CR_NOT_DEFINED ∧
        a.cvss_metrics.ire = IR_NOT_DEFINED ∧ a.cvss_metrics.are = AR_NOT_DEFINED) ∧
      (∀ h : optind + 1 < argv.length,
        (¬ occurs 6 (parsed_options getopt_long argv optind (argv.get ⟨optind + 1, h⟩)) →
          a.cvss_metrics.exe = EX_NOT_DEFINED) ∧
        (¬ occurs 7 (parsed_options getopt_long argv optind (argv.get ⟨optind + 1, h⟩)) →
          a.cvss_metrics.rle = RL_NOT_DEFINED) ∧
        (¬ occurs 8 (parsed_options getopt_long argv optind (argv.get ⟨optind + 1, h⟩)) →
          a.cvss_metrics.rce = RC_NOT_DEFINED) ∧
        (¬ occurs 9 (parsed_options getopt_long argv optind (argv.get ⟨optind + 1, h⟩)) →
          a.cvss_metrics.cde = CD_NOT_DEFINED) ∧
        (¬ occurs 10 (parsed_options getopt_long argv optind (argv.get ⟨optind + 1, h⟩)) →
          a.cvss_metrics.tde = TD_NOT_DEFINED) ∧
        (¬ occurs 11 (parsed_options getopt_long argv optind (argv.get ⟨optind + 1, h⟩)) →
          a.cvss_metrics.cre = CR_NOT_DEFINED) ∧
        (¬ occurs 12 (parsed_options getopt_long argv optind (argv.get ⟨optind + 1, h⟩)) →
          a.cvss_metrics.ire = IR_NOT_DEFINED) ∧
        (¬ occurs 13 (parsed_options getopt_long argv optind (argv.get ⟨optind + 1, h⟩)) →
          a.cvss_metrics.are = AR_NOT_DEFINED)) := by
  by_cases h : optind + 1 < argv.length
  · rw [getopt_cvss_eq getopt_long atof fresh argv optind action h]
    refine ⟨_, rfl, fun h' => absurd h (by omega), fun _ => ⟨?_, ?_, ?_, ?_, ?_, ?_, ?_, ?_⟩⟩
    · intro hn
      exact loop_field atof (fun m => m.exe) 6
        (fun r s => (switch_frame atof r s).2.2.2.2.2.2.2.2.1) _ _ hn
    · intro hn
      exact loop_field atof (fun m => m.rle) 7
        (fun r s => (switch_frame atof r s).2.2.2.2.2.2.2.2.2.1) _ _ hn
    · intro hn
      exact loop_field atof (fun m => m.rce) 8
        (fun r s => (switch_frame atof r s).2.2.2.2.2.2.2.2.2.2.1) _ _ hn
    · intro hn
      exact loop_field atof (fun m => m.cde) 9
        (fun r s => (switch_frame atof r s).2.2.2.2.2.2.2.2.2.2.2.1) _ _ hn
    · intro hn
      exact loop_field atof (fun m => m.tde) 10
        (fun r s => (switch_frame atof r s).2.2.2.2.2.2.2.2.2.2.2.2.1) _ _ hn
    · intro hn
      exact loop_field atof (fun m => m.cre) 11
        (fun r s => (switch_frame atof r s).2.2.2.2.2.2.2.2.2.2.2.2.2.1) _ _ hn
    · intro hn
      exact loop_field atof (fun m => m.ire) 12
        (fun r s => (switch_frame atof r s).2.2.2.2.2.2.2.2.2.2.2.2.2.2.1) _ _ hn
    · intro hn
      exact loop_field atof (fun m => m.are) 13
        (fun r s => (switch_frame atof r s).2.2.2.2.2.2.2.2.2.2.2.2.2.2.2) _ _ hn
  · have hge : optind + 1 ≥ argv.length := by omega
    refine ⟨cvss_init fresh action, ?_, fun _ => ⟨rfl, rfl, rfl, rfl, rfl, rfl, rfl, rfl⟩,
      fun h' => absurd h' h⟩
    simp only [getopt_cvss, dif_pos hge]

/-- C6 (witness): `oscap cvss temporal --base 7.8 --EX high`: `--RL` does not occur
and `rle` is `RL_NOT_DEFINED` in the action left behind. -/
theorem optional_defaults_witness :
    ¬ occurs 7 (parsed_options
        (getopt_long_on ["oscap", "cvss", "temporal", "--base", "7.8", "--EX", "high"]
          [⟨14, "7.8"⟩, ⟨6, "high"⟩])
        ["oscap", "cvss", "temporal", "--base", "7.8", "--EX", "high"] 1 "temporal") ∧
    ∃ a, (getopt_cvss
        (getopt_long_on ["oscap", "cvss", "temporal", "--base", "7.8", "--EX", "high"]
          [⟨14, "7.8"⟩, ⟨6, "high"⟩])
        (fun _ => 7.8) ⟨0, 0, 0, 0, 0, 0, 0, 0, 0, 0, 0, 0, 0, 0, 0⟩
        ["oscap", "cvss", "temporal", "--base", "7.8", "--EX", "high"] 1
        (some ⟨OSCAP_STD_OTHER 0, OSCAP_OP_UNKNOWN,
          ⟨0, 0, 0, 0, 0, 0, 0, 0, 0, 0, 0, 0, 0, 0, 0⟩⟩)).action = some a ∧
      a.cvss_metrics.rle = RL_NOT_DEFINED :=
  ⟨by decide,
    (optional_defaults
      (getopt_long_on ["oscap", "cvss", "temporal", "--base", "7.8", "--EX", "high"]
        [⟨14, "7.8"⟩, ⟨6, "high"⟩])
      (fun _ => 7.8) ⟨0, 0, 0, 0, 0, 0, 0, 0, 0, 0, 0, 0, 0, 0, 0⟩
      ["oscap", "cvss", "temporal", "--base", "7.8", "--EX", "high"] 1
      ⟨OSCAP_STD_OTHER 0, OSCAP_OP_UNKNOWN,
        ⟨0, 0, 0, 0, 0, 0, 0, 0, 0, 0, 0, 0, 0, 0, 0⟩⟩).imp
      (fun _ ha => ⟨ha.1, (ha.2.2 (by decide)).2.1 (by decide)⟩)⟩

/-! ## C9: the `--base` option -/

/-- C9 (the code at the failing input): the case of `--base` never returns: for every
argument, numeric or not, it counts the option and stores what `atof` gives.  On
`oscap cvss temporal --base abc` the call returns 0 with `atof "abc"` as the base
score, where the claim has it return -1. -/
theorem base_option_unchecked :
    (∀ (atof : String → ℚ) (optarg : String) (s : loop_state),
      cvss_switch atof ⟨14, optarg⟩ s =
        (none, { s with base := s.base + 1, metrics := { s.metrics with base := atof optarg } })) ∧
    (∀ (atof : String → ℚ) (fresh : cvss_metrics) (action : oscap_action),
      (getopt_cvss (getopt_long_on ["oscap", "cvss", "temporal", "--base", "abc"] [⟨14, "abc"⟩])
        atof fresh ["oscap", "cvss", "temporal", "--base", "abc"] 1 (some action)).ret = 0 ∧
      ((getopt_cvss (getopt_long_on ["oscap", "cvss", "temporal", "--base", "abc"] [⟨14, "abc"⟩])
        atof fresh ["oscap", "cvss", "temporal", "--base", "abc"] 1 (some action)).action.map
          (fun a => a.cvss_metrics.base)) = some (atof "abc")) :=
  ⟨fun _ _ _ => rfl, fun _ _ _ => ⟨rfl, rfl⟩⟩

/-- C10 (witness): `oscap cvss --help` with the operation left unknown: a help
option is reached and the return value is 0. -/
theorem return_code_witness :
    help_first [⟨('h'.toNat : Int), ""⟩] ∧
    (getopt_cvss (getopt_long_on ["oscap", "cvss", "--help"] [⟨('h'.toNat : Int), ""⟩])
        (fun _ => 0) ⟨0, 0, 0, 0, 0, 0, 0, 0, 0, 0, 0, 0, 0, 0, 0⟩
        ["oscap", "cvss", "--help"] 1
        (some ⟨OSCAP_STD_OTHER 0, OSCAP_OP_UNKNOWN,
          ⟨0, 0, 0, 0, 0, 0, 0, 0, 0, 0, 0, 0, 0, 0, 0⟩⟩)).ret = 0 :=
  ⟨by decide,
    (return_code (getopt_long_on ["oscap", "cvss", "--help"] [⟨('h'.toNat : Int), ""⟩])
      (fun _ => 0) ⟨0, 0, 0, 0, 0, 0, 0, 0, 0, 0, 0, 0, 0, 0, 0⟩
      ["oscap", "cvss", "--help"] 1
      ⟨OSCAP_STD_OTHER 0, OSCAP_OP_UNKNOWN, ⟨0, 0, 0, 0, 0, 0, 0, 0, 0, 0, 0, 0, 0, 0, 0⟩⟩
      (by decide) [⟨('h'.toNat : Int), ""⟩] OSCAP_OP_UNKNOWN (by decide) (by decide)).1.mpr
      (Or.inl (by decide))⟩

/-! ## C11: frame of an option and last occurrence -/

set_option maxHeartbeats 4000000 in
/-- The seven fields that `switch_frame` leaves out: each of the six base metric
fields and the base score is written by its own option only. -/
theorem switch_frame_base (atof : String → ℚ) (r : getopt_result) (s : loop_state) :
    (r.c ≠ 0 → (cvss_switch atof r s).2.metrics.ave = s.metrics.ave) ∧
    (r.c ≠ 1 → (cvss_switch atof r s).2.metrics.ace = s.metrics.ace) ∧
    (r.c ≠ 2 → (cvss_switch atof r s).2.metrics.aue = s.metrics.aue) ∧
    (r.c ≠ 3 → (cvss_switch atof r s).2.metrics.cie = s.metrics.cie) ∧
    (r.c ≠ 4 → (cvss_switch atof r s).2.metrics.iie = s.metrics.iie) ∧
    (r.c ≠ 5 → (cvss_switch atof r s).2.metrics.aie = s.metrics.aie) ∧
    (r.c ≠ 14 → (cvss_switch atof r s).2.metrics.base = s.metrics.base) := by
  obtain ⟨c, optarg⟩ := r
  by_cases h104 : c = 104
  · subst h104
    unfold cvss_switch
    simp only [h_code]
    simp
  by_cases h0 : c = 0
  · subst h0
    unfold cvss_switch
    simp only [h_code]
    simp
    split_ifs <;> simp_all
  by_cases h1 : c = 1
  · subst h1
    unfold cvss_switch
    simp only [h_code]
    simp
    split_ifs <;> simp_all
  by_cases h2 : c = 2
  · subst h2
    unfold cvss_switch
    simp only [h_code]
    simp
    split_ifs <;> simp_all
  by_cases h3 : c = 3
  · subst h3
    unfold cvss_switch
    simp only [h_code]
    simp
    split_ifs <;> simp_all
  by_cases h4 : c = 4
  · subst h4
    unfold cvss_switch
    simp only [h_code]
    simp
    split_ifs <;> simp_all
  by_cases h5 : c = 5
  · subst h5
    unfold cvss_switch
    simp only [h_code]
    simp
    split_ifs <;> simp_all
  by_cases h6 : c = 6
  · subst h6
    unfold cvss_switch
    simp only [h_code]
    simp
    split_ifs <;> simp_all
  by_cases h7 : c = 7
  · subst h7
    unfold cvss_switch
    simp only [h_code]
    simp
    split_ifs <;> simp_all
  by_cases h8 : c = 8
  · subst h8
    unfold cvss_switch
    simp only [h_code]
    simp
    split_ifs <;> simp_all
  by_cases h9 : c = 9
  · subst h9
    unfold cvss_switch
    simp only [h_code]
    simp
    split_ifs <;> simp_all
  by_cases h10 : c = 10
  · subst h10
    unfold cvss_switch
    simp only [h_code]
    simp
    split_ifs <;> simp_all
  by_cases h11 : c = 11
  · subst h11
    unfold cvss_switch
    simp only [h_code]
    simp
    split_ifs <;> simp_all
  by_cases h12 : c = 12
  · subst h12
    unfold cvss_switch
    simp only [h_code]
    simp
    split_ifs <;> simp_all
  by_cases h13 : c = 13
  · subst h13
    unfold cvss_switch
    simp only [h_code]
    simp
    split_ifs <;> simp_all
  by_cases h14 : c = 14
  · subst h14
    unfold cvss_switch
    simp only [h_code]
    simp
  unfold cvss_switch
  simp [h_code, h104, h0, h1, h2, h3, h4, h5, h6, h7, h8, h9, h10, h11, h12, h13, h14]

set_option maxHeartbeats 4000000 in
/-- When the switch goes on, the value it leaves in the field of the option depends
on the option and its argument only, not on the state before. -/
theorem switch_determined (atof : String → ℚ) (r : getopt_result) (s s' : loop_state)
    (hn : (cvss_switch atof r s).1 = none) :
    (r.c = 0 →
      (cvss_switch atof r s).2.metrics.ave = (cvss_switch atof r s').2.metrics.ave) ∧
    (r.c = 1 →
      (cvss_switch atof r s).2.metrics.ace = (cvss_switch atof r s').2.metrics.ace) ∧
    (r.c = 2 →
      (cvss_switch atof r s).2.metrics.aue = (cvss_switch atof r s').2.metrics.aue) ∧
    (r.c = 3 →
      (cvss_switch atof r s).2.metrics.cie = (cvss_switch atof r s').2.metrics.cie) ∧
    (r.c = 4 →
      (cvss_switch atof r s).2.metrics.iie = (cvss_switch atof r s').2.metrics.iie) ∧
    (r.c = 5 →
      (cvss_switch atof r s).2.metrics.aie = (cvss_switch atof r s').2.metrics.aie) ∧
    (r.c = 6 →
      (cvss_switch atof r s).2.metrics.exe = (cvss_switch atof r s').2.metrics.exe) ∧
    (r.c = 7 →
      (cvss_switch atof r s).2.metrics.rle = (cvss_switch atof r s').2.metrics.rle) ∧
    (r.c = 8 →
      (cvss_switch atof r s).2.metrics.rce = (cvss_switch atof r s').2.metrics.rce) ∧
    (r.c = 9 →
      (cvss_switch atof r s).2.metrics.cde = (cvss_switch atof r s').2.metrics.cde) ∧
    (r.c = 10 →
      (cvss_switch atof r s).2.metrics.tde = (cvss_switch atof r s').2.metrics.tde) ∧
    (r.c = 11 →
      (cvss_switch atof r s).2.metrics.cre = (cvss_switch atof r s').2.metrics.cre) ∧
    (r.c = 12 →
      (cvss_switch atof r s).2.metrics.ire = (cvss_switch atof r s').2.metrics.ire) ∧
    (r.c = 13 →
      (cvss_switch atof r s).2.metrics.are = (cvss_switch atof r s').2.metrics.are) ∧
    (r.c = 14 →
      (cvss_switch atof r s).2.metrics.base = (cvss_switch atof r s').2.metrics.base) := by
  obtain ⟨c, optarg⟩ := r
  by_cases h104 : c = 104
  · subst h104
    unfold cvss_switch at hn ⊢
    simp only [h_code] at hn ⊢
    simp at hn ⊢
  by_cases h0 : c = 0
  · subst h0
    unfold cvss_switch at hn ⊢
    simp only [h_code] at hn ⊢
    simp at hn ⊢
    split_ifs at hn ⊢ <;> simp_all
  by_cases h1 : c = 1
  · subst h1
    unfold cvss_switch at hn ⊢
    simp only [h_code] at hn ⊢
    simp at hn ⊢
    split_ifs at hn ⊢ <;> simp_all
  by_cases h2 : c = 2
  · subst h2
    unfold cvss_switch at hn ⊢
    simp only [h_code] at hn ⊢
    simp at hn ⊢
    split_ifs at hn ⊢ <;> simp_all
  by_cases h3 : c = 3
  · subst h3
    unfold cvss_switch at hn ⊢
    simp only [h_code] at hn ⊢
    simp at hn ⊢
    split_ifs at hn ⊢ <;> simp_all
  by_cases h4 : c = 4
  · subst h4
    unfold cvss_switch at hn ⊢
    simp only [h_code] at hn ⊢
    simp at hn ⊢
    split_ifs at hn ⊢ <;> simp_all
  by_cases h5 : c = 5
  · subst h5
    unfold cvss_switch at hn ⊢
    simp only [h_code] at hn ⊢
    simp at hn ⊢
    split_ifs at hn ⊢ <;> simp_all
  by_cases h6 : c = 6
  · subst h6
    unfold cvss_switch at hn ⊢
    simp only [h_code] at hn ⊢
    simp at hn ⊢
    split_ifs at hn ⊢ <;> simp_all
  by_cases h7 : c = 7
  · subst h7
    unfold cvss_switch at hn ⊢
    simp only [h_code] at hn ⊢
    simp at hn ⊢
    split_ifs at hn ⊢ <;> simp_all
  by_cases h8 : c = 8
  · subst h8
    unfold cvss_switch at hn ⊢
    simp only [h_code] at hn ⊢
    simp at hn ⊢
    split_ifs at hn ⊢ <;> simp_all
  by_cases h9 : c = 9
  · subst h9
    unfold cvss_switch at hn ⊢
    simp only [h_code] at hn ⊢
    simp at hn ⊢
    split_ifs at hn ⊢ <;> simp_all
  by_cases h10 : c = 10
  · subst h10
    unfold cvss_switch at hn ⊢
    simp only [h_code] at hn ⊢
    simp at hn ⊢
    split_ifs at hn ⊢ <;> simp_all
  by_cases h11 : c = 11
  · subst h11
    unfold cvss_switch at hn ⊢
    simp only [h_code] at hn ⊢
    simp at hn ⊢
    split_ifs at hn ⊢ <;> simp_all
  by_cases h12 : c = 12
  · subst h12
    unfold cvss_switch at hn ⊢
    simp only [h_code] at hn ⊢
    simp at hn ⊢
    split_ifs at hn ⊢ <;> simp_all
  by_cases h13 : c = 13
  · subst h13
    unfold cvss_switch at hn ⊢
    simp only [h_code] at hn ⊢
    simp at hn ⊢
    split_ifs at hn ⊢ <;> simp_all
  by_cases h14 : c = 14
  · subst h14
    unfold cvss_switch at hn ⊢
    simp only [h_code] at hn ⊢
    simp at hn ⊢
  unfold cvss_switch
  simp [h_code, h104, h0, h1, h2, h3, h4, h5, h6, h7, h8, h9, h10, h11, h12, h13, h14]

theorem last_occurrence_cons (c : Int) (r : getopt_result) (rs : List getopt_result) :
    last_occurrence c (r :: rs) =
      match last_occurrence c rs with
      | some x => some x
      | none => if r.c = c then some r else none := by
  unfold last_occurrence
  rw [List.reverse_cons, List.find?_append]
  cases h : List.find? (fun r => decide (r.c = c)) rs.reverse with
  | some x => simp
  | none =>
    by_cases hc : r.c = c <;> simp [List.find?, hc]

theorem last_occurrence_some (c : Int) (rs : List getopt_result) (x : getopt_result)
    (h : last_occurrence c rs = some x) : x ∈ rs ∧ x.c = c := by
  unfold last_occurrence at h
  refine ⟨List.mem_reverse.mp (List.mem_of_find?_eq_some h), ?_⟩
  simpa using List.find?_some h

theorem last_occurrence_none (c : Int) (rs : List getopt_result) :
    last_occurrence c rs = none ↔ ¬ occurs c rs := by
  unfold last_occurrence occurs
  simp [List.find?_eq_none]

theorem switch_running (atof : String → ℚ) (r : getopt_result) (s : loop_state)
    (h : ¬ is_help r ∧ ¬ invalid_token r) : (cvss_switch atof r s).1 = none := by
  rw [switch_result, if_neg h.1, if_neg h.2]

theorem loop_running (atof : String → ℚ) (rs : List getopt_result) (s : loop_state)
    (h : ∀ r ∈ rs, ¬ is_help r ∧ ¬ invalid_token r) :
    (cvss_option_loop atof rs s).1 = none := by
  induction rs generalizing s with
  | nil => rfl
  | cons r rs ih =>
    rw [loop_cons, if_pos (switch_running atof r s (h r (List.mem_cons_self _ _)))]
    exact ih _ (fun x hx => h x (List.mem_cons_of_mem _ hx))

/-- A field that the switch writes on option `k` only, with a value fixed by the
option and its argument, ends a loop without help option and without invalid token
with the value that the last occurrence of option `k` alone gives it. -/
theorem loop_last {α : Type} (atof : String → ℚ) (f : cvss_metrics → α) (k : Int)
    (hframe : ∀ r s, r.c ≠ k → f (cvss_switch atof r s).2.metrics = f s.metrics)
    (hdet : ∀ r s s', (cvss_switch atof r s).1 = none → r.c = k →
      f (cvss_switch atof r s).2.metrics = f (cvss_switch atof r s').2.metrics)
    (rs : List getopt_result) (s : loop_state)
    (h : ∀ r ∈ rs, ¬ is_help r ∧ ¬ invalid_token r) :
    f (cvss_option_loop atof rs s).2.metrics =
      f (cvss_option_loop atof (last_occurrence k rs).toList s).2.metrics := by
  induction rs generalizing s with
  | nil => rfl
  | cons r rs ih =>
    have hr := switch_running atof r s (h r (List.mem_cons_self _ _))
    have hrs : ∀ x ∈ rs, ¬ is_help x ∧ ¬ invalid_token x :=
      fun x hx => h x (List.mem_cons_of_mem _ hx)
    rw [loop_cons, if_pos hr, ih _ hrs, last_occurrence_cons]
    cases hl : last_occurrence k rs with
    | some x =>
      obtain ⟨hx, hk⟩ := last_occurrence_some k rs x hl
      have e : ∀ t, cvss_option_loop atof (some x).toList t = cvss_switch atof x t := by
        intro t
        show cvss_option_loop atof [x] t = _
        rw [loop_cons, if_pos (switch_running atof x t (hrs x hx))]
        have := switch_running atof x t (hrs x hx)
        rcases hsw : cvss_switch atof x t with ⟨o, t'⟩
        rw [hsw] at this
        simp only at this
        subst this
        rfl
      simp only [e]
      exact hdet x _ _ (switch_running atof x _ (hrs x hx)) hk
    | none =>
      by_cases hc : r.c = k
      · simp only [if_pos hc]
        show f (cvss_switch atof r s).2.metrics = f (cvss_option_loop atof [r] s).2.metrics
        rw [loop_cons, if_pos hr]
        rfl
      · simp only [if_neg hc]
        exact hframe r s hc

theorem metrics_ext (a b : cvss_metrics) (h0 : a.ave = b.ave) (h1 : a.ace = b.ace)
    (h2 : a.aue = b.aue) (h3 : a.cie = b.cie) (h4 : a.iie = b.iie) (h5 : a.aie = b.aie)
    (h6 : a.exe = b.exe) (h7 : a.rle = b.rle) (h8 : a.rce = b.rce) (h9 : a.cde = b.cde)
    (h10 : a.tde = b.tde) (h11 : a.cre = b.cre) (h12 : a.ire = b.ire) (h13 : a.are = b.are)
    (h14 : a.base = b.base) : a = b := by
  cases a; cases b; simp_all

/-- The record at the end of a loop without help option and without invalid token,
field by field, is given by the last occurrence of the option of the field. -/
theorem loop_last_fields (atof : String → ℚ) (rs : List getopt_result) (s : loop_state)
    (h : ∀ r ∈ rs, ¬ is_help r ∧ ¬ invalid_token r) :
    (cvss_option_loop atof rs s).2.metrics.ave =
      (cvss_option_loop atof (last_occurrence 0 rs).toList s).2.metrics.ave ∧
    (cvss_option_loop atof rs s).2.metrics.ace =
      (cvss_option_loop atof (last_occurrence 1 rs).toList s).2.metrics.ace ∧
    (cvss_option_loop atof rs s).2.metrics.aue =
      (cvss_option_loop atof (last_occurrence 2 rs).toList s).2.metrics.aue ∧
    (cvss_option_loop atof rs s).2.metrics.cie =
      (cvss_option_loop atof (last_occurrence 3 rs).toList s).2.metrics.cie ∧
    (cvss_option_loop atof rs s).2.metrics.iie =
      (cvss_option_loop atof (last_occurrence 4 rs).toList s).2.metrics.iie ∧
    (cvss_option_loop atof rs s).2.metrics.aie =
      (cvss_option_loop atof (last_occurrence 5 rs).toList s).2.metrics.aie ∧
    (cvss_option_loop atof rs s).2.metrics.exe =
      (cvss_option_loop atof (last_occurrence 6 rs).toList s).2.metrics.exe ∧
    (cvss_option_loop atof rs s).2.metrics.rle =
      (cvss_option_loop atof (last_occurrence 7 rs).toList s).2.metrics.rle ∧
    (cvss_option_loop atof rs s).2.metrics.rce =
      (cvss_option_loop atof (last_occurrence 8 rs).toList s).2.metrics.rce ∧
    (cvss_option_loop atof rs s).2.metrics.cde =
      (cvss_option_loop atof (last_occurrence 9 rs).toList s).2.metrics.cde ∧
    (cvss_option_loop atof rs s).2.metrics.tde =
      (cvss_option_loop atof (last_occurrence 10 rs).toList s).2.metrics.tde ∧
    (cvss_option_loop atof rs s).2.metrics.cre =
      (cvss_option_loop atof (last_occurrence 11 rs).toList s).2.metrics.cre ∧
    (cvss_option_loop atof rs s).2.metrics.ire =
      (cvss_option_loop atof (last_occurrence 12 rs).toList s).2.metrics.ire ∧
    (cvss_option_loop atof rs s).2.metrics.are =
      (cvss_option_loop atof (last_occurrence 13 rs).toList s).2.metrics.are ∧
    (cvss_option_loop atof rs s).2.metrics.base =
      (cvss_option_loop atof (last_occurrence 14 rs).toList s).2.metrics.base := by
  refine ⟨?_, ?_, ?_, ?_, ?_, ?_, ?_, ?_, ?_, ?_, ?_, ?_, ?_, ?_, ?_⟩
  · exact loop_last atof (fun m => m.ave) 0 (fun r s => (switch_frame_base atof r s).1)
      (fun r s t hn => (switch_determined atof r s t hn).1) rs s h
  · exact loop_last atof (fun m => m.ace) 1 (fun r s => (switch_frame_base atof r s).2.1)
      (fun r s t hn => (switch_determined atof r s t hn).2.1) rs s h
  · exact loop_last atof (fun m => m.aue) 2 (fun r s => (switch_frame_base atof r s).2.2.1)
      (fun r s t hn => (switch_determined atof r s t hn).2.2.1) rs s h
  · exact loop_last atof (fun m => m.cie) 3 (fun r s => (switch_frame_base atof r s).2.2.2.1)
      (fun r s t hn => (switch_determined atof r s t hn).2.2.2.1) rs s h
  · exact loop_last atof (fun m => m.iie) 4 (fun r s => (switch_frame_base atof r s).2.2.2.2.1)
      (fun r s t hn => (switch_determined atof r s t hn).2.2.2.2.1) rs s h
  · exact loop_last atof (fun m => m.aie) 5 (fun r s => (switch_frame_base atof r s).2.2.2.2.2.1)
      (fun r s t hn => (switch_determined atof r s t hn).2.2.2.2.2.1) rs s h
  · exact loop_last atof (fun m => m.exe) 6 (fun r s => (switch_frame atof r s).2.2.2.2.2.2.2.2.1)
      (fun r s t hn => (switch_determined atof r s t hn).2.2.2.2.2.2.1) rs s h
  · exact loop_last atof (fun m => m.rle) 7 (fun r s => (switch_frame atof r s).2.2.2.2.2.2.2.2.2.1)
      (fun r s t hn => (switch_determined atof r s t hn).2.2.2.2.2.2.2.1) rs s h
  · exact loop_last atof (fun m => m.rce) 8 (fun r s => (switch_frame atof r s).2.2.2.2.2.2.2.2.2.2.1)
      (fun r s t hn => (switch_determined atof r s t hn).2.2.2.2.2.2.2.2.1) rs s h
  · exact loop_last atof (fun m => m.cde) 9 (fun r s => (switch_frame atof r s).2.2.2.2.2.2.2.2.2.2.2.1)
      (fun r s t hn => (switch_determined atof r s t hn).2.2.2.2.2.2.2.2.2.1) rs s h
  · exact loop_last atof (fun m => m.tde) 10 (fun r s => (switch_frame atof r s).2.2.2.2.2.2.2.2.2.2.2.2.1)
      (fun r s t hn => (switch_determined atof r s t hn).2.2.2.2.2.2.2.2.2.2.1) rs s h
  · exact loop_last atof (fun m => m.cre) 11 (fun r s => (switch_frame atof r s).2.2.2.2.2.2.2.2.2.2.2.2.2.1)
      (fun r s t hn => (switch_determined atof r s t hn).2.2.2.2.2.2.2.2.2.2.2.1) rs s h
  · exact loop_last atof (fun m => m.ire) 12 (fun r s => (switch_frame atof r s).2.2.2.2.2.2.2.2.2.2.2.2.2.2.1)
      (fun r s t hn => (switch_determined atof r s t hn).2.2.2.2.2.2.2.2.2.2.2.2.1) rs s h
  · exact loop_last atof (fun m => m.are) 13 (fun r s => (switch_frame atof r s).2.2.2.2.2.2.2.2.2.2.2.2.2.2.2)
      (fun r s t hn => (switch_determined atof r s t hn).2.2.2.2.2.2.2.2.2.2.2.2.2.1) rs s h
  · exact loop_last atof (fun m => m.base) 14 (fun r s => (switch_frame_base atof r s).2.2.2.2.2.2)
      (fun r s t hn => (switch_determined atof r s t hn).2.2.2.2.2.2.2.2.2.2.2.2.2.2) rs s h

/-- Two lists of options without help option and without invalid token that agree,
for each of the fifteen options, on the last occurrence lead the loop to the same
record. -/
theorem loop_same_record (atof : String → ℚ) (rs rs' : List getopt_result) (s : loop_state)
    (h : ∀ r ∈ rs, ¬ is_help r ∧ ¬ invalid_token r)
    (h' : ∀ r ∈ rs', ¬ is_help r ∧ ¬ invalid_token r)
    (hl : ∀ c : Int, 0 ≤ c → c ≤ 14 → last_occurrence c rs = last_occurrence c rs') :
    (cvss_option_loop atof rs s).2.metrics = (cvss_option_loop atof rs' s).2.metrics := by
  obtain ⟨a0, a1, a2, a3, a4, a5, a6, a7, a8, a9, a10, a11, a12, a13, a14⟩ :=
    loop_last_fields atof rs s h
  obtain ⟨b0, b1, b2, b3, b4, b5, b6, b7, b8, b9, b10, b11, b12, b13, b14⟩ :=
    loop_last_fields atof rs' s h'
  apply metrics_ext
  · rw [a0, b0, hl 0 (by decide) (by decide)]
  · rw [a1, b1, hl 1 (by decide) (by decide)]
  · rw [a2, b2, hl 2 (by decide) (by decide)]
  · rw [a3, b3, hl 3 (by decide) (by decide)]
  · rw [a4, b4, hl 4 (by decide) (by decide)]
  · rw [a5, b5, hl 5 (by decide) (by decide)]
  · rw [a6, b6, hl 6 (by decide) (by decide)]
  · rw [a7, b7, hl 7 (by decide) (by decide)]
  · rw [a8, b8, hl 8 (by decide) (by decide)]
  · rw [a9, b9, hl 9 (by decide) (by decide)]
  · rw [a10, b10, hl 10 (by decide) (by decide)]
  · rw [a11, b11, hl 11 (by decide) (by decide)]
  · rw [a12, b12, hl 12 (by decide) (by decide)]
  · rw [a13, b13, hl 13 (by decide) (by decide)]
  · rw [a14, b14, hl 14 (by decide) (by decide)]

theorem occurs_perm (c : Int) (rs rs' : List getopt_result) (hp : rs.Perm rs') :
    occurs c rs ↔ occurs c rs' := by
  unfold occurs
  constructor
  · rintro ⟨r, hr, hc⟩; exact ⟨r, hp.mem_iff.mp hr, hc⟩
  · rintro ⟨r, hr, hc⟩; exact ⟨r, hp.mem_iff.mpr hr, hc⟩

theorem not_help_first (rs : List getopt_result) (h : ∀ r ∈ rs, ¬ is_help r ∧ ¬ invalid_token r) :
    ¬ help_first rs := by
  rw [help_first_iff]
  rintro ⟨pre, r, post, e, hr, _⟩
  exact (h r (by rw [e]; simp)).1 hr

/-- C11: the switch leaves every field of the record other than the field of the
option it handles as it was (so a metric option with a valid token changes only the
field of its dimension), and goes on when the option is neither a help option nor
an invalid token.  For every list of options in which all tokens are valid and no
help option occurs, each field at the end of the loop is the one that the last
occurrence of the option of that field alone gives it, which is the initial value
when the option does not occur.  Two command lines with the same operation word
whose options are permutations of each other, all valid and without help option,
and that agree for each of the fifteen options on which occurrence is last, make
`getopt_cvss` return the same code and leave the same action and record. -/
theorem option_frame_last_wins :
    (∀ (atof : String → ℚ) (r : getopt_result) (s : loop_state),
      (¬ is_help r → ¬ invalid_token r → (cvss_switch atof r s).1 = none) ∧
      (r.c ≠ 0 → (cvss_switch atof r s).2.metrics.ave = s.metrics.ave) ∧
      (r.c ≠ 1 → (cvss_switch atof r s).2.metrics.ace = s.metrics.ace) ∧
      (r.c ≠ 2 → (cvss_switch atof r s).2.metrics.aue = s.metrics.aue) ∧
      (r.c ≠ 3 → (cvss_switch atof r s).2.metrics.cie = s.metrics.cie) ∧
      (r.c ≠ 4 → (cvss_switch atof r s).2.metrics.iie = s.metrics.iie) ∧
      (r.c ≠ 5 → (cvss_switch atof r s).2.metrics.aie = s.metrics.aie) ∧
      (r.c ≠ 6 → (cvss_switch atof r s).2.metrics.exe = s.metrics.exe) ∧
      (r.c ≠ 7 → (cvss_switch atof r s).2.metrics.rle = s.metrics.rle) ∧
      (r.c ≠ 8 → (cvss_switch atof r s).2.metrics.rce = s.metrics.rce) ∧
      (r.c ≠ 9 → (cvss_switch atof r s).2.metrics.cde = s.metrics.cde) ∧
      (r.c ≠ 10 → (cvss_switch atof r s).2.metrics.tde = s.metrics.tde) ∧
      (r.c ≠ 11 → (cvss_switch atof r s).2.metrics.cre = s.metrics.cre) ∧
      (r.c ≠ 12 → (cvss_switch atof r s).2.metrics.ire = s.metrics.ire) ∧
      (r.c ≠ 13 → (cvss_switch atof r s).2.metrics.are = s.metrics.are) ∧
      (r.c ≠ 14 → (cvss_switch atof r s).2.metrics.base = s.metrics.base)) ∧
    (∀ (atof : String → ℚ) (rs : List getopt_result) (s : loop_state),
      (∀ r ∈ rs, ¬ is_help r ∧ ¬ invalid_token r) →
      (cvss_option_loop atof rs s).2.metrics.ave =
        (cvss_option_loop atof (last_occurrence 0 rs).toList s).2.metrics.ave ∧
      (cvss_option_loop atof rs s).2.metrics.ace =
        (cvss_option_loop atof (last_occurrence 1 rs).toList s).2.metrics.ace ∧
      (cvss_option_loop atof rs s).2.metrics.aue =
        (cvss_option_loop atof (last_occurrence 2 rs).toList s).2.metrics.aue ∧
      (cvss_option_loop atof rs s).2.metrics.cie =
        (cvss_option_loop atof (last_occurrence 3 rs).toList s).2.metrics.cie ∧
      (cvss_option_loop atof rs s).2.metrics.iie =
        (cvss_option_loop atof (last_occurrence 4 rs).toList s).2.metrics.iie ∧
      (cvss_option_loop atof rs s).2.metrics.aie =
        (cvss_option_loop atof (last_occurrence 5 rs).toList s).2.metrics.aie ∧
      (cvss_option_loop atof rs s).2.metrics.exe =
        (cvss_option_loop atof (last_occurrence 6 rs).toList s).2.metrics.exe ∧
      (cvss_option_loop atof rs s).2.metrics.rle =
        (cvss_option_loop atof (last_occurrence 7 rs).toList s).2.metrics.rle ∧
      (cvss_option_loop atof rs s).2.metrics.rce =
        (cvss_option_loop atof (last_occurrence 8 rs).toList s).2.metrics.rce ∧
      (cvss_option_loop atof rs s).2.metrics.cde =
        (cvss_option_loop atof (last_occurrence 9 rs).toList s).2.metrics.cde ∧
      (cvss_option_loop atof rs s).2.metrics.tde =
        (cvss_option_loop atof (last_occurrence 10 rs).toList s).2.metrics.tde ∧
      (cvss_option_loop atof rs s).2.metrics.cre =
        (cvss_option_loop atof (last_occurrence 11 rs).toList s).2.metrics.cre ∧
      (cvss_option_loop atof rs s).2.metrics.ire =
        (cvss_option_loop atof (last_occurrence 12 rs).toList s).2.metrics.ire ∧
      (cvss_option_loop atof rs s).2.metrics.are =
        (cvss_option_loop atof (last_occurrence 13 rs).toList s).2.metrics.are ∧
      (cvss_option_loop atof rs s).2.metrics.base =
        (cvss_option_loop atof (last_occurrence 14 rs).toList s).2.metrics.base) ∧
    (∀ (atof : String → ℚ) (s : loop_state) (c : Int) (rs : List getopt_result),
      cvss_option_loop atof [] s = (none, s) ∧
      (last_occurrence c rs = none ↔ ¬ occurs c rs) ∧
      (∀ x, last_occurrence c rs = some x → x ∈ rs ∧ x.c = c)) ∧
    (∀ (getopt_long getopt_long' : getopt_long_t) (atof : String → ℚ) (fresh : cvss_metrics)
      (argv argv' : List String) (optind : Nat) (action : oscap_action)
      (h : optind + 1 < argv.length) (h' : optind + 1 < argv'.length),
      argv.get ⟨optind + 1, h⟩ = argv'.get ⟨optind + 1, h'⟩ →
      (parsed_options getopt_long argv optind (argv.get ⟨optind + 1, h⟩)).Perm
        (parsed_options getopt_long' argv' optind (argv'.get ⟨optind + 1, h'⟩)) →
      (∀ r ∈ parsed_options getopt_long argv optind (argv.get ⟨optind + 1, h⟩),
        ¬ is_help r ∧ ¬ invalid_token r) →
      (∀ c : Int, 0 ≤ c → c ≤ 14 →
        last_occurrence c (parsed_options getopt_long argv optind (argv.get ⟨optind + 1, h⟩)) =
          last_occurrence c
            (parsed_options getopt_long' argv' optind (argv'.get ⟨optind + 1, h'⟩))) →
      getopt_cvss getopt_long atof fresh argv optind (some action) =
        getopt_cvss getopt_long' atof fresh argv' optind (some action)) := by
  refine ⟨?_, ?_, ?_, ?_⟩
  · intro atof r s
    exact ⟨fun h1 h2 => switch_running atof r s ⟨h1, h2⟩, (switch_frame_base atof r s).1, (switch_frame_base atof r s).2.1, (switch_frame_base atof r s).2.2.1, (switch_frame_base atof r s).2.2.2.1, (switch_frame_base atof r s).2.2.2.2.1, (switch_frame_base atof r s).2.2.2.2.2.1, (switch_frame atof r s).2.2.2.2.2.2.2.2.1, (switch_frame atof r s).2.2.2.2.2.2.2.2.2.1, (switch_frame atof r s).2.2.2.2.2.2.2.2.2.2.1, (switch_frame atof r s).2.2.2.2.2.2.2.2.2.2.2.1, (switch_frame atof r s).2.2.2.2.2.2.2.2.2.2.2.2.1, (switch_frame atof r s).2.2.2.2.2.2.2.2.2.2.2.2.2.1, (switch_frame atof r s).2.2.2.2.2.2.2.2.2.2.2.2.2.2.1, (switch_frame atof r s).2.2.2.2.2.2.2.2.2.2.2.2.2.2.2, (switch_frame_base atof r s).2.2.2.2.2.2⟩
  · intro atof rs s h
    exact loop_last_fields atof rs s h
  · intro atof s c rs
    exact ⟨rfl, last_occurrence_none c rs, last_occurrence_some c rs⟩
  · intro getopt_long getopt_long' atof fresh argv argv' optind action h h' hw hp hv hl
    obtain ⟨rs, hrs⟩ : ∃ rs, rs = parsed_options getopt_long argv optind
        (argv.get ⟨optind + 1, h⟩) := ⟨_, rfl⟩
    obtain ⟨rs', hrs'⟩ : ∃ rs', rs' = parsed_options getopt_long' argv' optind
        (argv'.get ⟨optind + 1, h'⟩) := ⟨_, rfl⟩
    rw [← hrs, ← hrs'] at hp hl
    rw [← hrs] at hv
    have hv' : ∀ r ∈ rs', ¬ is_help r ∧ ¬ invalid_token r :=
      fun r hr => hv r (hp.mem_iff.mpr hr)
    have hm := loop_same_record atof rs rs'
      ⟨(cvss_init fresh action).cvss_metrics, 0, 0, 0, 0, 0, 0, 0⟩ hv hv' hl
    have hret :
        (getopt_cvss getopt_long atof fresh argv optind (some action)).ret =
          (getopt_cvss getopt_long' atof fresh argv' optind (some action)).ret := by
      rw [getopt_cvss_ret getopt_long atof fresh argv optind action h rs _ hrs rfl,
        getopt_cvss_ret getopt_long' atof fresh argv' optind action h' rs' _ hrs'
          (by rw [← hw])]
      have n1 : ¬ help_first rs := not_help_first rs hv
      have n2 : ¬ help_first rs' := not_help_first rs' hv'
      have n3 : ¬ ∃ r ∈ rs, invalid_token r := fun ⟨r, hr, hi⟩ => (hv r hr).2 hi
      have n4 : ¬ ∃ r ∈ rs', invalid_token r := fun ⟨r, hr, hi⟩ => (hv' r hr).2 hi
      simp only [n1, n2, n3, n4, if_false, occurs_perm _ _ _ hp]
    have hact :
        (getopt_cvss getopt_long atof fresh argv optind (some action)).action =
          (getopt_cvss getopt_long' atof fresh argv' optind (some action)).action := by
      rw [getopt_cvss_eq getopt_long atof fresh argv optind action h,
        getopt_cvss_eq getopt_long' atof fresh argv' optind action h', ← hrs, ← hrs']
      simp only [hm, hw]
    rcases hg : getopt_cvss getopt_long atof fresh argv optind (some action) with ⟨r1, a1⟩
    rcases hg' : getopt_cvss getopt_long' atof fresh argv' optind (some action) with ⟨r2, a2⟩
    rw [hg, hg'] at hret hact
    simp only at hret hact
    rw [hret, hact]

/-- C11 (witness): `oscap cvss temporal --AV=local --base 7.8 --AV=network` and
`oscap cvss temporal --base 7.8 --AV=local --AV=network`: the options are valid,
without help option, permutations of each other with the same last occurrences, and
`getopt_cvss` gives the same result on both. -/
theorem option_frame_last_wins_witness :
    (∀ r ∈ ([⟨0, "local"⟩, ⟨14, "7.8"⟩, ⟨0, "network"⟩] : List getopt_result),
      ¬ is_help r ∧ ¬ invalid_token r) ∧
    getopt_cvss
        (getopt_long_on
          ["oscap", "cvss", "temporal", "--AV=local", "--base", "7.8", "--AV=network"]
          [⟨0, "local"⟩, ⟨14, "7.8"⟩, ⟨0, "network"⟩])
        (fun _ => 7.8) ⟨0, 0, 0, 0, 0, 0, 0, 0, 0, 0, 0, 0, 0, 0, 0⟩
        ["oscap", "cvss", "temporal", "--AV=local", "--base", "7.8", "--AV=network"] 1
        (some ⟨OSCAP_STD_OTHER 0, OSCAP_OP_UNKNOWN,
          ⟨0, 0, 0, 0, 0, 0, 0, 0, 0, 0, 0, 0, 0, 0, 0⟩⟩) =
      getopt_cvss
        (getopt_long_on
          ["oscap", "cvss", "temporal", "--base", "7.8", "--AV=local", "--AV=network"]
          [⟨14, "7.8"⟩, ⟨0, "local"⟩, ⟨0, "network"⟩])
        (fun _ => 7.8) ⟨0, 0, 0, 0, 0, 0, 0, 0, 0, 0, 0, 0, 0, 0, 0⟩
        ["oscap", "cvss", "temporal", "--base", "7.8", "--AV=local", "--AV=network"] 1
        (some ⟨OSCAP_STD_OTHER 0, OSCAP_OP_UNKNOWN,
          ⟨0, 0, 0, 0, 0, 0, 0, 0, 0, 0, 0, 0, 0, 0, 0⟩⟩) :=
  ⟨by decide,
    option_frame_last_wins.2.2.2
      (getopt_long_on
        ["oscap", "cvss", "temporal", "--AV=local", "--base", "7.8", "--AV=network"]
        [⟨0, "local"⟩, ⟨14, "7.8"⟩, ⟨0, "network"⟩])
      (getopt_long_on
        ["oscap", "cvss", "temporal", "--base", "7.8", "--AV=local", "--AV=network"]
        [⟨14, "7.8"⟩, ⟨0, "local"⟩, ⟨0, "network"⟩])
      (fun _ => 7.8) ⟨0, 0, 0, 0, 0, 0, 0, 0, 0, 0, 0, 0, 0, 0, 0⟩
      ["oscap", "cvss", "temporal", "--AV=local", "--base", "7.8", "--AV=network"]
      ["oscap", "cvss", "temporal", "--base", "7.8", "--AV=local", "--AV=network"] 1
      ⟨OSCAP_STD_OTHER 0, OSCAP_OP_UNKNOWN, ⟨0, 0, 0, 0, 0, 0, 0, 0, 0, 0, 0, 0, 0, 0, 0⟩⟩
      (by decide) (by decide) rfl
      (by decide)
      (by decide)
      (by intro c h0 h14; interval_cases c <;> rfl)⟩

end Cvss
